import Mathlib

/-!
# Verification of the geodesy core of middleclassmap.co.uk

This file gives a shallow embedding, in Lean 4 over the real numbers, of the
vendored geodesy library (Dms, Vector3d/Cartesian, LatLonEllipsoidal,
LatLonEllipsoidal_Datum, Cartesian_Datum, OsGridRef, LatLon_OsGridRef) bundled
with the repository, and proves or refutes the specification claims about it.

Modelling conventions:
* JavaScript double-precision numbers are modelled as exact real numbers `ℝ`
  (every finite double is a real number; rounding of individual operations is
  idealised away).  Where a claim is specifically about IEEE special values
  (`NaN`, `±Infinity`) a dedicated `JsNum`/`JsVal` domain with the relevant
  IEEE propagation rules is used instead.
* The JavaScript remainder operator `%` (truncated division remainder) is
  modelled by `jsRem` below.
* Grid-reference easting/northing values, which the source only ever builds
  from decimal digit strings or from millimetre-rounded numbers, are carried
  as rationals `ℚ` so that parsing and the constructor range check are
  decidable; they are cast to `ℝ` where the projection mathematics needs them.
-/

namespace Geodesy

/-- Truncation toward zero, as performed by JavaScript's `%` operator on the
quotient: `trunc r` is `⌊r⌋` for `r ≥ 0` and `⌈r⌉` for `r < 0`. -/
noncomputable def jsTrunc (r : ℝ) : ℤ :=
  if 0 ≤ r then ⌊r⌋ else ⌈r⌉

/-- JavaScript remainder operator `x % n`: the remainder of truncated division,
with the sign of the dividend. -/
noncomputable def jsRem (x n : ℝ) : ℝ :=
  x - n * jsTrunc (x / n)

/-- Number.prototype.toRadians from the source: degrees to radians. -/
noncomputable def toRadians (d : ℝ) : ℝ :=
  d * Real.pi / 180

/-- Number.prototype.toDegrees from the source: radians to degrees. -/
noncomputable def toDegrees (r : ℝ) : ℝ :=
  r * 180 / Real.pi

theorem jsTrunc_nonneg {r : ℝ} (h : 0 ≤ r) : jsTrunc r = ⌊r⌋ := if_pos h

theorem jsRem_nonneg_eq {x n : ℝ} (hx : 0 ≤ x) (hn : 0 < n) :
    jsRem x n = n * Int.fract (x / n) := by
  rw [jsRem, jsTrunc_nonneg (div_nonneg hx hn.le), Int.fract]
  have hne : n ≠ 0 := hn.ne'
  field_simp

/-- The double-remainder idiom `((x % n) + n) % n` used throughout `Dms` to
emulate a true modulo: it equals `n * Int.fract (x / n)` for positive `n`. -/
theorem jsmod_eq (x : ℝ) {n : ℝ} (hn : 0 < n) :
    jsRem (jsRem x n + n) n = n * Int.fract (x / n) := by
  have hfr : 0 ≤ Int.fract (x / n) := Int.fract_nonneg _
  have hfr' : Int.fract (x / n) < 1 := Int.fract_lt_one _
  have hfl : x - n * ⌊x / n⌋ = n * Int.fract (x / n) := by
    rw [Int.fract]
    have hne : n ≠ 0 := hn.ne'
    field_simp
  rcases le_or_lt 0 x with hx | hx
  · -- dividend nonnegative: x % n is already the true modulo, in [0, n)
    rw [jsRem_nonneg_eq hx hn]
    have hv : 0 ≤ n * Int.fract (x / n) := mul_nonneg hn.le hfr
    rw [jsRem_nonneg_eq (by linarith) hn]
    have hq : (n * Int.fract (x / n) + n) / n = Int.fract (x / n) + 1 := by
      field_simp
      ring
    rw [hq]
    rw [show Int.fract (x / n) + 1 = Int.fract (x / n) + ((1 : ℤ) : ℝ) by push_cast; ring]
    rw [Int.fract_add_int, Int.fract_eq_self.mpr ⟨hfr, hfr'⟩]
  · -- dividend negative: x % n = x - n * ⌈x / n⌉ lies in (-n, 0]
    have hxn : x / n < 0 := div_neg_of_neg_of_pos hx hn
    have h1 : jsRem x n = x - n * ⌈x / n⌉ := by
      rw [jsRem, jsTrunc, if_neg (not_le.mpr hxn)]
    rcases eq_or_ne (Int.fract (x / n)) 0 with hf | hf
    · -- x is an exact multiple of n: x % n = 0, then n % n = 0
      have hxf : x / n = (⌊x / n⌋ : ℝ) := by
        have h' := hf
        rw [Int.fract] at h'
        linarith
      have hceil : ⌈x / n⌉ = ⌊x / n⌋ := by
        have : ⌈x / n⌉ = ⌈((⌊x / n⌋ : ℤ) : ℝ)⌉ := by rw [← hxf]
        rw [this, Int.ceil_intCast]
      have h0 : jsRem x n = 0 := by
        rw [h1, hceil]
        rw [hf, mul_zero] at hfl
        linarith
      rw [h0, zero_add, jsRem_nonneg_eq hn.le hn, div_self hn.ne', Int.fract_one, hf]
    · -- x is not a multiple of n: the ceiling is the floor plus one
      have hflt : (⌊x / n⌋ : ℝ) < x / n := by
        rcases lt_or_eq_of_le (Int.floor_le (x / n)) with h | h
        · exact h
        · exfalso
          apply hf
          rw [Int.fract]
          linarith
      have hceil : ⌈x / n⌉ = ⌊x / n⌋ + 1 := by
        refine le_antisymm (Int.ceil_le.mpr ?_) (Int.add_one_le_iff.mpr ?_)
        · push_cast
          exact (Int.lt_floor_add_one (x / n)).le
        · exact Int.lt_ceil.mpr hflt
      have h2 : jsRem x n = n * Int.fract (x / n) - n := by
        rw [h1, hceil]
        push_cast
        rw [mul_add, mul_one]
        linarith
      rw [h2]
      have he : n * Int.fract (x / n) - n + n = n * Int.fract (x / n) := by ring
      rw [he, jsRem_nonneg_eq (mul_nonneg hn.le hfr) hn]
      rw [mul_div_cancel_left₀ _ hn.ne', Int.fract_eq_self.mpr ⟨hfr, hfr'⟩]

/-- Basic range fact: `n * Int.fract (x / n) ∈ [0, n)` for `n > 0`. -/
theorem jsmod_mem (x : ℝ) {n : ℝ} (hn : 0 < n) :
    0 ≤ n * Int.fract (x / n) ∧ n * Int.fract (x / n) < n := by
  constructor
  · exact mul_nonneg hn.le (Int.fract_nonneg _)
  · have h := mul_lt_mul_of_pos_left (Int.fract_lt_one (x / n)) hn
    linarith

namespace Dms

/-- Dms.wrap90 from the source: constrain degrees to the range −90..+90 using a
triangle-wave; values already in range are returned unchanged. -/
noncomputable def wrap90 (degrees : ℝ) : ℝ :=
  if -90 ≤ degrees ∧ degrees ≤ 90 then degrees
  else
    4 * 90 / 360 * |jsRem (jsRem (degrees - 360 / 4) 360 + 360) 360 - 360 / 2| - 90

/-- Dms.wrap180 from the source: constrain degrees to the range −180..+180
using a sawtooth wave; values already in range are returned unchanged. -/
noncomputable def wrap180 (degrees : ℝ) : ℝ :=
  if -180 ≤ degrees ∧ degrees ≤ 180 then degrees
  else
    jsRem (jsRem (2 * 180 * degrees / 360 - 360 / 2) 360 + 360) 360 - 180

/-- Dms.wrap360 from the source: constrain degrees to the range 0..360 using a
phase-shifted sawtooth wave; values already in range are returned unchanged. -/
noncomputable def wrap360 (degrees : ℝ) : ℝ :=
  if 0 ≤ degrees ∧ degrees < 360 then degrees
  else
    jsRem (jsRem (2 * 180 * degrees / 360) 360 + 360) 360

theorem wrap90_mem (d : ℝ) : -90 ≤ wrap90 d ∧ wrap90 d ≤ 90 := by
  rw [wrap90]
  split
  · next h => exact h
  · next h =>
    rw [jsmod_eq _ (by norm_num : (0 : ℝ) < 360)]
    obtain ⟨h0, h1⟩ := jsmod_mem ((d - 360 / 4)) (by norm_num : (0 : ℝ) < 360)
    constructor
    · have : 0 ≤ |360 * Int.fract ((d - 360 / 4) / 360) - 360 / 2| := abs_nonneg _
      nlinarith
    · have : |360 * Int.fract ((d - 360 / 4) / 360) - 360 / 2| ≤ 180 := by
        rw [abs_le]
        constructor <;> nlinarith
      nlinarith

theorem wrap180_mem (d : ℝ) : -180 ≤ wrap180 d ∧ wrap180 d ≤ 180 := by
  rw [wrap180]
  split
  · next h => exact h
  · next h =>
    rw [jsmod_eq _ (by norm_num : (0 : ℝ) < 360)]
    obtain ⟨h0, h1⟩ :=
      jsmod_mem ((2 * 180 * d / 360 - 360 / 2)) (by norm_num : (0 : ℝ) < 360)
    constructor <;> nlinarith

/-- Folding behaviour of `wrap90` (not clamping): input 91 is stored as 89. -/
theorem wrap90_91 : wrap90 91 = 89 := by
  rw [wrap90, if_neg (by norm_num)]
  rw [jsmod_eq _ (by norm_num : (0 : ℝ) < 360)]
  have : Int.fract ((91 - 360 / 4 : ℝ) / 360) = 1 / 360 := by
    rw [show ((91 - 360 / 4 : ℝ) / 360) = 1 / 360 by norm_num]
    rw [Int.fract_eq_self.mpr (by norm_num)]
  rw [this]
  rw [show (360 : ℝ) * (1 / 360) - 360 / 2 = -179 by norm_num]
  rw [abs_of_nonpos (by norm_num)]
  norm_num

/-- Closed form of `wrap360` on all of `ℝ`: it is the true modulo by 360. -/
theorem wrap360_eq (d : ℝ) : wrap360 d = 360 * Int.fract (d / 360) := by
  rw [wrap360]
  split
  · next h =>
    rw [Int.fract_eq_self.mpr ⟨div_nonneg h.1 (by norm_num), by nlinarith [h.2]⟩]
    field_simp
  · next h =>
    rw [show (2 : ℝ) * 180 * d / 360 = d by ring]
    exact jsmod_eq d (by norm_num)

end Dms

/-! ## Ellipsoidal geodetic point: stored state and lat/lon normalisation -/

/-- Stored state of a `LatLonEllipsoidal` object: the private fields `_lat`,
`_lon`, `_height` of the source class. -/
structure LatLonE where
  _lat : ℝ
  _lon : ℝ
  _height : ℝ

/-- LatLonEllipsoidal constructor for finite numeric input: normalises the
latitude by `Dms.wrap90` and the longitude by `Dms.wrap180` before storing
(the `isNaN`/`null` validation of the source cannot fire on real inputs). -/
noncomputable def LatLonE.mk' (lat lon height : ℝ) : LatLonE :=
  ⟨Dms.wrap90 lat, Dms.wrap180 lon, height⟩

/-- Setter `set lat(lat)` for finite numeric input: `isNaN(lat)` is false, so
the stored value is `Dms.wrap90(Number(lat))`. -/
noncomputable def LatLonE.setLat (p : LatLonE) (lat : ℝ) : LatLonE :=
  { p with _lat := Dms.wrap90 lat }

/-- Setter `set latitude(lat)` (alias of `lat`, same body). -/
noncomputable def LatLonE.setLatitude (p : LatLonE) (lat : ℝ) : LatLonE :=
  { p with _lat := Dms.wrap90 lat }

/-- Setter `set lon(lon)` for finite numeric input. -/
noncomputable def LatLonE.setLon (p : LatLonE) (lon : ℝ) : LatLonE :=
  { p with _lon := Dms.wrap180 lon }

/-- Setter `set lng(lon)` (alias, same body). -/
noncomputable def LatLonE.setLng (p : LatLonE) (lon : ℝ) : LatLonE :=
  { p with _lon := Dms.wrap180 lon }

/-- Setter `set longitude(lon)` (alias, same body). -/
noncomputable def LatLonE.setLongitude (p : LatLonE) (lon : ℝ) : LatLonE :=
  { p with _lon := Dms.wrap180 lon }

/-- C3: every geodetic point holds an in-range angle at all times: after
construction and after every latitude or longitude assignment, the stored
latitude lies in [-90, +90] and the stored longitude in [-180, +180], the
stored values being produced by the continuous wrap functions (folding, not
clamping: input 91 is stored as 89), for every finite numeric input. -/
theorem latlon_stored_angles_in_range :
    ∀ (lat lon height v : ℝ) (p : LatLonE),
      (LatLonE.mk' lat lon height)._lat = Dms.wrap90 lat ∧
      (LatLonE.mk' lat lon height)._lon = Dms.wrap180 lon ∧
      (-90 ≤ (LatLonE.mk' lat lon height)._lat ∧
        (LatLonE.mk' lat lon height)._lat ≤ 90) ∧
      (-180 ≤ (LatLonE.mk' lat lon height)._lon ∧
        (LatLonE.mk' lat lon height)._lon ≤ 180) ∧
      ((p.setLat v)._lat = Dms.wrap90 v ∧
        -90 ≤ (p.setLat v)._lat ∧ (p.setLat v)._lat ≤ 90) ∧
      ((p.setLatitude v)._lat = Dms.wrap90 v ∧
        -90 ≤ (p.setLatitude v)._lat ∧ (p.setLatitude v)._lat ≤ 90) ∧
      ((p.setLon v)._lon = Dms.wrap180 v ∧
        -180 ≤ (p.setLon v)._lon ∧ (p.setLon v)._lon ≤ 180) ∧
      ((p.setLng v)._lon = Dms.wrap180 v ∧
        -180 ≤ (p.setLng v)._lon ∧ (p.setLng v)._lon ≤ 180) ∧
      ((p.setLongitude v)._lon = Dms.wrap180 v ∧
        -180 ≤ (p.setLongitude v)._lon ∧ (p.setLongitude v)._lon ≤ 180) ∧
      Dms.wrap90 91 = 89 := by
  intro lat lon height v p
  refine ⟨rfl, rfl, Dms.wrap90_mem lat, Dms.wrap180_mem lon,
    ⟨rfl, (Dms.wrap90_mem v).1, (Dms.wrap90_mem v).2⟩,
    ⟨rfl, (Dms.wrap90_mem v).1, (Dms.wrap90_mem v).2⟩,
    ⟨rfl, (Dms.wrap180_mem v).1, (Dms.wrap180_mem v).2⟩,
    ⟨rfl, (Dms.wrap180_mem v).1, (Dms.wrap180_mem v).2⟩,
    ⟨rfl, (Dms.wrap180_mem v).1, (Dms.wrap180_mem v).2⟩,
    Dms.wrap90_91⟩

/-- C9: wrap360 is periodic-consistent: for every degree value x and every
integer k, `Dms.wrap360 x = Dms.wrap360 (x + 360 * k)` (the program's number
arithmetic being modelled as exact real arithmetic). -/
theorem wrap360_periodic :
    ∀ (x : ℝ) (k : ℤ), Dms.wrap360 x = Dms.wrap360 (x + 360 * k) := by
  intro x k
  rw [Dms.wrap360_eq, Dms.wrap360_eq]
  have h : (x + 360 * k) / 360 = x / 360 + (k : ℝ) := by
    field_simp
    ring
  rw [h, Int.fract_add_int]

/-! ## OS grid reference: constructor and range validation -/

/-- An OsGridRef object: easting/northing in metres from the OS Grid false
origin.  The source only ever stores decimal values, so the fields are carried
as rationals to keep the range check and parsing decidable. -/
structure OsGridRef where
  easting : ℚ
  northing : ℚ
deriving DecidableEq, Repr

/-- OsGridRef constructor: stores the given easting/northing and throws a
RangeError when the easting is negative or above 700000 m, or the northing is
negative or above 1300000 m (the `isNaN` disjunct cannot fire on rational
input). -/
def OsGridRef.create (easting northing : ℚ) : Except String OsGridRef :=
  if easting < 0 ∨ 700000 < easting then .error "invalid easting"
  else if northing < 0 ∨ 1300000 < northing then .error "invalid northing"
  else .ok ⟨easting, northing⟩

/-- C4: the OsGridRef constructor raises an error if and only if the easting
is negative or greater than 700000 metres, or the northing is negative or
greater than 1300000 metres (the NaN disjunct of the source check cannot fire
on finite numeric input); for every in-range pair the constructed reference
stores the given easting and northing unchanged. -/
theorem osgridref_create_range (e n : ℚ) :
    ((∃ msg, OsGridRef.create e n = .error msg) ↔
      ¬(0 ≤ e ∧ e ≤ 700000 ∧ 0 ≤ n ∧ n ≤ 1300000)) ∧
    (0 ≤ e ∧ e ≤ 700000 ∧ 0 ≤ n ∧ n ≤ 1300000 →
      OsGridRef.create e n = .ok ⟨e, n⟩) := by
  unfold OsGridRef.create
  constructor
  · constructor
    · rintro ⟨msg, hmsg⟩ ⟨h1, h2, h3, h4⟩
      rw [if_neg (by push_neg; constructor <;> linarith),
        if_neg (by push_neg; constructor <;> linarith)] at hmsg
      exact Except.noConfusion hmsg
    · intro h
      by_cases he : e < 0 ∨ 700000 < e
      · exact ⟨"invalid easting", by rw [if_pos he]⟩
      · have hn : n < 0 ∨ 1300000 < n := by
          push_neg at he
          by_contra hn
          push_neg at hn
          exact h ⟨he.1, he.2, hn.1, hn.2⟩
        exact ⟨"invalid northing", by rw [if_neg he, if_pos hn]⟩
  · rintro ⟨h1, h2, h3, h4⟩
    rw [if_neg (by push_neg; constructor <;> linarith),
      if_neg (by push_neg; constructor <;> linarith)]

/-- Witness for C4: the in-range pair (651409, 313177) is stored unchanged,
and easting 700001 is rejected. -/
theorem osgridref_create_range_witness :
    OsGridRef.create 651409 313177 = .ok ⟨651409, 313177⟩ ∧
    ∃ msg, OsGridRef.create 700001 100 = .error msg :=
  ⟨(osgridref_create_range 651409 313177).2 (by norm_num),
   (osgridref_create_range 700001 100).1.mpr (by norm_num)⟩

/-! ## Ellipsoids, datums and the Helmert 7-parameter transform -/

/-- A reference ellipsoid: semi-major axis, semi-minor axis, flattening. -/
structure Ellipsoid where
  a : ℝ
  b : ℝ
  f : ℝ

namespace Ellipsoids

noncomputable def WGS84 : Ellipsoid := ⟨6378137, 6356752.314245, 1 / 298.257223563⟩

noncomputable def Airy1830 : Ellipsoid := ⟨6377563.396, 6356256.909, 1 / 299.3249646⟩

noncomputable def AiryModified : Ellipsoid := ⟨6377340.189, 6356034.448, 1 / 299.3249646⟩

noncomputable def Bessel1841 : Ellipsoid := ⟨6377397.155, 6356078.962818, 1 / 299.1528128⟩

noncomputable def Clarke1866 : Ellipsoid := ⟨6378206.4, 6356583.8, 1 / 294.978698214⟩

noncomputable def Clarke1880IGN : Ellipsoid := ⟨6378249.2, 6356515.0, 1 / 293.466021294⟩

noncomputable def GRS80 : Ellipsoid := ⟨6378137, 6356752.31414, 1 / 298.257222101⟩

noncomputable def Intl1924 : Ellipsoid := ⟨6378388, 6356911.946, 1 / 297⟩

noncomputable def WGS72 : Ellipsoid := ⟨6378135, 6356750.5, 1 / 298.26⟩

end Ellipsoids

/-- The fixed set of recognised datums of the `latlon-ellipsoidal-datum`
module.  Since the source compares datum objects by reference against members
of a frozen table, datum identity is modelled as an enumeration. -/
inductive DatumId where
  | ED50 | ETRS89 | Irl1975 | NAD27 | NAD83 | NTF | OSGB36
  | Potsdam | TokyoJapan | WGS72 | WGS84
deriving DecidableEq, Repr

namespace Datum

/-- Reference ellipsoid of each datum, from the `datums` table. -/
noncomputable def ellipsoid : DatumId → Ellipsoid
  | .ED50 => Ellipsoids.Intl1924
  | .ETRS89 => Ellipsoids.GRS80
  | .Irl1975 => Ellipsoids.AiryModified
  | .NAD27 => Ellipsoids.Clarke1866
  | .NAD83 => Ellipsoids.GRS80
  | .NTF => Ellipsoids.Clarke1880IGN
  | .OSGB36 => Ellipsoids.Airy1830
  | .Potsdam => Ellipsoids.Bessel1841
  | .TokyoJapan => Ellipsoids.Bessel1841
  | .WGS72 => Ellipsoids.WGS72
  | .WGS84 => Ellipsoids.WGS84

/-- Helmert transform parameters `[tx, ty, tz, s, rx, ry, rz]` of each datum
(t in metres, s in ppm, r in arcseconds), from the `datums` table. -/
noncomputable def transform : DatumId → List ℝ
  | .ED50 => [89.5, 93.8, 123.1, -1.2, 0.0, 0.0, 0.156]
  | .ETRS89 => [0, 0, 0, 0, 0, 0, 0]
  | .Irl1975 => [-482.53, 130.596, -564.557, -8.15, 1.042, 0.214, 0.631]
  | .NAD27 => [8, -160, -176, 0, 0, 0, 0]
  | .NAD83 => [0.9956, -1.9103, -0.5215, -0.00062, 0.025915, 0.009426, 0.011599]
  | .NTF => [168, 60, -320, 0, 0, 0, 0]
  | .OSGB36 => [-446.448, 125.157, -542.06, 20.4894, -0.1502, -0.247, -0.8421]
  | .Potsdam => [-582, -105, -414, -8.3, 1.04, 0.35, -3.08]
  | .TokyoJapan => [148, -507, -685, 0, 0, 0, 0]
  | .WGS72 => [0, 0, -4.5, -0.22, 0, 0, 0.554]
  | .WGS84 => [0.0, 0.0, 0.0, 0.0, 0.0, 0.0, 0.0]

end Datum

/-- State of a `Cartesian_Datum` object: ECEF coordinates in metres, plus the
optional datum tag (the constructor permits omitting the datum). -/
structure CartesianD where
  x : ℝ
  y : ℝ
  z : ℝ
  datum : Option DatumId

/-- Cartesian_Datum.applyTransform: applies the Helmert 7-parameter transform
`t = [tx, ty, tz, s, rx, ry, rz]` to the coordinate.  The result is a fresh
`Cartesian_Datum` with no datum tag, exactly as in the source. -/
noncomputable def CartesianD.applyTransform (c : CartesianD) (t : List ℝ) : CartesianD :=
  let x1 := c.x
  let y1 := c.y
  let z1 := c.z
  let tx := t.getD 0 0
  let ty := t.getD 1 0
  let tz := t.getD 2 0
  let s := t.getD 3 0 / 1e6 + 1
  let rx := toRadians (t.getD 4 0 / 3600)
  let ry := toRadians (t.getD 5 0 / 3600)
  let rz := toRadians (t.getD 6 0 / 3600)
  { x := tx + x1 * s - y1 * rz + z1 * ry
    y := ty + x1 * rz + y1 * s - z1 * rx
    z := tz - x1 * ry + y1 * rx + z1 * s
    datum := none }

/-- Body of Cartesian_Datum.convertDatum for a point whose datum is `some d`.
The source computes the transform with two non-exclusive `if` statements (the
`toDatum == WGS84` branch overwrites the `this.datum == WGS84` branch when
both apply) followed by a recursive pivot through WGS84; the final statement
tags the fresh result with the target datum. -/
noncomputable def CartesianD.convertDatumCore (c : CartesianD) (d : DatumId)
    (toDatum : DatumId) : CartesianD :=
  if toDatum = DatumId.WGS84 then
    -- converting to WGS 84; use inverse transform
    { c.applyTransform ((Datum.transform d).map Neg.neg) with datum := some toDatum }
  else if d = DatumId.WGS84 then
    -- converting from WGS 84
    { c.applyTransform (Datum.transform toDatum) with datum := some toDatum }
  else
    -- neither datum is WGS 84: convert to WGS 84 first
    { (c.convertDatumCore d DatumId.WGS84).applyTransform (Datum.transform toDatum) with
        datum := some toDatum }
termination_by (if toDatum = DatumId.WGS84 then 0 else 1)
decreasing_by simp_all

/-- Cartesian_Datum.convertDatum: throws when the point has no datum,
otherwise runs the conversion body. -/
noncomputable def CartesianD.convertDatum (c : CartesianD) (toDatum : DatumId) :
    Except String CartesianD :=
  match c.datum with
  | none => .error "cartesian coordinate has no datum"
  | some d => .ok (c.convertDatumCore d toDatum)

/-- C2: for every cartesian point carrying a source datum and every recognised
target datum, convertDatum follows the WGS84-pivot rule: if the source datum
is WGS84 the result is applyTransform of the target datum's 7 parameters; if
the target datum is WGS84 the result is applyTransform of the source datum's
7 parameters each negated; otherwise the result is obtained by first
converting the point to WGS84 (negated source parameters) and then applying
the target datum's forward parameters.  In each case the result is tagged
with the target datum. -/
theorem convertDatum_pivot_rule (c : CartesianD) (d toD : DatumId)
    (hc : c.datum = some d) :
    (d = DatumId.WGS84 →
      c.convertDatum toD =
        .ok { c.applyTransform (Datum.transform toD) with datum := some toD }) ∧
    (toD = DatumId.WGS84 →
      c.convertDatum toD =
        .ok { c.applyTransform ((Datum.transform d).map Neg.neg) with
                datum := some toD }) ∧
    (d ≠ DatumId.WGS84 → toD ≠ DatumId.WGS84 →
      c.convertDatum toD =
        .ok { ({ c.applyTransform ((Datum.transform d).map Neg.neg) with
                   datum := some DatumId.WGS84 }).applyTransform
                (Datum.transform toD) with datum := some toD }) := by
  simp only [CartesianD.convertDatum, hc]
  refine ⟨?_, ?_, ?_⟩
  · intro hd
    subst hd
    by_cases ht : toD = DatumId.WGS84
    · subst ht
      rw [CartesianD.convertDatumCore.eq_def, if_pos rfl]
      -- both datums are WGS84: the identity transform equals its negation
      simp only [Datum.transform, CartesianD.applyTransform]
      norm_num
    · rw [CartesianD.convertDatumCore.eq_def, if_neg ht, if_pos rfl]
  · intro ht
    subst ht
    rw [CartesianD.convertDatumCore.eq_def, if_pos rfl]
  · intro hd ht
    rw [CartesianD.convertDatumCore.eq_def, if_neg ht, if_neg hd]
    rw [CartesianD.convertDatumCore.eq_def, if_pos rfl]

/-- Witness for C2: converting the concrete OSGB36-tagged point (100, 200,
300) to WGS84 applies the negated OSGB36 parameters. -/
theorem convertDatum_pivot_rule_witness :
    (⟨100, 200, 300, some DatumId.OSGB36⟩ : CartesianD).convertDatum DatumId.WGS84 =
      .ok { (⟨100, 200, 300, some DatumId.OSGB36⟩ : CartesianD).applyTransform
              ((Datum.transform DatumId.OSGB36).map Neg.neg) with
            datum := some DatumId.WGS84 } :=
  (convertDatum_pivot_rule ⟨100, 200, 300, some DatumId.OSGB36⟩
    DatumId.OSGB36 DatumId.WGS84 rfl).2.1 rfl

/-! ## Geodetic/cartesian conversions over the reals -/

/-- Math.atan2 on real arguments (signed zeros aside, which `ℝ` cannot
distinguish): the angle of the point `(x, y)` in `(−π, π]`. -/
noncomputable def jsAtan2 (y x : ℝ) : ℝ :=
  if 0 < x then Real.arctan (y / x)
  else if x < 0 then
    (if 0 ≤ y then Real.arctan (y / x) + Real.pi else Real.arctan (y / x) - Real.pi)
  else
    (if 0 < y then Real.pi / 2 else if y < 0 then -Real.pi / 2 else 0)

/-- Cartesian.toLatLon: Bowring's (1985) inverse geodetic transform, on exact
real arithmetic.  The `isNaN(cosβ)` polar-axis branch of the source cannot be
expressed on `ℝ`; the IEEE special-value behaviour of that branch is modelled
separately by `CartesianJs.toLatLon` below (claim C8), and this real version
is used on the non-degenerate inputs arising in the grid-conversion pipeline. -/
noncomputable def Cartesian.toLatLon (x y z : ℝ) (ell : Ellipsoid) : LatLonE :=
  let a := ell.a
  let b := ell.b
  let f := ell.f
  let e2 := 2 * f - f * f
  let ε2 := e2 / (1 - e2)
  let p := Real.sqrt (x * x + y * y)
  let R := Real.sqrt (p * p + z * z)
  let tanβ := b * z / (a * p) * (1 + ε2 * b / R)
  let sinβ := tanβ / Real.sqrt (1 + tanβ * tanβ)
  let cosβ := sinβ / tanβ
  let φ := jsAtan2 (z + ε2 * b * sinβ * sinβ * sinβ) (p - e2 * a * cosβ * cosβ * cosβ)
  let lam := jsAtan2 y x
  let sinφ := Real.sin φ
  let cosφ := Real.cos φ
  let ν := a / Real.sqrt (1 - e2 * sinφ * sinφ)
  let h := p * cosφ + z * sinφ - a * a / ν
  LatLonE.mk' (toDegrees φ) (toDegrees lam) h

/-- State of a `LatLonEllipsoidal_Datum` (and `LatLon_OsGridRef`) object:
normalised latitude/longitude in degrees, height in metres, datum. -/
structure LatLonD where
  _lat : ℝ
  _lon : ℝ
  _height : ℝ
  datum : DatumId

/-- LatLonEllipsoidal_Datum constructor for finite numeric input and a
recognised datum: wraps lat/lon as in the base class and stores the datum. -/
noncomputable def LatLonD.mkD (lat lon height : ℝ) (datum : DatumId) : LatLonD :=
  ⟨Dms.wrap90 lat, Dms.wrap180 lon, height, datum⟩

/-- LatLonEllipsoidal_Datum.toCartesian: geodetic to geocentric conversion on
the datum's ellipsoid, shadowed to return a datum-tagged cartesian point. -/
noncomputable def LatLonD.toCartesian (p : LatLonD) : CartesianD :=
  let ellipsoid := Datum.ellipsoid p.datum
  let φ := toRadians p._lat
  let lam := toRadians p._lon
  let h := p._height
  let a := ellipsoid.a
  let f := ellipsoid.f
  let sinφ := Real.sin φ
  let cosφ := Real.cos φ
  let sinl := Real.sin lam
  let cosl := Real.cos lam
  let eSq := 2 * f - f * f
  let ν := a / Real.sqrt (1 - eSq * sinφ * sinφ)
  { x := (ν + h) * cosφ * cosl
    y := (ν + h) * cosφ * sinl
    z := (ν * (1 - eSq) + h) * sinφ
    datum := some p.datum }

/-- Cartesian_Datum.toLatLon with no argument: Bowring on the ellipsoid of the
point's datum (WGS84 when unset), re-wrapped as a datum-aware point. -/
noncomputable def CartesianD.toLatLon' (c : CartesianD) : LatLonD :=
  let datum := c.datum.getD DatumId.WGS84
  let e := Cartesian.toLatLon c.x c.y c.z (Datum.ellipsoid datum)
  LatLonD.mkD e._lat e._lon e._height (c.datum.getD DatumId.WGS84)

/-- Cartesian_Datum.toLatLon in state-passing form, including the deprecated
datum argument: when the argument is present the source executes
`this.datum = deprecatedDatum`, i.e. it assigns to the receiver before
converting.  The first component of the result is the post-state of the
receiver. -/
noncomputable def CartesianD.toLatLonS (c : CartesianD) (deprecatedDatum : Option DatumId) :
    CartesianD × LatLonD :=
  let c' := match deprecatedDatum with
    | some d => { c with datum := some d }
    | none => c
  (c', c'.toLatLon')

/-- LatLonEllipsoidal_Datum.convertDatum: geodetic → cartesian → Helmert →
geodetic.  The intermediate `oldCartesian = this.toCartesian()` always carries
`some p.datum`, so `oldCartesian.convertDatum(toDatum)` cannot throw; its
successful body is `convertDatumCore` applied at `p.datum`. -/
noncomputable def LatLonD.convertDatum (p : LatLonD) (toDatum : DatumId) : LatLonD :=
  ((p.toCartesian).convertDatumCore p.datum toDatum).toLatLon'

/-- Sanity check for the unreachable-throw note on `LatLonD.convertDatum`. -/
theorem LatLonD.convertDatum_spec (p : LatLonD) (toDatum : DatumId) :
    (p.toCartesian).convertDatum toDatum =
      .ok ((p.toCartesian).convertDatumCore p.datum toDatum) := by
  simp only [CartesianD.convertDatum, LatLonD.toCartesian]

/-! ## OS National Grid projection -/

namespace nationalGrid

noncomputable def ellipsoid : Ellipsoid := Ellipsoids.Airy1830

noncomputable def trueOriginLat : ℝ := 49

noncomputable def trueOriginLon : ℝ := -2

/-- Easting of the false origin (stored negative, as in the source). -/
noncomputable def falseOriginE : ℝ := -400e3

noncomputable def falseOriginN : ℝ := 100e3

noncomputable def scaleFactor : ℝ := 0.9996012717

end nationalGrid

/-- Meridional arc `M(φ)` as computed inside both `OsGridRef.toLatLon`
(in the do-while loop) and `LatLon_OsGridRef.toOsGrid`: the Ma/Mb/Mc/Md block
with the national-grid constants. -/
noncomputable def marc (φ : ℝ) : ℝ :=
  let a := nationalGrid.ellipsoid.a
  let b := nationalGrid.ellipsoid.b
  let φ0 := toRadians nationalGrid.trueOriginLat
  let F0 := nationalGrid.scaleFactor
  let n := (a - b) / (a + b)
  let n2 := n * n
  let n3 := n * n * n
  let Ma := (1 + n + 5 / 4 * n2 + 5 / 4 * n3) * (φ - φ0)
  let Mb := (3 * n + 3 * n * n + 21 / 8 * n3) * Real.sin (φ - φ0) * Real.cos (φ + φ0)
  let Mc := (15 / 8 * n2 + 15 / 8 * n3) * Real.sin (2 * (φ - φ0)) * Real.cos (2 * (φ + φ0))
  let Md := 35 / 24 * n3 * Real.sin (3 * (φ - φ0)) * Real.cos (3 * (φ + φ0))
  b * F0 * (Ma - Mb + Mc - Md)

/-- State `(φ, M)` of the do-while loop of `OsGridRef.toLatLon` after `k`
iterations of the body, for northing `N`: the loop starts from
`φ = φ0, M = 0` and each iteration first moves `φ` by the current residual
and then recomputes the meridional arc. -/
noncomputable def osLoop (N : ℝ) : ℕ → ℝ × ℝ
  | 0 => (toRadians nationalGrid.trueOriginLat, 0)
  | k + 1 =>
      let p := osLoop N k
      let N0 := -nationalGrid.falseOriginN
      let φ := (N - N0 - p.2) / (nationalGrid.ellipsoid.a * nationalGrid.scaleFactor) + p.1
      (φ, marc φ)

open Classical in
/-- Number of iterations the do-while loop of `OsGridRef.toLatLon` runs for
northing `N`: the first `k ≥ 1` whose residual `|N − N0 − M|` is below
0.00001 m (0 as a fallback value if the loop were never to terminate). -/
noncomputable def osStop (N : ℝ) : ℕ :=
  if h : ∃ k, 1 ≤ k ∧ |N - -nationalGrid.falseOriginN - (osLoop N k).2| < 0.00001 then
    Nat.find h
  else 0

/-- OsGridRef.toLatLon: inverse Transverse Mercator (iterative meridional-arc
inversion followed by the Redfearn series terms VII–XIIA), producing an
OSGB36 point, converted onward to the requested datum unless it is OSGB36. -/
noncomputable def OsGridRef.toLatLon (g : OsGridRef) (datum : DatumId := DatumId.WGS84) :
    LatLonD :=
  let E : ℝ := (g.easting : ℝ)
  let N : ℝ := (g.northing : ℝ)
  let a := nationalGrid.ellipsoid.a
  let b := nationalGrid.ellipsoid.b
  let lam0 := toRadians nationalGrid.trueOriginLon
  let E0 := -nationalGrid.falseOriginE
  let F0 := nationalGrid.scaleFactor
  let e2 := 1 - b * b / (a * a)
  let φM := osLoop N (osStop N)
  let φ1 := φM.1
  let cosφ := Real.cos φ1
  let sinφ := Real.sin φ1
  let ν := a * F0 / Real.sqrt (1 - e2 * sinφ * sinφ)
  let ρ := a * F0 * (1 - e2) / (1 - e2 * sinφ * sinφ) ^ (1.5 : ℝ)
  let η2 := ν / ρ - 1
  let tanφ := Real.tan φ1
  let tan2φ := tanφ * tanφ
  let tan4φ := tan2φ * tan2φ
  let tan6φ := tan4φ * tan2φ
  let secφ := 1 / cosφ
  let ν3 := ν * ν * ν
  let ν5 := ν3 * ν * ν
  let ν7 := ν5 * ν * ν
  let vii := tanφ / (2 * ρ * ν)
  let viii := tanφ / (24 * ρ * ν3) * (5 + 3 * tan2φ + η2 - 9 * tan2φ * η2)
  let ix := tanφ / (720 * ρ * ν5) * (61 + 90 * tan2φ + 45 * tan4φ)
  let xx := secφ / ν
  let xi := secφ / (6 * ν3) * (ν / ρ + 2 * tan2φ)
  let xii := secφ / (120 * ν5) * (5 + 28 * tan2φ + 24 * tan4φ)
  let xiia := secφ / (5040 * ν7) * (61 + 662 * tan2φ + 1320 * tan4φ + 720 * tan6φ)
  let dE := E - E0
  let dE2 := dE * dE
  let dE3 := dE2 * dE
  let dE4 := dE2 * dE2
  let dE5 := dE3 * dE2
  let dE6 := dE4 * dE2
  let dE7 := dE5 * dE2
  let φ2 := φ1 - vii * dE2 + viii * dE4 - ix * dE6
  let lam := lam0 + xx * dE - xi * dE3 + xii * dE5 - xiia * dE7
  let point := LatLonD.mkD (toDegrees φ2) (toDegrees lam) 0 DatumId.OSGB36
  if datum ≠ DatumId.OSGB36 then
    let point2 := point.convertDatum datum
    LatLonD.mkD point2._lat point2._lon point2._height point2.datum
  else point

/-- LatLon_OsGridRef.toOsGrid: forward Transverse Mercator (Redfearn terms
I–VI) after converting the point to OSGB36 if needed; the resulting
easting/northing are rounded to millimetre precision (modelled as round half
up) and validated by the OsGridRef constructor, range failures being
re-thrown with the offending lat/lon mentioned. -/
noncomputable def LatLonD.toOsGrid (p : LatLonD) : Except String OsGridRef :=
  let point := if p.datum = DatumId.OSGB36 then p else p.convertDatum DatumId.OSGB36
  let φ := toRadians point._lat
  let lam := toRadians point._lon
  let a := nationalGrid.ellipsoid.a
  let b := nationalGrid.ellipsoid.b
  let φ0 := toRadians nationalGrid.trueOriginLat
  let lam0 := toRadians nationalGrid.trueOriginLon
  let E0 := -nationalGrid.falseOriginE
  let N0 := -nationalGrid.falseOriginN
  let F0 := nationalGrid.scaleFactor
  let e2 := 1 - b * b / (a * a)
  let cosφ := Real.cos φ
  let sinφ := Real.sin φ
  let ν := a * F0 / Real.sqrt (1 - e2 * sinφ * sinφ)
  let ρ := a * F0 * (1 - e2) / (1 - e2 * sinφ * sinφ) ^ (1.5 : ℝ)
  let η2 := ν / ρ - 1
  let M := marc φ
  let cos3φ := cosφ * cosφ * cosφ
  let cos5φ := cos3φ * cosφ * cosφ
  let tan2φ := Real.tan φ * Real.tan φ
  let tan4φ := tan2φ * tan2φ
  let i := M + N0
  let ii := ν / 2 * sinφ * cosφ
  let iii := ν / 24 * sinφ * cos3φ * (5 - tan2φ + 9 * η2)
  let iiia := ν / 720 * sinφ * cos5φ * (61 - 58 * tan2φ + tan4φ)
  let iv := ν * cosφ
  let v := ν / 6 * cos3φ * (ν / ρ - tan2φ)
  let vi := ν / 120 * cos5φ * (5 - 18 * tan2φ + tan4φ + 14 * η2 - 58 * tan2φ * η2)
  let dLam := lam - lam0
  let dLam2 := dLam * dLam
  let dLam3 := dLam2 * dLam
  let dLam4 := dLam3 * dLam
  let dLam5 := dLam4 * dLam
  let dLam6 := dLam5 * dLam
  let N := i + ii * dLam2 + iii * dLam4 + iiia * dLam6
  let E := E0 + iv * dLam + v * dLam3 + vi * dLam5
  let Nmm : ℚ := (round (N * 1000) : ℚ) / 1000
  let Emm : ℚ := (round (E * 1000) : ℚ) / 1000
  match OsGridRef.create Emm Nmm with
  | .ok g => .ok g
  | .error msg => .error (msg ++ " from toOsGrid()")

/-- LatLonEllipsoidal_Datum.convertDatum in state-passing form: the receiver
is read but never assigned. -/
noncomputable def LatLonD.convertDatumS (p : LatLonD) (toDatum : DatumId) :
    LatLonD × LatLonD :=
  (p, p.convertDatum toDatum)

/-- LatLonEllipsoidal_Datum.toCartesian in state-passing form. -/
noncomputable def LatLonD.toCartesianS (p : LatLonD) : LatLonD × CartesianD :=
  (p, p.toCartesian)

/-- LatLon_OsGridRef.toOsGrid in state-passing form. -/
noncomputable def LatLonD.toOsGridS (p : LatLonD) : LatLonD × Except String OsGridRef :=
  (p, p.toOsGrid)

/-- C6 counterexample: Cartesian_Datum.toLatLon, when invoked with the
(accepted, deprecated) datum argument, assigns that datum to the receiver:
the receiver of the concrete WGS84-tagged point (1,2,3) is changed. -/
theorem toLatLon_deprecated_mutates_receiver :
    ((⟨1, 2, 3, some DatumId.WGS84⟩ : CartesianD).toLatLonS
        (some DatumId.OSGB36)).1 ≠
      (⟨1, 2, 3, some DatumId.WGS84⟩ : CartesianD) := by
  simp [CartesianD.toLatLonS]

/-- C6 as amended: convertDatum, toCartesian and toOsGrid leave every
component of the receiver unchanged for every argument, and so does
Cartesian_Datum.toLatLon when called without its deprecated datum argument;
toLatLon called with the deprecated datum argument leaves the receiver's
coordinates unchanged but sets its datum to the argument. -/
theorem transformations_receiver_frame :
    ∀ (p : LatLonD) (toD : DatumId) (c : CartesianD) (d : DatumId),
      (p.convertDatumS toD).1 = p ∧
      p.toCartesianS.1 = p ∧
      p.toOsGridS.1 = p ∧
      (c.toLatLonS none).1 = c ∧
      (c.toLatLonS (some d)).1 = { c with datum := some d } := by
  intro p toD c d
  exact ⟨rfl, rfl, rfl, rfl, rfl⟩

/-! ## IEEE special values: the JsNum / JsVal domain

Claims C7 and C8 are about the behaviour of the source on `NaN`, `±Infinity`,
booleans and `null`, which exact real arithmetic cannot express.  `JsNum`
models a JavaScript number as either a finite real, a signed infinity, or
NaN, with the IEEE-754 propagation rules for the operations the relevant code
paths use (signed zeros are not distinguished; no operand of the modelled
paths produces a negative zero that feeds a sign-sensitive operation). -/

inductive JsNum where
  | fin (r : ℝ)
  | inf (pos : Bool)
  | nan

namespace JsNum

/-- isNaN on numbers. -/
def isNaNB : JsNum → Bool
  | nan => true
  | _ => false

/-- Loose equality test against `Infinity` (`deg == Infinity`): true exactly
for positive infinity. -/
def isPosInf : JsNum → Bool
  | inf true => true
  | _ => false

def neg : JsNum → JsNum
  | fin r => fin (-r)
  | inf s => inf (!s)
  | nan => nan

def add : JsNum → JsNum → JsNum
  | nan, _ => nan
  | _, nan => nan
  | fin a, fin b => fin (a + b)
  | inf s, fin _ => inf s
  | fin _, inf s => inf s
  | inf s, inf t => if s = t then inf s else nan

def sub (x y : JsNum) : JsNum := add x (neg y)

noncomputable def mul : JsNum → JsNum → JsNum
  | nan, _ => nan
  | _, nan => nan
  | fin a, fin b => fin (a * b)
  | fin a, inf s => if 0 < a then inf s else if a < 0 then inf (!s) else nan
  | inf s, fin a => if 0 < a then inf s else if a < 0 then inf (!s) else nan
  | inf s, inf t => if s = t then inf true else inf false

/-- IEEE division with an unsigned zero: a nonzero finite numerator divided by
(positive) zero gives the infinity of the numerator's sign. -/
noncomputable def div : JsNum → JsNum → JsNum
  | nan, _ => nan
  | _, nan => nan
  | fin a, fin b =>
      if b = 0 then (if 0 < a then inf true else if a < 0 then inf false else nan)
      else fin (a / b)
  | fin _, inf _ => fin 0
  | inf s, fin b => if 0 ≤ b then inf s else inf (!s)
  | inf _, inf _ => nan

/-- JavaScript remainder `%` on JsNum: NaN when either operand is NaN, the
dividend is infinite, or the divisor is zero; an infinite divisor returns the
finite dividend unchanged. -/
noncomputable def rem : JsNum → JsNum → JsNum
  | nan, _ => nan
  | _, nan => nan
  | inf _, _ => nan
  | fin a, fin n => if n = 0 then nan else fin (jsRem a n)
  | fin a, inf _ => fin a

noncomputable def sqrt : JsNum → JsNum
  | nan => nan
  | inf true => inf true
  | inf false => nan
  | fin r => if r < 0 then nan else fin (Real.sqrt r)

noncomputable def abs : JsNum → JsNum
  | nan => nan
  | inf _ => inf true
  | fin r => fin |r|

noncomputable def floor : JsNum → JsNum
  | nan => nan
  | inf s => inf s
  | fin r => fin (⌊r⌋ : ℝ)

noncomputable def sin : JsNum → JsNum
  | fin r => fin (Real.sin r)
  | _ => nan

noncomputable def cos : JsNum → JsNum
  | fin r => fin (Real.cos r)
  | _ => nan

/-- Comparison `x ≤ y` as in JS: false whenever an operand is NaN. -/
noncomputable def leB : JsNum → JsNum → Bool
  | nan, _ => false
  | _, nan => false
  | fin a, fin b => decide (a ≤ b)
  | fin _, inf s => s
  | inf s, fin _ => !s
  | inf s, inf t => !s || t

/-- Comparison `x < y` as in JS: false whenever an operand is NaN. -/
noncomputable def ltB : JsNum → JsNum → Bool
  | nan, _ => false
  | _, nan => false
  | fin a, fin b => decide (a < b)
  | fin _, inf s => s
  | inf s, fin _ => !s
  | inf s, inf t => !s && t

/-- Numeric loose equality `x == y`: false whenever an operand is NaN. -/
noncomputable def eqB : JsNum → JsNum → Bool
  | nan, _ => false
  | _, nan => false
  | fin a, fin b => decide (a = b)
  | inf s, inf t => s = t
  | _, _ => false

/-- Numeric value of `x.toFixed(dp)` when read back as a number: the input
rounded to `dp` decimal places (ties away from zero on the nonnegative
values the callers pass, modelled as round half up). -/
noncomputable def roundFixed (x : JsNum) (dp : ℕ) : JsNum :=
  match x with
  | fin r => fin ((round (r * 10 ^ dp) : ℝ) / 10 ^ dp)
  | inf s => inf s
  | nan => nan

/-- Digit string of a nonnegative integer `m` scaled by `10 ^ dp`, with a
decimal point inserted when `dp > 0` (helper for `toFixedStr`). -/
def fixedDigits (m : ℕ) (dp : ℕ) : String :=
  if dp = 0 then m.repr
  else
    let s := m.repr
    let s := if s.length < dp + 1 then String.mk (List.replicate (dp + 1 - s.length) '0') ++ s else s
    s.take (s.length - dp) ++ "." ++ s.takeRight dp

/-- String produced by `x.toFixed(dp)`. -/
noncomputable def toFixedStr (x : JsNum) (dp : ℕ) : String :=
  match x with
  | nan => "NaN"
  | inf true => "Infinity"
  | inf false => "-Infinity"
  | fin r =>
      let m : ℤ := round (r * 10 ^ dp)
      (if m < 0 then "-" else "") ++ fixedDigits m.natAbs dp

/-- String produced by JS ToString on an integer-valued number (used on the
outputs of `Math.floor` and their increments). -/
noncomputable def intToStr : JsNum → String
  | nan => "NaN"
  | inf true => "Infinity"
  | inf false => "-Infinity"
  | fin r => (if r < 0 then "-" else "") ++ (⌊r⌋ : ℤ).natAbs.repr

end JsNum

/-- A JavaScript value as accepted by `Dms.toDms`: a number, a boolean, or
null (empty-string inputs, also rejected by the source, are outside the
modelled domain). -/
inductive JsVal where
  | num (x : JsNum)
  | bool (b : Bool)
  | null

/-- JS ToNumber coercion on the modelled domain: booleans become 0/1 and null
becomes 0. -/
def JsVal.toNumber : JsVal → JsNum
  | .num x => x
  | .bool true => .fin 1
  | .bool false => .fin 0
  | .null => .fin 0

namespace Dms

/-- Dms.separator default value: U+202F narrow no-break space. -/
def separator : String := "\u202F"

/-- Arithmetic branch of Dms.wrap90 on JavaScript numbers. -/
noncomputable def wrap90arith (x : JsNum) : JsNum :=
  JsNum.sub
    (JsNum.mul (.fin (4 * 90 / 360))
      (JsNum.abs (JsNum.sub
        (JsNum.rem
          (JsNum.add (JsNum.rem (JsNum.sub x (.fin (360 / 4))) (.fin 360)) (.fin 360))
          (.fin 360))
        (.fin (360 / 2)))))
    (.fin 90)

/-- Dms.wrap90 on JavaScript values: the in-range test coerces the value and
returns the value itself (uncoerced) when it passes; otherwise the
triangle-wave arithmetic runs on the coerced number. -/
noncomputable def wrap90J (degrees : JsVal) : JsVal :=
  let x := degrees.toNumber
  if (JsNum.leB (.fin (-90)) x && JsNum.leB x (.fin 90)) = true then degrees
  else .num (wrap90arith x)

/-- Dms.wrap90 on JavaScript numbers (the same function restricted to numeric
input, as invoked by the LatLonEllipsoidal constructor). -/
noncomputable def wrap90N (x : JsNum) : JsNum :=
  if (JsNum.leB (.fin (-90)) x && JsNum.leB x (.fin 90)) = true then x
  else wrap90arith x

/-- Arithmetic branch of Dms.wrap180 on JavaScript numbers. -/
noncomputable def wrap180arith (x : JsNum) : JsNum :=
  JsNum.sub
    (JsNum.rem
      (JsNum.add
        (JsNum.rem
          (JsNum.sub (JsNum.div (JsNum.mul (.fin (2 * 180)) x) (.fin 360)) (.fin (360 / 2)))
          (.fin 360))
        (.fin 360))
      (.fin 360))
    (.fin 180)

/-- Dms.wrap180 on JavaScript values. -/
noncomputable def wrap180J (degrees : JsVal) : JsVal :=
  let x := degrees.toNumber
  if (JsNum.leB (.fin (-180)) x && JsNum.leB x (.fin 180)) = true then degrees
  else .num (wrap180arith x)

/-- Dms.wrap180 on JavaScript numbers. -/
noncomputable def wrap180N (x : JsNum) : JsNum :=
  if (JsNum.leB (.fin (-180)) x && JsNum.leB x (.fin 180)) = true then x
  else wrap180arith x

/-- Dms.wrap360 on JavaScript values. -/
noncomputable def wrap360J (degrees : JsVal) : JsVal :=
  let x := degrees.toNumber
  if (JsNum.leB (.fin 0) x && JsNum.ltB x (.fin 360)) = true then degrees
  else
    .num (JsNum.rem
      (JsNum.add
        (JsNum.rem (JsNum.div (JsNum.mul (.fin (2 * 180)) x) (.fin 360)) (.fin 360))
        (.fin 360))
      (.fin 360))

/-- Dms.toDms on the JsVal domain: the sentinel guards of the source followed
by the three formatting branches (`d`, `dm`, `dms`; an unrecognised format
falls through to `d`).  Returns `none` for the source's `null` sentinel. -/
noncomputable def toDms (deg : JsVal) (format : String := "d") (dp : Option ℕ := none) :
    Option String :=
  if (deg.toNumber.isNaNB : Bool) then none
  else if deg matches JsVal.bool _ then none
  else if (deg.toNumber.isPosInf : Bool) then none
  else if deg matches JsVal.null then none
  else
    -- default decimal places; an invalid format token also resets the format
    let fmtdp : String × ℕ :=
      match dp with
      | some d => (format, d)
      | none =>
          if format = "d" ∨ format = "deg" then (format, 4)
          else if format = "dm" ∨ format = "deg+min" then (format, 2)
          else if format = "dms" ∨ format = "deg+min+sec" then (format, 0)
          else ("d", 4)
    let fmt := fmtdp.1
    let dpv := fmtdp.2
    let degN := JsNum.abs deg.toNumber
    if fmt = "dm" ∨ fmt = "deg+min" then
      let d0 := JsNum.floor degN
      let mval := JsNum.roundFixed (JsNum.rem (JsNum.mul degN (.fin 60)) (.fin 60)) dpv
      let roll := JsNum.eqB mval (.fin 60)
      let d1 := if roll = true then JsNum.add d0 (.fin 1) else d0
      let mval1 := if roll = true then JsNum.roundFixed (.fin 0) dpv else mval
      let mstr0 := if roll = true then JsNum.toFixedStr (.fin 0) dpv
        else JsNum.toFixedStr (JsNum.rem (JsNum.mul degN (.fin 60)) (.fin 60)) dpv
      let dstr := ("000" ++ JsNum.intToStr d1).takeRight 3
      let mstr := if JsNum.ltB mval1 (.fin 10) = true then "0" ++ mstr0 else mstr0
      some (dstr ++ "°" ++ separator ++ mstr ++ "′")
    else if fmt = "dms" ∨ fmt = "deg+min+sec" then
      let d0 := JsNum.floor degN
      let m0 := JsNum.rem (JsNum.floor (JsNum.div (JsNum.mul degN (.fin 3600)) (.fin 60))) (.fin 60)
      let sval := JsNum.roundFixed (JsNum.rem (JsNum.mul degN (.fin 3600)) (.fin 60)) dpv
      let sroll := JsNum.eqB sval (.fin 60)
      let sstr0 := if sroll = true then JsNum.toFixedStr (.fin 0) dpv
        else JsNum.toFixedStr (JsNum.rem (JsNum.mul degN (.fin 3600)) (.fin 60)) dpv
      let sval1 := if sroll = true then JsNum.roundFixed (.fin 0) dpv else sval
      let m1 := if sroll = true then JsNum.add m0 (.fin 1) else m0
      let mroll := JsNum.eqB m1 (.fin 60)
      let m2 := if mroll = true then JsNum.fin 0 else m1
      let d1 := if mroll = true then JsNum.add d0 (.fin 1) else d0
      let dstr := ("000" ++ JsNum.intToStr d1).takeRight 3
      let mstr := ("00" ++ JsNum.intToStr m2).takeRight 2
      let sstr := if JsNum.ltB sval1 (.fin 10) = true then "0" ++ sstr0 else sstr0
      some (dstr ++ "°" ++ separator ++ mstr ++ "′" ++ separator ++ sstr ++ "″")
    else
      let dval := JsNum.roundFixed degN dpv
      let d0 := JsNum.toFixedStr degN dpv
      let d1 := if JsNum.ltB dval (.fin 100) = true then "0" ++ d0 else d0
      let d2 := if JsNum.ltB dval (.fin 10) = true then "0" ++ d1 else d1
      some (d2 ++ "°")

/-- Dms.toLat on the JsVal domain: wraps with wrap90, formats, renders the
null sentinel as an en dash, otherwise drops the leading pad digit and
appends the hemisphere suffix. -/
noncomputable def toLatJ (deg : JsVal) (format : String := "d") (dp : Option ℕ := none) :
    String :=
  match toDms (wrap90J deg) format dp with
  | none => "–"
  | some lat => lat.drop 1 ++ separator ++ (if JsNum.ltB deg.toNumber (.fin 0) = true then "S" else "N")

/-- Dms.toLon on the JsVal domain. -/
noncomputable def toLonJ (deg : JsVal) (format : String := "d") (dp : Option ℕ := none) :
    String :=
  match toDms (wrap180J deg) format dp with
  | none => "–"
  | some lon => lon ++ separator ++ (if JsNum.ltB deg.toNumber (.fin 0) = true then "W" else "E")

/-- Replacement of the first occurrence of a pattern, as JS String.replace
with a string pattern. -/
def replaceFirst (s pat rep : String) : String :=
  match s.splitOn pat with
  | [] => s
  | [x] => x
  | x :: rest => x ++ rep ++ String.intercalate pat rest

/-- Dms.toBrng on the JsVal domain. -/
noncomputable def toBrngJ (deg : JsVal) (format : String := "d") (dp : Option ℕ := none) :
    String :=
  match toDms (wrap360J deg) format dp with
  | none => "–"
  | some brng => replaceFirst brng "360" "0"

end Dms

theorem toDms_nan (format : String) (dp : Option ℕ) :
    Dms.toDms (.num .nan) format dp = none := by
  simp [Dms.toDms, JsVal.toNumber, JsNum.isNaNB]

theorem toDms_bool (b : Bool) (format : String) (dp : Option ℕ) :
    Dms.toDms (.bool b) format dp = none := by
  cases b <;> simp [Dms.toDms, JsVal.toNumber, JsNum.isNaNB]

theorem toDms_posInf (format : String) (dp : Option ℕ) :
    Dms.toDms (.num (.inf true)) format dp = none := by
  simp [Dms.toDms, JsVal.toNumber, JsNum.isNaNB, JsNum.isPosInf]

theorem toDms_null (format : String) (dp : Option ℕ) :
    Dms.toDms .null format dp = none := by
  simp [Dms.toDms, JsVal.toNumber, JsNum.isNaNB, JsNum.isPosInf]

theorem toDms_negInf (format : String) (dp : Option ℕ) :
    Dms.toDms (.num (.inf false)) format dp ≠ none := by
  rw [Dms.toDms.eq_def]
  simp only [JsVal.toNumber, JsNum.isNaNB, JsNum.isPosInf]
  norm_num
  intro hcon
  revert hcon
  repeat' split
  all_goals exact fun h => Option.noConfusion h

theorem wrap90J_nan : Dms.wrap90J (.num .nan) = .num .nan := by
  simp [Dms.wrap90J, Dms.wrap90arith, JsVal.toNumber, JsNum.leB, JsNum.sub, JsNum.add,
    JsNum.neg, JsNum.rem, JsNum.mul, JsNum.abs]

theorem wrap90J_posInf : Dms.wrap90J (.num (.inf true)) = .num .nan := by
  simp [Dms.wrap90J, Dms.wrap90arith, JsVal.toNumber, JsNum.leB, JsNum.sub, JsNum.add,
    JsNum.neg, JsNum.rem, JsNum.mul, JsNum.abs]

theorem wrap90J_negInf : Dms.wrap90J (.num (.inf false)) = .num .nan := by
  simp [Dms.wrap90J, Dms.wrap90arith, JsVal.toNumber, JsNum.leB, JsNum.sub, JsNum.add,
    JsNum.neg, JsNum.rem, JsNum.mul, JsNum.abs]

theorem wrap180J_nan : Dms.wrap180J (.num .nan) = .num .nan := by
  simp [Dms.wrap180J, Dms.wrap180arith, JsVal.toNumber, JsNum.leB, JsNum.sub, JsNum.add,
    JsNum.neg, JsNum.rem, JsNum.mul, JsNum.div, JsNum.abs]

theorem wrap180J_posInf : Dms.wrap180J (.num (.inf true)) = .num .nan := by
  simp [Dms.wrap180J, Dms.wrap180arith, JsVal.toNumber, JsNum.leB, JsNum.sub, JsNum.add,
    JsNum.neg, JsNum.rem, JsNum.mul, JsNum.div, JsNum.abs]

theorem wrap180J_negInf : Dms.wrap180J (.num (.inf false)) = .num .nan := by
  simp [Dms.wrap180J, Dms.wrap180arith, JsVal.toNumber, JsNum.leB, JsNum.sub, JsNum.add,
    JsNum.neg, JsNum.rem, JsNum.mul, JsNum.div, JsNum.abs]

theorem wrap360J_nan : Dms.wrap360J (.num .nan) = .num .nan := by
  simp [Dms.wrap360J, JsVal.toNumber, JsNum.leB, JsNum.ltB, JsNum.sub, JsNum.add,
    JsNum.neg, JsNum.rem, JsNum.mul, JsNum.div, JsNum.abs]

theorem wrap360J_posInf : Dms.wrap360J (.num (.inf true)) = .num .nan := by
  simp [Dms.wrap360J, JsVal.toNumber, JsNum.leB, JsNum.ltB, JsNum.sub, JsNum.add,
    JsNum.neg, JsNum.rem, JsNum.mul, JsNum.div, JsNum.abs]

theorem wrap360J_negInf : Dms.wrap360J (.num (.inf false)) = .num .nan := by
  simp [Dms.wrap360J, JsVal.toNumber, JsNum.leB, JsNum.ltB, JsNum.sub, JsNum.add,
    JsNum.neg, JsNum.rem, JsNum.mul, JsNum.div, JsNum.abs]

/-- C7 counterexample: toDms does not return the null sentinel for negative
infinity: `deg == Infinity` is false for −Infinity, which falls through to the
formatting code and produces a string. -/
theorem toDms_negInf_not_sentinel :
    Dms.toDms (.num (.inf false)) "d" none ≠ none :=
  toDms_negInf "d" none

/-- C7 as amended: toDms returns the null sentinel (rendered as an en dash by
toLat/toLon/toBrng) for every NaN, boolean, positive-infinite or null input,
for every format and precision; negative infinity escapes the `deg ==
Infinity` guard and toDms returns a non-null string for it, although
toLat/toLon/toBrng still render −Infinity as the en dash because the wrap
functions turn it into NaN first. -/
theorem toDms_sentinel_guards :
    ∀ (format : String) (dp : Option ℕ),
      Dms.toDms (.num .nan) format dp = none ∧
      Dms.toDms (.bool true) format dp = none ∧
      Dms.toDms (.bool false) format dp = none ∧
      Dms.toDms (.num (.inf true)) format dp = none ∧
      Dms.toDms .null format dp = none ∧
      Dms.toDms (.num (.inf false)) format dp ≠ none ∧
      Dms.toLatJ (.num .nan) format dp = "–" ∧
      Dms.toLatJ (.num (.inf true)) format dp = "–" ∧
      Dms.toLatJ (.num (.inf false)) format dp = "–" ∧
      Dms.toLatJ (.bool true) format dp = "–" ∧
      Dms.toLatJ .null format dp = "–" ∧
      Dms.toLonJ (.num .nan) format dp = "–" ∧
      Dms.toLonJ (.num (.inf true)) format dp = "–" ∧
      Dms.toLonJ (.num (.inf false)) format dp = "–" ∧
      Dms.toBrngJ (.num .nan) format dp = "–" ∧
      Dms.toBrngJ (.num (.inf true)) format dp = "–" ∧
      Dms.toBrngJ (.num (.inf false)) format dp = "–" := by
  intro format dp
  refine ⟨toDms_nan _ _, toDms_bool _ _ _, toDms_bool _ _ _, toDms_posInf _ _,
    toDms_null _ _, toDms_negInf _ _, ?_, ?_, ?_, ?_, ?_, ?_, ?_, ?_, ?_, ?_, ?_⟩
  · rw [Dms.toLatJ, wrap90J_nan, toDms_nan]
  · rw [Dms.toLatJ, wrap90J_posInf, toDms_nan]
  · rw [Dms.toLatJ, wrap90J_negInf, toDms_nan]
  · rw [Dms.toLatJ, show Dms.wrap90J (.bool true) = .bool true by
      rw [Dms.wrap90J]
      rw [if_pos (by simp [JsVal.toNumber, JsNum.leB] <;> norm_num)], toDms_bool]
  · rw [Dms.toLatJ, show Dms.wrap90J .null = .null by
      rw [Dms.wrap90J]
      rw [if_pos (by simp [JsVal.toNumber, JsNum.leB] <;> norm_num)], toDms_null]
  · rw [Dms.toLonJ, wrap180J_nan, toDms_nan]
  · rw [Dms.toLonJ, wrap180J_posInf, toDms_nan]
  · rw [Dms.toLonJ, wrap180J_negInf, toDms_nan]
  · rw [Dms.toBrngJ, wrap360J_nan, toDms_nan]
  · rw [Dms.toBrngJ, wrap360J_posInf, toDms_nan]
  · rw [Dms.toBrngJ, wrap360J_negInf, toDms_nan]

/-! ## Bowring's formula on IEEE special values (the polar-axis path) -/

/-- Math.atan2 on JsNum, per the IEEE special-value table (signed zeros not
distinguished: zero arguments are treated as +0). -/
noncomputable def jsAtan2N : JsNum → JsNum → JsNum
  | .nan, _ => .nan
  | _, .nan => .nan
  | .inf s, .inf true => .fin (if s then Real.pi / 4 else -(Real.pi / 4))
  | .inf s, .inf false => .fin (if s then 3 * Real.pi / 4 else -(3 * Real.pi / 4))
  | .inf s, .fin _ => .fin (if s then Real.pi / 2 else -(Real.pi / 2))
  | .fin yv, .inf true => .fin 0
  | .fin yv, .inf false => .fin (if 0 ≤ yv then Real.pi else -Real.pi)
  | .fin yv, .fin xv => .fin (jsAtan2 yv xv)

/-- Number.prototype.toDegrees on JsNum. -/
noncomputable def toDegreesN : JsNum → JsNum
  | .fin r => .fin (toDegrees r)
  | .inf s => .inf s
  | .nan => .nan

/-- Stored state of a LatLonEllipsoidal built from JavaScript numbers. -/
structure LatLonEJs where
  _lat : JsNum
  _lon : JsNum
  _height : JsNum

/-- LatLonEllipsoidal constructor on JavaScript numbers: throws on NaN
components, wraps latitude and longitude. -/
noncomputable def LatLonEJs.mk' (lat lon height : JsNum) : Except String LatLonEJs :=
  if lat.isNaNB = true then .error "invalid lat"
  else if lon.isNaNB = true then .error "invalid lon"
  else if height.isNaNB = true then .error "invalid height"
  else .ok ⟨Dms.wrap90N lat, Dms.wrap180N lon, height⟩

/-- Cartesian.toLatLon on JavaScript numbers: Bowring's formula with the IEEE
propagation rules, including the `isNaN(cosβ)` polar-axis branch that
defaults the latitude to 0. -/
noncomputable def CartesianJs.toLatLon (x y z : JsNum) (ell : Ellipsoid) :
    Except String LatLonEJs :=
  let a := JsNum.fin ell.a
  let b := JsNum.fin ell.b
  let f := JsNum.fin ell.f
  let e2 := JsNum.sub (JsNum.mul (.fin 2) f) (JsNum.mul f f)
  let ε2 := JsNum.div e2 (JsNum.sub (.fin 1) e2)
  let p := JsNum.sqrt (JsNum.add (JsNum.mul x x) (JsNum.mul y y))
  let R := JsNum.sqrt (JsNum.add (JsNum.mul p p) (JsNum.mul z z))
  let tanβ := JsNum.mul (JsNum.div (JsNum.mul b z) (JsNum.mul a p))
    (JsNum.add (.fin 1) (JsNum.div (JsNum.mul ε2 b) R))
  let sinβ := JsNum.div tanβ (JsNum.sqrt (JsNum.add (.fin 1) (JsNum.mul tanβ tanβ)))
  let cosβ := JsNum.div sinβ tanβ
  let φ := if cosβ.isNaNB = true then JsNum.fin 0
    else jsAtan2N
      (JsNum.add z (JsNum.mul (JsNum.mul (JsNum.mul (JsNum.mul ε2 b) sinβ) sinβ) sinβ))
      (JsNum.sub p (JsNum.mul (JsNum.mul (JsNum.mul (JsNum.mul e2 a) cosβ) cosβ) cosβ))
  let lam := jsAtan2N y x
  let sinφ := JsNum.sin φ
  let cosφ := JsNum.cos φ
  let ν := JsNum.div a
    (JsNum.sqrt (JsNum.sub (.fin 1) (JsNum.mul (JsNum.mul e2 sinφ) sinφ)))
  let h := JsNum.sub (JsNum.add (JsNum.mul p cosφ) (JsNum.mul z sinφ))
    (JsNum.div (JsNum.mul a a) ν)
  LatLonEJs.mk' (toDegreesN φ) (toDegreesN lam) h

/-- C8: for every cartesian point on the polar axis (x = 0 and y = 0, where
the intermediate cosβ evaluates to NaN), Cartesian.toLatLon on any valid
ellipsoid (positive axes, flattening in [0, 1)) succeeds and returns a point
whose latitude is 0 degrees rather than propagating the NaN. -/
theorem polar_axis_lat_zero (r a b f : ℝ) (ha : 0 < a) (hb : 0 < b)
    (hf0 : 0 ≤ f) (hf1 : f < 1) :
    (CartesianJs.toLatLon (.fin 0) (.fin 0) (.fin r) ⟨a, b, f⟩).map
        (fun pt => pt._lat) = .ok (.fin 0) := by
  have ha' : a ≠ 0 := ne_of_gt ha
  have hb' : b ≠ 0 := ne_of_gt hb
  have hrr : ¬(r * r < 0) := not_lt.mpr (mul_self_nonneg r)
  have hden : ¬(1 + (f * f + -(2 * f)) = 0) := by nlinarith
  have hpos : 0 < 1 + (2 * f + -(f * f)) / (1 + (f * f + -(2 * f))) * b / |r| := by
    have h1 : 0 ≤ (2 * f + -(f * f)) / (1 + (f * f + -(2 * f))) * b / |r| := by
      apply div_nonneg (mul_nonneg (div_nonneg (by nlinarith) (by nlinarith)) hb.le)
        (abs_nonneg r)
    linarith
  simp only [CartesianJs.toLatLon, LatLonEJs.mk']
  rcases lt_trichotomy r 0 with hr | hr | hr
  · have h1 : ¬(0 < b * r) := by nlinarith
    have h2 : b * r < 0 := by nlinarith
    have h3 : |r| ≠ 0 := abs_ne_zero.mpr (ne_of_lt hr)
    norm_num [JsNum.mul, JsNum.add, JsNum.sub, JsNum.neg, JsNum.div, JsNum.sqrt,
      JsNum.isNaNB, JsNum.sin, JsNum.cos, jsAtan2N, jsAtan2, toDegreesN, toDegrees,
      Dms.wrap90N, Dms.wrap180N, JsNum.leB, Real.sqrt_eq_zero', Real.sqrt_mul_self_eq_abs,
      h1, h2, h3, hrr, hden, hpos, ha', Except.map]
  · subst hr
    norm_num [JsNum.mul, JsNum.add, JsNum.sub, JsNum.neg, JsNum.div, JsNum.sqrt,
      JsNum.isNaNB, JsNum.sin, JsNum.cos, jsAtan2N, jsAtan2, toDegreesN, toDegrees,
      Dms.wrap90N, Dms.wrap180N, JsNum.leB, hrr, hden, ha', Except.map]
  · have h1 : 0 < b * r := by nlinarith
    have h3 : |r| ≠ 0 := abs_ne_zero.mpr (ne_of_gt hr)
    norm_num [JsNum.mul, JsNum.add, JsNum.sub, JsNum.neg, JsNum.div, JsNum.sqrt,
      JsNum.isNaNB, JsNum.sin, JsNum.cos, jsAtan2N, jsAtan2, toDegreesN, toDegrees,
      Dms.wrap90N, Dms.wrap180N, JsNum.leB, Real.sqrt_mul_self_eq_abs,
      h1, h3, hrr, hden, hpos, ha', Except.map]

/-- Witness for C8: the polar point (0, 0, 5000000) on the WGS84 ellipsoid
comes back with latitude 0. -/
theorem polar_axis_lat_zero_witness :
    (CartesianJs.toLatLon (.fin 0) (.fin 0) (.fin 5000000)
        ⟨6378137, 6356752.314245, 1 / 298.257223563⟩).map
      (fun pt => pt._lat) = .ok (.fin 0) :=
  polar_axis_lat_zero 5000000 6378137 6356752.314245 (1 / 298.257223563)
    (by norm_num) (by norm_num) (by norm_num) (by norm_num)

/-! ## Grid-reference text parsing and formatting

The string processing is implemented by structural recursion over the
character list of the string (rather than through the `String` library
functions, whose well-founded recursion does not reduce inside the kernel),
so that parsing concrete grid references is decidable by evaluation. -/

/-- Numeric value of a digit string (the effect of `Number(...)` on the digit
strings arising in grid references). -/
def digitsToNat (s : String) : ℕ :=
  s.data.foldl (fun n c => n * 10 + (c.toNat - '0'.toNat)) 0

/-- Splitting of a character list at every character satisfying `p`,
keeping empty segments (as `String.prototype.split` with a single-character
pattern, and the building block for `\\s+` splitting after filtering). -/
def splitChars (p : Char → Bool) : List Char → List (List Char)
  | [] => [[]]
  | c :: rest =>
      match splitChars p rest with
      | [] => [[]]
      | g :: gs => if p c then [] :: g :: gs else (c :: g) :: gs

/-- trim(): leading and trailing whitespace removed. -/
def jsTrim (s : String) : String :=
  String.mk
    (((s.data.dropWhile Char.isWhitespace).reverse.dropWhile Char.isWhitespace).reverse)

/-- Match of the fully numeric comma-separated form `^(\\d+),\\s*(\\d+)$`. -/
def parseNumericPair (s : String) : Option (ℕ × ℕ) :=
  match splitChars (fun c => c == ',') s.data with
  | [p1, p2] =>
      let p2t := p2.dropWhile Char.isWhitespace
      if 0 < p1.length ∧ p1.all Char.isDigit ∧ 0 < p2t.length ∧ p2t.all Char.isDigit then
        some (digitsToNat (String.mk p1), digitsToNat (String.mk p2t))
      else none
  | _ => none

/-- First-letter class `[HNST]` of the grid-reference pattern (the `/i` flag
makes it case-insensitive). -/
def letterOk1 (c : Char) : Bool :=
  (c.toUpper == 'H') || (c.toUpper == 'N') || (c.toUpper == 'S') || (c.toUpper == 'T')

/-- Second-letter class `[ABCDEFGHJKLMNOPQRSTUVWXYZ]` (A–Z without I). -/
def letterOk2 (c : Char) : Bool :=
  decide (65 ≤ c.toUpper.toNat) && decide (c.toUpper.toNat ≤ 90) && !(c.toUpper == 'I')

/-- Non-empty maximal runs of non-whitespace characters (the effect of
`split(/\\s+/)` on a trimmed string). -/
def gridTokens (r : List Char) : List (List Char) :=
  (splitChars Char.isWhitespace r).filter (fun t => 0 < t.length)

/-- Match of the tail `\\s*[0-9]+\\s*[0-9]+$` of the grid-reference pattern:
only digits and whitespace, in either two runs of digits or one run of at
least two digits. -/
def restOk (r : List Char) : Bool :=
  let toks := gridTokens r
  toks.all (fun t => t.all Char.isDigit) &&
    (toks.length == 2 || (toks.length == 1 && decide (2 ≤ (toks.headD []).length)))

/-- Match of the alphanumeric pattern
`^[HNST][ABCDEFGHJKLMNOPQRSTUVWXYZ]\\s*[0-9]+\\s*[0-9]+$/i`. -/
def validFormat (g : String) : Bool :=
  match g.data with
  | c0 :: c1 :: rest => letterOk1 c0 && letterOk2 c1 && restOk rest
  | _ => false

/-- padEnd(5, '0'). -/
def padEnd5 (t : List Char) : List Char :=
  t ++ List.replicate (5 - t.length) '0'

/-- Decimal digit list of a natural number below `10 ^ fuel` (structural
fuel recursion so that the kernel can evaluate it; all naturals rendered by
the model are far below the 16-digit fuel bound). -/
def natDigitsAux : ℕ → ℕ → List Char
  | 0, _ => []
  | fuel + 1, n =>
      if n = 0 then []
      else natDigitsAux fuel (n / 10) ++ [Char.ofNat (48 + n % 10)]

/-- Decimal rendering of a natural number (JS ToString on a nonnegative
integer-valued number). -/
def natRepr (n : ℕ) : String :=
  if n = 0 then "0" else String.mk (natDigitsAux 16 n)

/-- OsGridRef.parse: fully numeric comma-separated references are taken
directly; otherwise the standard letter-pair form is validated and decoded
(letters H/N/S/T only in first position, 'I' skipped in the letter alphabet),
the digit tail is split (halfway when not whitespace-separated), rejected
when uneven, right-padded to metres and prefixed with the 100 km-square
indices.  All the integer quantities are nonnegative on strings accepted by
the pattern, so natural-number arithmetic coincides with JavaScript's. -/
def OsGridRef.parse (gridref : String) : Except String OsGridRef :=
  let g := jsTrim gridref
  match parseNumericPair g with
  | some (e, n) => OsGridRef.create (e : ℚ) (n : ℚ)
  | none =>
    if validFormat g then
      match g.data with
      | c0 :: c1 :: rest =>
          let v1 := c0.toUpper.toNat - 65
          let v2 := c1.toUpper.toNat - 65
          let l1 := if 7 < v1 then v1 - 1 else v1
          let l2 := if 7 < v2 then v2 - 1 else v2
          let e100km := (l1 - 2) % 5 * 5 + l2 % 5
          let n100km := 19 - l1 / 5 * 5 - l2 / 5
          let restS := (rest.dropWhile Char.isWhitespace).reverse.dropWhile
            Char.isWhitespace |>.reverse
          let en0 := gridTokens restS
          let en := if en0.length == 1 then
              let t := en0.headD []
              [t.take (t.length / 2), t.drop (t.length / 2)]
            else en0
          match en with
          | [t1, t2] =>
              if t1.length ≠ t2.length then .error ("invalid grid reference " ++ g)
              else
                OsGridRef.create
                  (digitsToNat (natRepr e100km ++ String.mk (padEnd5 t1)) : ℚ)
                  (digitsToNat (natRepr n100km ++ String.mk (padEnd5 t2)) : ℚ)
          | _ => .error ("invalid grid reference " ++ g)
      | _ => .error ("invalid grid reference " ++ g)
    else .error ("invalid grid reference " ++ g)

/-- Truncation toward zero on rationals (JS `%` quotient). -/
def qTrunc (x : ℚ) : ℤ :=
  if 0 ≤ x then ⌊x⌋ else ⌈x⌉

/-- JavaScript remainder on rationals. -/
def qRem (x n : ℚ) : ℚ :=
  x - n * qTrunc (x / n)

/-- Left zero-padding (padStart with '0'). -/
def padStartZeros (s : String) (w : ℕ) : String :=
  String.mk (List.replicate (w - s.data.length) '0' ++ s.data)

/-- Trailing-zero trimming of a fraction-digit block. -/
def trimZeros (s : String) : String :=
  String.mk ((s.data.reverse.dropWhile (fun c => c == '0')).reverse)

/-- The `toLocaleString('en', ...)` call of the numeric (digits = 0) branch:
no grouping, at least 6 integer digits, at most 3 fraction digits (modelled
for the nonnegative values a constructed grid reference holds). -/
def numericFormat (q : ℚ) : String :=
  let m : ℕ := (round (q * 1000)).toNat
  let ip := m / 1000
  let fp := m % 1000
  let ipStr := padStartZeros (natRepr ip) 6
  if fp = 0 then ipStr else ipStr ++ "." ++ trimZeros (padStartZeros (natRepr fp) 3)

/-- OsGridRef.toString: standard letter-pair format at an even precision of
2–16 digits, numeric comma-separated format at precision 0, a RangeError for
any other precision. -/
def OsGridRef.toString (g : OsGridRef) (digits : ℕ := 10) : Except String String :=
  if ¬(digits = 0 ∨ digits = 2 ∨ digits = 4 ∨ digits = 6 ∨ digits = 8 ∨
      digits = 10 ∨ digits = 12 ∨ digits = 14 ∨ digits = 16) then
    .error "invalid precision"
  else
    let e := g.easting
    let n := g.northing
    if digits = 0 then .ok (numericFormat e ++ "," ++ numericFormat n)
    else
      let e100 : ℚ := (⌊e / 100000⌋ : ℚ)
      let n100 : ℚ := (⌊n / 100000⌋ : ℚ)
      let l1q := 19 - n100 - qRem (19 - n100) 5 + (⌊(e100 + 10) / 5⌋ : ℚ)
      let l2q := qRem ((19 - n100) * 5) 25 + qRem e100 5
      let l1 := if 7 < l1q then l1q + 1 else l1q
      let l2 := if 7 < l2q then l2q + 1 else l2q
      let letterPair := String.mk
        [Char.ofNat ((⌊l1⌋).toNat + 65), Char.ofNat ((⌊l2⌋).toNat + 65)]
      let scale : ℚ := (10 : ℚ) ^ ((5 : ℤ) - (digits / 2 : ℕ))
      let ei : ℤ := ⌊qRem e 100000 / scale⌋
      let ni : ℤ := ⌊qRem n 100000 / scale⌋
      let estr := padStartZeros
        (if ei < 0 then "-" ++ natRepr ei.natAbs else natRepr ei.natAbs) (digits / 2)
      let nstr := padStartZeros
        (if ni < 0 then "-" ++ natRepr ni.natAbs else natRepr ni.natAbs) (digits / 2)
      .ok (letterPair ++ " " ++ estr ++ " " ++ nstr)

/-- Holds when the trimmed input is in the fully numeric comma-separated
form. -/
def isNumericForm (s : String) : Bool :=
  (parseNumericPair s).isSome

/-- Holds when the first character is one of H, N, S, T (case-insensitive). -/
def startsWithHNST (s : String) : Bool :=
  match s.data with
  | c :: _ => letterOk1 c
  | [] => false

instance {ε α : Type} [DecidableEq ε] [DecidableEq α] : DecidableEq (Except ε α) := fun x y =>
  match x, y with
  | .ok a, .ok b =>
      if h : a = b then .isTrue (by rw [h])
      else .isFalse (fun hc => h (Except.ok.inj hc))
  | .error a, .error b =>
      if h : a = b then .isTrue (by rw [h])
      else .isFalse (fun hc => h (Except.error.inj hc))
  | .ok _, .error _ => .isFalse (fun hc => Except.noConfusion hc)
  | .error _, .ok _ => .isFalse (fun hc => Except.noConfusion hc)

/-- C10: OsGridRef.parse accepts an alphanumeric grid reference only when its
first letter is H, N, S, or T; consequently the in-bounds reference
(600000, 600000) — 100 km square lettered "OR" — is constructible and
formats, yet parsing its own toString output raises an invalid-grid-reference
error. -/
theorem parse_accepts_only_HNST :
    (∀ (s : String) (g : OsGridRef), OsGridRef.parse s = .ok g →
        isNumericForm (jsTrim s) = true ∨ startsWithHNST (jsTrim s) = true) ∧
    OsGridRef.create 600000 600000 = .ok ⟨600000, 600000⟩ ∧
    OsGridRef.toString ⟨600000, 600000⟩ 10 = .ok "OR 00000 00000" ∧
    (∃ msg, OsGridRef.parse "OR 00000 00000" = .error msg) := by
  refine ⟨?_, by rfl, by
    simp only [OsGridRef.toString]
    norm_num [qRem, qTrunc]
    decide, ⟨"invalid grid reference OR 00000 00000", by decide⟩⟩
  intro s g h
  rcases hp : parseNumericPair (jsTrim s) with _ | pair
  · right
    simp only [OsGridRef.parse, hp] at h
    by_cases hv : validFormat (jsTrim s)
    · rcases hd : (jsTrim s).data with _ | ⟨c0, t⟩
      · rw [validFormat, hd] at hv
        exact absurd hv (by simp)
      · rcases t with _ | ⟨c1, rest⟩
        · rw [validFormat, hd] at hv
          exact absurd hv (by simp)
        · rw [validFormat, hd] at hv
          rw [startsWithHNST, hd]
          simp only [Bool.and_eq_true] at hv
          exact hv.1.1
    · rw [if_neg hv] at h
      exact Except.noConfusion h
  · left
    simp [isNumericForm, hp]

/-- Witness for C10: a concretely accepted reference, whose trimmed text
indeed starts with one of H/N/S/T. -/
theorem parse_accepts_only_HNST_witness :
    isNumericForm (jsTrim "TG 51409 13177") = true ∨
      startsWithHNST (jsTrim "TG 51409 13177") = true :=
  parse_accepts_only_HNST.1 "TG 51409 13177" ⟨651409, 313177⟩ (by decide)

/-! ## Termination of the meridional-arc inversion loop (claim C5)

The loop body moves `φ` by `r / (a·F0)` where `r` is the current residual,
and the meridional arc `M` has derivative everywhere within 1% of `a·F0`,
so each iteration shrinks the residual by a factor of at least 100. -/

/-- Derivative of the meridional arc `marc`. -/
noncomputable def marcDeriv (φ : ℝ) : ℝ :=
  let a := nationalGrid.ellipsoid.a
  let b := nationalGrid.ellipsoid.b
  let F0 := nationalGrid.scaleFactor
  let n := (a - b) / (a + b)
  let n2 := n * n
  let n3 := n * n * n
  b * F0 * ((1 + n + 5 / 4 * n2 + 5 / 4 * n3)
    - (3 * n + 3 * n * n + 21 / 8 * n3) * Real.cos (2 * φ)
    + (15 / 8 * n2 + 15 / 8 * n3) * (2 * Real.cos (4 * φ))
    - 35 / 24 * n3 * (3 * Real.cos (6 * φ)))

theorem marclike_hasDerivAt (A B C D K p φ : ℝ) :
    HasDerivAt
      (fun x => K * (A * (x - p) - B * Real.sin (x - p) * Real.cos (x + p)
        + C * Real.sin (2 * (x - p)) * Real.cos (2 * (x + p))
        - D * Real.sin (3 * (x - p)) * Real.cos (3 * (x + p))))
      (K * (A - B * Real.cos (2 * φ) + C * (2 * Real.cos (4 * φ))
        - D * (3 * Real.cos (6 * φ)))) φ := by
  have hu : HasDerivAt (fun x : ℝ => x - p) 1 φ := (hasDerivAt_id φ).sub_const p
  have hv : HasDerivAt (fun x : ℝ => x + p) 1 φ := (hasDerivAt_id φ).add_const p
  have h2u : HasDerivAt (fun x : ℝ => 2 * (x - p)) (2 * 1) φ := hu.const_mul 2
  have h3u : HasDerivAt (fun x : ℝ => 3 * (x - p)) (3 * 1) φ := hu.const_mul 3
  have h2v : HasDerivAt (fun x : ℝ => 2 * (x + p)) (2 * 1) φ := hv.const_mul 2
  have h3v : HasDerivAt (fun x : ℝ => 3 * (x + p)) (3 * 1) φ := hv.const_mul 3
  have T1 : HasDerivAt (fun x : ℝ => A * (x - p)) (A * 1) φ := hu.const_mul A
  have T2 := (hu.sin.const_mul B).mul hv.cos
  have T3 := (h2u.sin.const_mul C).mul h2v.cos
  have T4 := (h3u.sin.const_mul D).mul h3v.cos
  have H := (((T1.sub T2).add T3).sub T4).const_mul K
  have e2 : Real.cos (2 * φ) =
      Real.cos (φ - p) * Real.cos (φ + p) - Real.sin (φ - p) * Real.sin (φ + p) := by
    rw [show 2 * φ = (φ - p) + (φ + p) by ring, Real.cos_add]
  have e4 : Real.cos (4 * φ) =
      Real.cos (2 * (φ - p)) * Real.cos (2 * (φ + p))
        - Real.sin (2 * (φ - p)) * Real.sin (2 * (φ + p)) := by
    rw [show 4 * φ = 2 * (φ - p) + 2 * (φ + p) by ring, Real.cos_add]
  have e6 : Real.cos (6 * φ) =
      Real.cos (3 * (φ - p)) * Real.cos (3 * (φ + p))
        - Real.sin (3 * (φ - p)) * Real.sin (3 * (φ + p)) := by
    rw [show 6 * φ = 3 * (φ - p) + 3 * (φ + p) by ring, Real.cos_add]
  rw [show K * (A - B * Real.cos (2 * φ) + C * (2 * Real.cos (4 * φ))
      - D * (3 * Real.cos (6 * φ))) =
    K * (A * 1 - (B * (Real.cos (φ - p) * 1) * Real.cos (φ + p)
        + B * Real.sin (φ - p) * (-Real.sin (φ + p) * 1))
      + (C * (Real.cos (2 * (φ - p)) * (2 * 1)) * Real.cos (2 * (φ + p))
        + C * Real.sin (2 * (φ - p)) * (-Real.sin (2 * (φ + p)) * (2 * 1)))
      - (D * (Real.cos (3 * (φ - p)) * (3 * 1)) * Real.cos (3 * (φ + p))
        + D * Real.sin (3 * (φ - p)) * (-Real.sin (3 * (φ + p)) * (3 * 1)))) by
    rw [e2, e4, e6]; ring]
  exact H

theorem marc_hasDerivAt (φ : ℝ) : HasDerivAt marc (marcDeriv φ) φ :=
  marclike_hasDerivAt _ _ _ _ _ _ φ

/-- The derivative of the meridional arc stays within 1% of `a·F0`,
everywhere. -/
theorem marcDeriv_bound (φ : ℝ) :
    |marcDeriv φ - nationalGrid.ellipsoid.a * nationalGrid.scaleFactor| ≤
      nationalGrid.ellipsoid.a * nationalGrid.scaleFactor / 100 := by
  have hc2l := Real.neg_one_le_cos (2 * φ)
  have hc2u := Real.cos_le_one (2 * φ)
  have hc4l := Real.neg_one_le_cos (4 * φ)
  have hc4u := Real.cos_le_one (4 * φ)
  have hc6l := Real.neg_one_le_cos (6 * φ)
  have hc6u := Real.cos_le_one (6 * φ)
  have hn : ((6377563.396 : ℝ) - 6356256.909) / (6377563.396 + 6356256.909) =
      21306487 / 12733820305 := by norm_num
  show |6356256.909 * 0.9996012717 *
      ((1 + (6377563.396 - 6356256.909) / (6377563.396 + 6356256.909)
        + 5 / 4 * ((6377563.396 - 6356256.909) / (6377563.396 + 6356256.909)
            * ((6377563.396 - 6356256.909) / (6377563.396 + 6356256.909)))
        + 5 / 4 * ((6377563.396 - 6356256.909) / (6377563.396 + 6356256.909)
            * ((6377563.396 - 6356256.909) / (6377563.396 + 6356256.909))
            * ((6377563.396 - 6356256.909) / (6377563.396 + 6356256.909))))
        - (3 * ((6377563.396 - 6356256.909) / (6377563.396 + 6356256.909))
            + 3 * ((6377563.396 - 6356256.909) / (6377563.396 + 6356256.909))
              * ((6377563.396 - 6356256.909) / (6377563.396 + 6356256.909))
            + 21 / 8 * ((6377563.396 - 6356256.909) / (6377563.396 + 6356256.909)
              * ((6377563.396 - 6356256.909) / (6377563.396 + 6356256.909))
              * ((6377563.396 - 6356256.909) / (6377563.396 + 6356256.909))))
          * Real.cos (2 * φ)
        + (15 / 8 * ((6377563.396 - 6356256.909) / (6377563.396 + 6356256.909)
              * ((6377563.396 - 6356256.909) / (6377563.396 + 6356256.909)))
            + 15 / 8 * ((6377563.396 - 6356256.909) / (6377563.396 + 6356256.909)
              * ((6377563.396 - 6356256.909) / (6377563.396 + 6356256.909))
              * ((6377563.396 - 6356256.909) / (6377563.396 + 6356256.909))))
          * (2 * Real.cos (4 * φ))
        - 35 / 24 * ((6377563.396 - 6356256.909) / (6377563.396 + 6356256.909)
            * ((6377563.396 - 6356256.909) / (6377563.396 + 6356256.909))
            * ((6377563.396 - 6356256.909) / (6377563.396 + 6356256.909)))
          * (3 * Real.cos (6 * φ)))
      - 6377563.396 * 0.9996012717| ≤ 6377563.396 * 0.9996012717 / 100
  rw [hn, abs_le]
  constructor
  · nlinarith [hc2l, hc2u, hc4l, hc4u, hc6l, hc6u]
  · nlinarith [hc2l, hc2u, hc4l, hc4u, hc6l, hc6u]

/-- Mean-value estimate: the increment of `marc` differs from the linear map
`a·F0·Δφ` by at most 1% of it. -/
theorem marc_increment (x y : ℝ) :
    |marc y - marc x - nationalGrid.ellipsoid.a * nationalGrid.scaleFactor * (y - x)| ≤
      nationalGrid.ellipsoid.a * nationalGrid.scaleFactor / 100 * |y - x| := by
  set aF0 := nationalGrid.ellipsoid.a * nationalGrid.scaleFactor with haf
  have hder : ∀ t ∈ (Set.univ : Set ℝ),
      HasDerivWithinAt (fun t => marc t - aF0 * t) (marcDeriv t - aF0) Set.univ t := by
    intro t _
    have h1 : HasDerivAt (fun t : ℝ => aF0 * t) (aF0 * 1) t := (hasDerivAt_id t).const_mul aF0
    have h2 := (marc_hasDerivAt t).sub h1
    rw [mul_one] at h2
    exact h2.hasDerivWithinAt
  have hbound : ∀ t ∈ (Set.univ : Set ℝ), ‖marcDeriv t - aF0‖ ≤ aF0 / 100 := by
    intro t _
    rw [Real.norm_eq_abs]
    exact marcDeriv_bound t
  have H := convex_univ.norm_image_sub_le_of_norm_hasDerivWithin_le hder hbound
    (Set.mem_univ x) (Set.mem_univ y)
  rw [Real.norm_eq_abs, Real.norm_eq_abs] at H
  calc |marc y - marc x - aF0 * (y - x)|
      = |marc y - aF0 * y - (marc x - aF0 * x)| := by ring_nf
    _ ≤ aF0 / 100 * |y - x| := H

/-- The meridional arc vanishes at the true-origin latitude. -/
theorem marc_trueOrigin : marc (toRadians nationalGrid.trueOriginLat) = 0 := by
  rw [marc]
  norm_num

/-- The `M` component of the loop state is always the meridional arc of the
`φ` component. -/
theorem osLoop_snd (N : ℝ) (k : ℕ) : (osLoop N k).2 = marc (osLoop N k).1 := by
  cases k with
  | zero => exact marc_trueOrigin.symm
  | succ k => rfl

/-- Residual of the loop after `k` iterations. -/
noncomputable def resid (N : ℝ) (k : ℕ) : ℝ :=
  N - -nationalGrid.falseOriginN - (osLoop N k).2

/-- One loop iteration shrinks the residual at least a hundredfold. -/
theorem resid_contraction (N : ℝ) (k : ℕ) :
    |resid N (k + 1)| ≤ |resid N k| / 100 := by
  set aF0 := nationalGrid.ellipsoid.a * nationalGrid.scaleFactor with haf
  have haf0 : aF0 = 6377563.396 * 0.9996012717 := rfl
  have hpos : (0 : ℝ) < aF0 := by rw [haf0]; norm_num
  set φk := (osLoop N k).1 with hφk
  have hstep : (osLoop N (k + 1)).1 = (N - -nationalGrid.falseOriginN - (osLoop N k).2)
      / aF0 + φk := rfl
  have hsnd : (osLoop N (k + 1)).2 = marc ((osLoop N (k + 1)).1) := osLoop_snd N (k + 1)
  have hMk : (osLoop N k).2 = marc φk := osLoop_snd N k
  have hdelta : aF0 * ((osLoop N (k + 1)).1 - φk) = resid N k := by
    rw [hstep, resid, hMk]
    field_simp
    ring
  have hr1 : resid N (k + 1) =
      resid N k - (marc ((osLoop N (k + 1)).1) - marc φk) := by
    rw [resid, resid, hsnd, hMk]
    ring
  have hkey := marc_increment φk ((osLoop N (k + 1)).1)
  rw [← haf] at hkey
  have hrw : marc ((osLoop N (k + 1)).1) - marc φk - aF0 * ((osLoop N (k + 1)).1 - φk)
      = -resid N (k + 1) := by
    rw [hdelta, hr1]
    ring
  rw [hrw, abs_neg] at hkey
  have habs : aF0 * |(osLoop N (k + 1)).1 - φk| = |resid N k| := by
    rw [← abs_of_pos hpos, ← abs_mul, hdelta]
  calc |resid N (k + 1)| ≤ aF0 / 100 * |(osLoop N (k + 1)).1 - φk| := hkey
    _ = aF0 * |(osLoop N (k + 1)).1 - φk| / 100 := by ring
    _ = |resid N k| / 100 := by rw [habs]

/-- Geometric decay of the residual. -/
theorem resid_pow (N : ℝ) (k : ℕ) : |resid N k| ≤ |resid N 0| / 100 ^ k := by
  induction k with
  | zero => simp
  | succ k ih =>
      calc |resid N (k + 1)| ≤ |resid N k| / 100 := resid_contraction N k
        _ ≤ |resid N 0| / 100 ^ k / 100 := by gcongr
        _ = |resid N 0| / 100 ^ (k + 1) := by rw [pow_succ]; ring

/-- For every northing within the valid range, six iterations of the loop body
bring the residual below the 0.00001 m tolerance. -/
theorem loop_reaches_tolerance (N : ℝ) (hn0' : 0 ≤ N) (hn1' : N ≤ 1300000) :
    ∃ k, 1 ≤ k ∧
      |N - -nationalGrid.falseOriginN - (osLoop N k).2| < 0.00001 := by
  refine ⟨6, by norm_num, ?_⟩
  have h0 : |resid N 0| ≤ 1400000 := by
    have hz : (osLoop N 0).2 = 0 := rfl
    rw [resid, hz]
    have hf : -nationalGrid.falseOriginN = (-100000 : ℝ) := by
      norm_num [nationalGrid.falseOriginN]
    rw [hf, abs_le]
    constructor <;> linarith
  have h6 := resid_pow N 6
  have : |resid N 6| < 0.00001 := by
    have hb : |resid N 0| / 100 ^ 6 ≤ 1400000 / 100 ^ 6 := by gcongr
    calc |resid N 6| ≤ |resid N 0| / 100 ^ 6 := h6
      _ ≤ 1400000 / 100 ^ 6 := hb
      _ < 0.00001 := by norm_num
  exact this

/-- C5: for every OsGridRef within the valid bounds (easting in [0, 700000],
northing in [0, 1300000]), the iterative meridional-arc refinement loop of
toLatLon terminates: after finitely many iterations (six suffice) the
residual `|N − N0 − M|` falls below 0.00001 metres. -/
theorem osgrid_toLatLon_loop_terminates (g : OsGridRef)
    (he0 : 0 ≤ g.easting) (he1 : g.easting ≤ 700000)
    (hn0 : 0 ≤ g.northing) (hn1 : g.northing ≤ 1300000) :
    ∃ k, 1 ≤ k ∧
      |(g.northing : ℝ) - -nationalGrid.falseOriginN -
          (osLoop (g.northing : ℝ) k).2| < 0.00001 :=
  loop_reaches_tolerance (g.northing : ℝ) (by exact_mod_cast hn0)
    (by exact_mod_cast hn1)

/-- Witness for C5: the loop terminates for the grid reference
(651409, 313177). -/
theorem osgrid_toLatLon_loop_terminates_witness :
    ∃ k, 1 ≤ k ∧
      |(((⟨651409, 313177⟩ : OsGridRef).northing : ℚ) : ℝ) -
          -nationalGrid.falseOriginN -
          (osLoop (((⟨651409, 313177⟩ : OsGridRef).northing : ℚ) : ℝ) k).2| < 0.00001 :=
  osgrid_toLatLon_loop_terminates ⟨651409, 313177⟩
    (by norm_num) (by norm_num) (by norm_num) (by norm_num)


/-! ## Verified interval arithmetic (midpoint/radius form) for claim C1 -/

/-- `near x m r`: the real `x` lies within `r` of the midpoint `m`. -/
noncomputable def near (x m r : ℝ) : Prop := |x - m| ≤ r

theorem near_lit (c : ℝ) : near c c 0 := by simp [near]

theorem near_of_eq {x m : ℝ} (h : x = m) : near x m 0 := by simp [near, h]

theorem near_lb {x m r : ℝ} (h : near x m r) : m - r ≤ x := by
  have := abs_le.1 h
  linarith [this.1]

theorem near_ub {x m r : ℝ} (h : near x m r) : x ≤ m + r := by
  have := abs_le.1 h
  linarith [this.2]

theorem near_of_mem {x a b m r : ℝ} (h1 : a ≤ x) (h2 : x ≤ b) (h3 : m - r ≤ a)
    (h4 : b ≤ m + r) : near x m r := by
  unfold near
  rw [abs_le]
  constructor <;> linarith

theorem near_weaken {x m r m' r' : ℝ} (h : near x m r) (h2 : |m - m'| + r ≤ r') :
    near x m' r' := by
  unfold near at *
  calc |x - m'| ≤ |x - m| + |m - m'| := abs_sub_le x m m'
    _ ≤ r' := by linarith

theorem near_lt {x m r c e : ℝ} (h : near x m r) (hc : |m - c| + r < e) : |x - c| < e := by
  unfold near at h
  calc |x - c| ≤ |x - m| + |m - c| := abs_sub_le x m c
    _ < e := by linarith

theorem near_add {x y mx rx my ry m r : ℝ} (hx : near x mx rx) (hy : near y my ry)
    (h : |mx + my - m| + rx + ry ≤ r) : near (x + y) m r := by
  unfold near at *
  calc |x + y - m| = |(x - mx) + (y - my) + (mx + my - m)| := by ring_nf
    _ ≤ |(x - mx) + (y - my)| + |mx + my - m| := abs_add _ _
    _ ≤ |x - mx| + |y - my| + |mx + my - m| := by linarith [abs_add (x - mx) (y - my)]
    _ ≤ r := by linarith

theorem near_sub {x y mx rx my ry m r : ℝ} (hx : near x mx rx) (hy : near y my ry)
    (h : |mx - my - m| + rx + ry ≤ r) : near (x - y) m r := by
  unfold near at *
  calc |x - y - m| = |(x - mx) + (-(y - my)) + (mx - my - m)| := by ring_nf
    _ ≤ |(x - mx) + (-(y - my))| + |mx - my - m| := abs_add _ _
    _ ≤ |x - mx| + |-(y - my)| + |mx - my - m| := by linarith [abs_add (x - mx) (-(y - my))]
    _ ≤ r := by rw [abs_neg]; linarith

theorem near_neg {x mx rx m r : ℝ} (hx : near x mx rx) (h : |(-mx) - m| + rx ≤ r) :
    near (-x) m r := by
  unfold near at *
  calc |(-x) - m| = |(-(x - mx)) + (-mx - m)| := by ring_nf
    _ ≤ |-(x - mx)| + |-mx - m| := abs_add _ _
    _ ≤ r := by rw [abs_neg]; linarith

theorem near_mul {x y mx rx my ry m r : ℝ} (hx : near x mx rx) (hy : near y my ry)
    (h : |mx * my - m| + |mx| * ry + |my| * rx + rx * ry ≤ r) : near (x * y) m r := by
  unfold near at *
  have h1 : x * y - m = (x - mx) * (y - my) + mx * (y - my) + my * (x - mx) + (mx * my - m) := by
    ring
  have t1 : |x * y - m| ≤ |(x - mx) * (y - my)| + |mx * (y - my)| + |my * (x - mx)| +
      |mx * my - m| := by
    rw [h1]
    calc |(x - mx) * (y - my) + mx * (y - my) + my * (x - mx) + (mx * my - m)|
        ≤ |(x - mx) * (y - my) + mx * (y - my) + my * (x - mx)| + |mx * my - m| :=
          abs_add _ _
      _ ≤ |(x - mx) * (y - my) + mx * (y - my)| + |my * (x - mx)| + |mx * my - m| := by
          linarith [abs_add ((x - mx) * (y - my) + mx * (y - my)) (my * (x - mx))]
      _ ≤ |(x - mx) * (y - my)| + |mx * (y - my)| + |my * (x - mx)| + |mx * my - m| := by
          linarith [abs_add ((x - mx) * (y - my)) (mx * (y - my))]
  rw [abs_mul, abs_mul, abs_mul] at t1
  have p1 : |x - mx| * |y - my| ≤ rx * ry :=
    mul_le_mul hx hy (abs_nonneg _) ((abs_nonneg _).trans hx)
  have p2 : |mx| * |y - my| ≤ |mx| * ry := mul_le_mul_of_nonneg_left hy (abs_nonneg _)
  have p3 : |my| * |x - mx| ≤ |my| * rx := mul_le_mul_of_nonneg_left hx (abs_nonneg _)
  linarith

theorem near_div {x y mx rx my ry m r : ℝ} (hx : near x mx rx) (hy : near y my ry)
    (hpos : 0 < my - ry) (h : rx + |mx - m * my| + |m| * ry ≤ r * (my - ry)) :
    near (x / y) m r := by
  unfold near at *
  have hy1 : my - ry ≤ y := by
    have := abs_le.1 hy
    linarith [this.1]
  have hy0 : 0 < y := lt_of_lt_of_le hpos hy1
  have hnum : |x - m * y| ≤ rx + |mx - m * my| + |m| * ry := by
    have e : x - m * y = (x - mx) + (mx - m * my) + m * (my - y) := by ring
    calc |x - m * y| = |(x - mx) + (mx - m * my) + m * (my - y)| := by rw [e]
      _ ≤ |(x - mx) + (mx - m * my)| + |m * (my - y)| := abs_add _ _
      _ ≤ |x - mx| + |mx - m * my| + |m * (my - y)| := by
          linarith [abs_add (x - mx) (mx - m * my)]
      _ ≤ rx + |mx - m * my| + |m| * ry := by
          have : |m * (my - y)| = |m| * |my - y| := abs_mul _ _
          have h2 : |my - y| = |y - my| := abs_sub_comm _ _
          have h3 : |m| * |y - my| ≤ |m| * ry := mul_le_mul_of_nonneg_left hy (abs_nonneg _)
          rw [this, h2]
          linarith
  have e2 : x / y - m = (x - m * y) / y := by field_simp; ring
  rw [e2, abs_div, abs_of_pos hy0]
  have hrx0 : (0 : ℝ) ≤ rx := (abs_nonneg _).trans hx
  have hry0 : (0 : ℝ) ≤ ry := (abs_nonneg _).trans hy
  have hnn : (0 : ℝ) ≤ rx + |mx - m * my| + |m| * ry := by positivity
  have hr0 : 0 ≤ r := by nlinarith
  calc |x - m * y| / y ≤ (rx + |mx - m * my| + |m| * ry) / y := by gcongr
      _ ≤ r := by
        rw [div_le_iff₀ hy0]
        calc rx + |mx - m * my| + |m| * ry ≤ r * (my - ry) := h
          _ ≤ r * y := mul_le_mul_of_nonneg_left hy1 hr0

theorem near_sqrt {x mx rx m r : ℝ} (hx : near x mx rx) (hr : 0 ≤ r) (h0 : 0 ≤ m - r)
    (h1 : (m - r) ^ 2 ≤ mx - rx) (h2 : mx + rx ≤ (m + r) ^ 2) :
    near (Real.sqrt x) m r := by
  have hlb : m - r ≤ Real.sqrt x := by
    have : (m - r) ^ 2 ≤ x := le_trans h1 (near_lb hx)
    exact Real.le_sqrt_of_sq_le this
  have hub : Real.sqrt x ≤ m + r := by
    have hx2 : x ≤ (m + r) ^ 2 := le_trans (near_ub hx) h2
    have hmr : (0 : ℝ) ≤ m + r := by linarith
    rw [Real.sqrt_le_left hmr]
    exact hx2
  exact near_of_mem hlb hub (le_refl _) (le_refl _)

/-! ## Degree-14 Taylor approximations of sine and cosine -/

/-- Odd part of the degree-14 Taylor sum for `sin`, as a complex identity. -/
theorem sin_sum_identity (x : ℝ) :
    ((∑ m ∈ Finset.range 15, (-(x : ℂ) * Complex.I) ^ m / m.factorial) -
        ∑ m ∈ Finset.range 15, ((x : ℂ) * Complex.I) ^ m / m.factorial) * Complex.I =
      2 * ((x - x ^ 3 / 6 + x ^ 5 / 120 - x ^ 7 / 5040 + x ^ 9 / 362880 -
        x ^ 11 / 39916800 + x ^ 13 / 6227020800 : ℝ) : ℂ) := by
  have h2 : Complex.I ^ 2 = -1 := Complex.I_sq
  have h3 : Complex.I ^ 3 = -Complex.I := by rw [pow_succ, h2]; ring
  have h4 : Complex.I ^ 4 = 1 := Complex.I_pow_four
  have h5 : Complex.I ^ 5 = Complex.I := by rw [pow_succ, h4]; ring
  have h6 : Complex.I ^ 6 = -1 := by rw [pow_succ, h5, Complex.I_mul_I]
  have h7 : Complex.I ^ 7 = -Complex.I := by rw [pow_succ, h6]; ring
  have h8 : Complex.I ^ 8 = 1 := by rw [pow_succ, h7, neg_mul, Complex.I_mul_I, neg_neg]
  have h9 : Complex.I ^ 9 = Complex.I := by rw [pow_succ, h8]; ring
  have h10 : Complex.I ^ 10 = -1 := by rw [pow_succ, h9, Complex.I_mul_I]
  have h11 : Complex.I ^ 11 = -Complex.I := by rw [pow_succ, h10]; ring
  have h12 : Complex.I ^ 12 = 1 := by rw [pow_succ, h11, neg_mul, Complex.I_mul_I, neg_neg]
  have h13 : Complex.I ^ 13 = Complex.I := by rw [pow_succ, h12]; ring
  have h14 : Complex.I ^ 14 = -1 := by rw [pow_succ, h13, Complex.I_mul_I]
  have h15 : Complex.I ^ 15 = -Complex.I := by rw [pow_succ, h14]; ring
  simp only [Finset.sum_range_succ, Finset.sum_range_zero]
  push_cast
  ring_nf
  simp only [h2, h3, h4, h5, h6, h7, h8, h9, h10, h11, h12, h13, h14, h15]
  norm_num [Nat.factorial]
  ring

/-- Even part of the degree-14 Taylor sum for `cos`, as a complex identity. -/
theorem cos_sum_identity (x : ℝ) :
    ((∑ m ∈ Finset.range 15, ((x : ℂ) * Complex.I) ^ m / m.factorial) +
        ∑ m ∈ Finset.range 15, (-(x : ℂ) * Complex.I) ^ m / m.factorial) =
      2 * ((1 - x ^ 2 / 2 + x ^ 4 / 24 - x ^ 6 / 720 + x ^ 8 / 40320 - x ^ 10 / 3628800 +
        x ^ 12 / 479001600 - x ^ 14 / 87178291200 : ℝ) : ℂ) := by
  have h2 : Complex.I ^ 2 = -1 := Complex.I_sq
  have h3 : Complex.I ^ 3 = -Complex.I := by rw [pow_succ, h2]; ring
  have h4 : Complex.I ^ 4 = 1 := Complex.I_pow_four
  have h5 : Complex.I ^ 5 = Complex.I := by rw [pow_succ, h4]; ring
  have h6 : Complex.I ^ 6 = -1 := by rw [pow_succ, h5, Complex.I_mul_I]
  have h7 : Complex.I ^ 7 = -Complex.I := by rw [pow_succ, h6]; ring
  have h8 : Complex.I ^ 8 = 1 := by rw [pow_succ, h7, neg_mul, Complex.I_mul_I, neg_neg]
  have h9 : Complex.I ^ 9 = Complex.I := by rw [pow_succ, h8]; ring
  have h10 : Complex.I ^ 10 = -1 := by rw [pow_succ, h9, Complex.I_mul_I]
  have h11 : Complex.I ^ 11 = -Complex.I := by rw [pow_succ, h10]; ring
  have h12 : Complex.I ^ 12 = 1 := by rw [pow_succ, h11, neg_mul, Complex.I_mul_I, neg_neg]
  have h13 : Complex.I ^ 13 = Complex.I := by rw [pow_succ, h12]; ring
  have h14 : Complex.I ^ 14 = -1 := by rw [pow_succ, h13, Complex.I_mul_I]
  have h15 : Complex.I ^ 15 = -Complex.I := by rw [pow_succ, h14]; ring
  simp only [Finset.sum_range_succ, Finset.sum_range_zero]
  push_cast
  ring_nf
  simp only [h2, h3, h4, h5, h6, h7, h8, h9, h10, h11, h12, h13, h14, h15]
  norm_num [Nat.factorial]
  ring

/-- Degree-13 Taylor approximation of the real sine, with absolute error at
most `10^-12` on `[-1, 1]` (two applications of `Complex.exp_bound` at
order 15). -/
theorem sin_taylor {x : ℝ} (hx : |x| ≤ 1) :
    |Real.sin x - (x - x ^ 3 / 6 + x ^ 5 / 120 - x ^ 7 / 5040 + x ^ 9 / 362880 -
      x ^ 11 / 39916800 + x ^ 13 / 6227020800)| ≤ 1 / 10 ^ 12 := by
  have hxc : Complex.abs ((x : ℂ) * Complex.I) ≤ 1 := by
    rw [map_mul, Complex.abs_I, mul_one, Complex.abs_ofReal]; exact hx
  have hxc2 : Complex.abs (-(x : ℂ) * Complex.I) ≤ 1 := by
    rw [neg_mul, AbsoluteValue.map_neg]; exact hxc
  have hb1 := Complex.exp_bound hxc (n := 15) (by norm_num)
  have hb2 := Complex.exp_bound hxc2 (n := 15) (by norm_num)
  set S1 := ∑ m ∈ Finset.range 15, ((x : ℂ) * Complex.I) ^ m / m.factorial with hS1
  set S2 := ∑ m ∈ Finset.range 15, (-(x : ℂ) * Complex.I) ^ m / m.factorial with hS2
  set P : ℝ := x - x ^ 3 / 6 + x ^ 5 / 120 - x ^ 7 / 5040 + x ^ 9 / 362880 -
      x ^ 11 / 39916800 + x ^ 13 / 6227020800 with hP
  have hs : Complex.sin (x : ℂ) =
      (Complex.exp (-(x : ℂ) * Complex.I) - Complex.exp ((x : ℂ) * Complex.I)) *
        Complex.I / 2 := rfl
  have hid := sin_sum_identity x
  rw [← hS1, ← hS2, ← hP] at hid
  have key : ((Real.sin x - P : ℝ) : ℂ) =
      ((Complex.exp (-(x : ℂ) * Complex.I) - S2) -
        (Complex.exp ((x : ℂ) * Complex.I) - S1)) * Complex.I / 2 := by
    rw [Complex.ofReal_sub, Complex.ofReal_sin, hs]
    linear_combination hid / 2
  have habs : |Real.sin x - P| =
      Complex.abs (((Complex.exp (-(x : ℂ) * Complex.I) - S2) -
        (Complex.exp ((x : ℂ) * Complex.I) - S1)) * Complex.I / 2) := by
    rw [← key, Complex.abs_ofReal]
  rw [habs, map_div₀, map_mul, Complex.abs_I, Complex.abs_two, mul_one]
  have htri : Complex.abs ((Complex.exp (-(x : ℂ) * Complex.I) - S2) -
      (Complex.exp ((x : ℂ) * Complex.I) - S1)) ≤
      Complex.abs (Complex.exp (-(x : ℂ) * Complex.I) - S2) +
        Complex.abs (Complex.exp ((x : ℂ) * Complex.I) - S1) := by
    calc Complex.abs ((Complex.exp (-(x : ℂ) * Complex.I) - S2) -
        (Complex.exp ((x : ℂ) * Complex.I) - S1))
        ≤ Complex.abs (Complex.exp (-(x : ℂ) * Complex.I) - S2) +
          Complex.abs (-(Complex.exp ((x : ℂ) * Complex.I) - S1)) := by
          rw [sub_eq_add_neg]
          exact Complex.abs.add_le _ _
      _ = _ := by rw [AbsoluteValue.map_neg]
  have hpow1 : Complex.abs ((x : ℂ) * Complex.I) ^ 15 ≤ 1 :=
    pow_le_one₀ (AbsoluteValue.nonneg _ _) hxc
  have hpow2 : Complex.abs (-(x : ℂ) * Complex.I) ^ 15 ≤ 1 :=
    pow_le_one₀ (AbsoluteValue.nonneg _ _) hxc2
  have hconst : ((15 : ℕ).succ : ℝ) * (((15 : ℕ).factorial * (15 : ℕ) : ℝ))⁻¹ ≤
      16 / 19615115520000 := by
    norm_num [Nat.factorial]
  have hb1' : Complex.abs (Complex.exp ((x : ℂ) * Complex.I) - S1) ≤
      16 / 19615115520000 := by
    calc Complex.abs (Complex.exp ((x : ℂ) * Complex.I) - S1)
        ≤ Complex.abs ((x : ℂ) * Complex.I) ^ 15 *
          (((15 : ℕ).succ : ℝ) * (((15 : ℕ).factorial * (15 : ℕ) : ℝ))⁻¹) := hb1
      _ ≤ 1 * (16 / 19615115520000) := by
          apply mul_le_mul hpow1 hconst _ zero_le_one
          positivity
      _ = 16 / 19615115520000 := one_mul _
  have hb2' : Complex.abs (Complex.exp (-(x : ℂ) * Complex.I) - S2) ≤
      16 / 19615115520000 := by
    calc Complex.abs (Complex.exp (-(x : ℂ) * Complex.I) - S2)
        ≤ Complex.abs (-(x : ℂ) * Complex.I) ^ 15 *
          (((15 : ℕ).succ : ℝ) * (((15 : ℕ).factorial * (15 : ℕ) : ℝ))⁻¹) := hb2
      _ ≤ 1 * (16 / 19615115520000) := by
          apply mul_le_mul hpow2 hconst _ zero_le_one
          positivity
      _ = 16 / 19615115520000 := one_mul _
  calc Complex.abs ((Complex.exp (-(x : ℂ) * Complex.I) - S2) -
      (Complex.exp ((x : ℂ) * Complex.I) - S1)) / 2
      ≤ (16 / 19615115520000 + 16 / 19615115520000) / 2 := by
        have := le_trans htri (add_le_add hb2' hb1')
        linarith
    _ ≤ 1 / 10 ^ 12 := by norm_num

/-- Degree-14 Taylor approximation of the real cosine, with absolute error at
most `10^-12` on `[-1, 1]`. -/
theorem cos_taylor {x : ℝ} (hx : |x| ≤ 1) :
    |Real.cos x - (1 - x ^ 2 / 2 + x ^ 4 / 24 - x ^ 6 / 720 + x ^ 8 / 40320 -
      x ^ 10 / 3628800 + x ^ 12 / 479001600 - x ^ 14 / 87178291200)| ≤ 1 / 10 ^ 12 := by
  have hxc : Complex.abs ((x : ℂ) * Complex.I) ≤ 1 := by
    rw [map_mul, Complex.abs_I, mul_one, Complex.abs_ofReal]; exact hx
  have hxc2 : Complex.abs (-(x : ℂ) * Complex.I) ≤ 1 := by
    rw [neg_mul, AbsoluteValue.map_neg]; exact hxc
  have hb1 := Complex.exp_bound hxc (n := 15) (by norm_num)
  have hb2 := Complex.exp_bound hxc2 (n := 15) (by norm_num)
  set S1 := ∑ m ∈ Finset.range 15, ((x : ℂ) * Complex.I) ^ m / m.factorial with hS1
  set S2 := ∑ m ∈ Finset.range 15, (-(x : ℂ) * Complex.I) ^ m / m.factorial with hS2
  set Q : ℝ := 1 - x ^ 2 / 2 + x ^ 4 / 24 - x ^ 6 / 720 + x ^ 8 / 40320 -
      x ^ 10 / 3628800 + x ^ 12 / 479001600 - x ^ 14 / 87178291200 with hQ
  have hs : Complex.cos (x : ℂ) =
      (Complex.exp ((x : ℂ) * Complex.I) + Complex.exp (-(x : ℂ) * Complex.I)) / 2 := rfl
  have hid := cos_sum_identity x
  rw [← hS1, ← hS2, ← hQ] at hid
  have key : ((Real.cos x - Q : ℝ) : ℂ) =
      ((Complex.exp ((x : ℂ) * Complex.I) - S1) +
        (Complex.exp (-(x : ℂ) * Complex.I) - S2)) / 2 := by
    rw [Complex.ofReal_sub, Complex.ofReal_cos, hs]
    linear_combination hid / 2
  have habs : |Real.cos x - Q| =
      Complex.abs (((Complex.exp ((x : ℂ) * Complex.I) - S1) +
        (Complex.exp (-(x : ℂ) * Complex.I) - S2)) / 2) := by
    rw [← key, Complex.abs_ofReal]
  rw [habs, map_div₀, Complex.abs_two]
  have htri : Complex.abs ((Complex.exp ((x : ℂ) * Complex.I) - S1) +
      (Complex.exp (-(x : ℂ) * Complex.I) - S2)) ≤
      Complex.abs (Complex.exp ((x : ℂ) * Complex.I) - S1) +
        Complex.abs (Complex.exp (-(x : ℂ) * Complex.I) - S2) :=
    Complex.abs.add_le _ _
  have hpow1 : Complex.abs ((x : ℂ) * Complex.I) ^ 15 ≤ 1 :=
    pow_le_one₀ (AbsoluteValue.nonneg _ _) hxc
  have hpow2 : Complex.abs (-(x : ℂ) * Complex.I) ^ 15 ≤ 1 :=
    pow_le_one₀ (AbsoluteValue.nonneg _ _) hxc2
  have hconst : ((15 : ℕ).succ : ℝ) * (((15 : ℕ).factorial * (15 : ℕ) : ℝ))⁻¹ ≤
      16 / 19615115520000 := by
    norm_num [Nat.factorial]
  have hb1' : Complex.abs (Complex.exp ((x : ℂ) * Complex.I) - S1) ≤
      16 / 19615115520000 := by
    calc Complex.abs (Complex.exp ((x : ℂ) * Complex.I) - S1)
        ≤ Complex.abs ((x : ℂ) * Complex.I) ^ 15 *
          (((15 : ℕ).succ : ℝ) * (((15 : ℕ).factorial * (15 : ℕ) : ℝ))⁻¹) := hb1
      _ ≤ 1 * (16 / 19615115520000) := by
          apply mul_le_mul hpow1 hconst _ zero_le_one
          positivity
      _ = 16 / 19615115520000 := one_mul _
  have hb2' : Complex.abs (Complex.exp (-(x : ℂ) * Complex.I) - S2) ≤
      16 / 19615115520000 := by
    calc Complex.abs (Complex.exp (-(x : ℂ) * Complex.I) - S2)
        ≤ Complex.abs (-(x : ℂ) * Complex.I) ^ 15 *
          (((15 : ℕ).succ : ℝ) * (((15 : ℕ).factorial * (15 : ℕ) : ℝ))⁻¹) := hb2
      _ ≤ 1 * (16 / 19615115520000) := by
          apply mul_le_mul hpow2 hconst _ zero_le_one
          positivity
      _ = 16 / 19615115520000 := one_mul _
  calc Complex.abs ((Complex.exp ((x : ℂ) * Complex.I) - S1) +
      (Complex.exp (-(x : ℂ) * Complex.I) - S2)) / 2
      ≤ (16 / 19615115520000 + 16 / 19615115520000) / 2 := by
        have := le_trans htri (add_le_add hb1' hb2')
        linarith
    _ ≤ 1 / 10 ^ 12 := by norm_num

/-- The sine function is 1-Lipschitz. -/
theorem sin_lip (a b : ℝ) : |Real.sin a - Real.sin b| ≤ |a - b| := by
  rw [Real.sin_sub_sin]
  rw [abs_mul, abs_mul]
  have h1 : |Real.sin ((a - b) / 2)| ≤ |(a - b) / 2| := Real.abs_sin_le_abs
  have h2 : |Real.cos ((a + b) / 2)| ≤ 1 := Real.abs_cos_le_one _
  have h3 : |(2 : ℝ)| = 2 := by norm_num
  rw [h3]
  calc 2 * |Real.sin ((a - b) / 2)| * |Real.cos ((a + b) / 2)|
      ≤ 2 * |(a - b) / 2| * 1 := by
        apply mul_le_mul _ h2 (abs_nonneg _) (by positivity)
        exact mul_le_mul_of_nonneg_left h1 (by norm_num)
    _ = |a - b| := by rw [abs_div, mul_one]; rw [show |(2:ℝ)| = 2 by norm_num]; ring

/-- The cosine function is 1-Lipschitz. -/
theorem cos_lip (a b : ℝ) : |Real.cos a - Real.cos b| ≤ |a - b| := by
  rw [Real.cos_sub_cos]
  rw [abs_mul, abs_mul]
  have h1 : |Real.sin ((a - b) / 2)| ≤ |(a - b) / 2| := Real.abs_sin_le_abs
  have h2 : |Real.sin ((a + b) / 2)| ≤ 1 := Real.abs_sin_le_one _
  have h3 : |(-2 : ℝ)| = 2 := by norm_num
  rw [h3]
  calc 2 * |Real.sin ((a + b) / 2)| * |Real.sin ((a - b) / 2)|
      ≤ 2 * 1 * |(a - b) / 2| := by
        apply mul_le_mul _ h1 (abs_nonneg _) (by positivity)
        exact mul_le_mul_of_nonneg_left h2 (by norm_num)
    _ = |a - b| := by rw [abs_div]; rw [show |(2:ℝ)| = 2 by norm_num]; ring

/-- Interval evaluation of `Real.sin` through the degree-13 Taylor polynomial
at the rational midpoint plus the Lipschitz bound. -/
theorem near_sin {x mx rx m r : ℝ} (hx : near x mx rx) (hb : |mx| ≤ 1)
    (h : |(mx - mx ^ 3 / 6 + mx ^ 5 / 120 - mx ^ 7 / 5040 + mx ^ 9 / 362880 -
      mx ^ 11 / 39916800 + mx ^ 13 / 6227020800) - m| + rx + 1 / 10 ^ 12 ≤ r) :
    near (Real.sin x) m r := by
  have ht := sin_taylor hb
  have hl := sin_lip x mx
  unfold near at *
  set P : ℝ := mx - mx ^ 3 / 6 + mx ^ 5 / 120 - mx ^ 7 / 5040 + mx ^ 9 / 362880 -
      mx ^ 11 / 39916800 + mx ^ 13 / 6227020800 with hP
  calc |Real.sin x - m| ≤ |Real.sin x - Real.sin mx| + |Real.sin mx - m| :=
        abs_sub_le _ _ _
    _ ≤ |Real.sin x - Real.sin mx| + (|Real.sin mx - P| + |P - m|) := by
        linarith [abs_sub_le (Real.sin mx) P m]
    _ ≤ rx + (1 / 10 ^ 12 + |P - m|) := by
        have := le_trans hl hx
        gcongr
    _ ≤ r := by linarith

/-- Interval evaluation of `Real.cos` through the degree-14 Taylor polynomial
at the rational midpoint plus the Lipschitz bound. -/
theorem near_cos {x mx rx m r : ℝ} (hx : near x mx rx) (hb : |mx| ≤ 1)
    (h : |(1 - mx ^ 2 / 2 + mx ^ 4 / 24 - mx ^ 6 / 720 + mx ^ 8 / 40320 -
      mx ^ 10 / 3628800 + mx ^ 12 / 479001600 - mx ^ 14 / 87178291200) - m| +
      rx + 1 / 10 ^ 12 ≤ r) :
    near (Real.cos x) m r := by
  have ht := cos_taylor hb
  have hl := cos_lip x mx
  unfold near at *
  set P : ℝ := 1 - mx ^ 2 / 2 + mx ^ 4 / 24 - mx ^ 6 / 720 + mx ^ 8 / 40320 -
      mx ^ 10 / 3628800 + mx ^ 12 / 479001600 - mx ^ 14 / 87178291200 with hP
  calc |Real.cos x - m| ≤ |Real.cos x - Real.cos mx| + |Real.cos mx - m| :=
        abs_sub_le _ _ _
    _ ≤ |Real.cos x - Real.cos mx| + (|Real.cos mx - P| + |P - m|) := by
        linarith [abs_sub_le (Real.cos mx) P m]
    _ ≤ rx + (1 / 10 ^ 12 + |P - m|) := by
        have := le_trans hl hx
        gcongr
    _ ≤ r := by linarith

/-- Twenty correct digits of pi, as a `near` fact. -/
theorem near_pi : near Real.pi 3.141592653589793238465 (1 / 10 ^ 19) := by
  have h1 := Real.pi_gt_d20
  have h2 := Real.pi_lt_d20
  exact near_of_mem h1.le h2.le (by norm_num) (by norm_num)

/-- Bracketing the arctangent between two points with computable tangent. -/
theorem arctan_bracket {v t1 t2 : ℝ} (hb1 : -1 ≤ t1) (hb1u : t1 ≤ 1)
    (hb2l : -1 ≤ t2) (hb2 : t2 ≤ 1) (ht1 : Real.tan t1 ≤ v) (ht2 : v ≤ Real.tan t2) :
    t1 ≤ Real.arctan v ∧ Real.arctan v ≤ t2 := by
  have hpi : (1 : ℝ) < Real.pi / 2 := by
    have := Real.pi_gt_d6
    linarith
  have ha1 : Real.arctan (Real.tan t1) = t1 :=
    Real.arctan_tan (by linarith) (by linarith)
  have ha2 : Real.arctan (Real.tan t2) = t2 :=
    Real.arctan_tan (by linarith) (by linarith)
  constructor
  · rw [← ha1]
    exact Real.arctan_strictMono.monotone ht1
  · rw [← ha2]
    exact Real.arctan_strictMono.monotone ht2

/-- Converting to degrees and back to radians is the identity. -/
theorem toRadians_toDegrees (r : ℝ) : toRadians (toDegrees r) = r := by
  rw [toRadians, toDegrees]
  field_simp

/-- `wrap90` is the identity on in-range latitudes (the source's fast path). -/
theorem wrap90_id {d : ℝ} (h1 : -90 ≤ d) (h2 : d ≤ 90) : Dms.wrap90 d = d := by
  rw [Dms.wrap90, if_pos ⟨h1, h2⟩]

/-- `wrap180` is the identity on in-range longitudes (the source's fast path). -/
theorem wrap180_id {d : ℝ} (h1 : -180 ≤ d) (h2 : d ≤ 180) : Dms.wrap180 d = d := by
  rw [Dms.wrap180, if_pos ⟨h1, h2⟩]

/-- The 1.5 real power of a nonnegative number, via the square root. -/
theorem rpow_three_halves {x : ℝ} (hx : 0 < x) : x ^ (1.5 : ℝ) = x * Real.sqrt x := by
  rw [show (1.5 : ℝ) = 1 + 1 / 2 by norm_num, Real.rpow_add hx, Real.rpow_one,
    ← Real.sqrt_eq_rpow]

/-- Interval evaluation of `Real.tan` from sine and cosine intervals. -/
theorem near_tan {x ms rs mc rc m r : ℝ} (hs : near (Real.sin x) ms rs)
    (hc : near (Real.cos x) mc rc) (hpos : 0 < mc - rc)
    (h : rs + |ms - m * mc| + |m| * rc ≤ r * (mc - rc)) : near (Real.tan x) m r := by
  rw [Real.tan_eq_sin_div_cos]
  exact near_div hs hc hpos h

/-! ## Claim C1: the fixed point TG 51409 13177 -/

/-- Interval evaluation of the meridional arc at the x1 bracket point. -/
theorem marc_at_x1 : near (marc (0.920066157173675842)) (413176.936271803) (227e-10) := by
  delta marc
  lift_lets
  extract_lets a b φ0 F0 n n2 n3 Ma Mb Mc Md
  have h1 : near a (6377563.396) 0 := near_of_eq rfl
  have h2 : near b (6356256.909) 0 := near_of_eq rfl
  have h3 : near F0 (0.9996012717) 0 := near_of_eq rfl
  have h4 : near nationalGrid.trueOriginLat (49) 0 := near_of_eq rfl
  have h5 : near ((nationalGrid.trueOriginLat) * (Real.pi)) (153.9380400259) (132e-15) :=
    near_mul h4 near_pi (by norm_num [abs_of_nonneg, abs_of_nonpos])
  have h6 : near φ0 (0.855211333477222222222) (741e-18) :=
    near_div h5 (near_lit (180)) (by norm_num) (by norm_num [abs_of_nonneg, abs_of_nonpos])
  have h7 : near ((a) - (b)) (21306.487) (0) :=
    near_sub h1 h2 (by norm_num [abs_of_nonneg, abs_of_nonpos])
  have h8 : near ((a) + (b)) (12733820.305) (0) :=
    near_add h1 h2 (by norm_num [abs_of_nonneg, abs_of_nonpos])
  have h9 : near n (0.001673220328987515) (112e-21) :=
    near_div h7 h8 (by norm_num) (by norm_num [abs_of_nonneg, abs_of_nonpos])
  have h10 : near n2 (279966626933709e-20) (245e-23) :=
    near_mul h9 h9 (by norm_num [abs_of_nonneg, abs_of_nonpos])
  have h11 : near n3 (468445851623545e-23) (893e-26) :=
    near_mul h10 h9 (by norm_num [abs_of_nonneg, abs_of_nonpos])
  have h12 : near ((0.920066157173675842) - (φ0)) (0.0648548236964536) (761e-18) :=
    near_sub (near_lit (0.920066157173675842)) h6 (by norm_num [abs_of_nonneg, abs_of_nonpos])
  have h13 : near ((0.920066157173675842) + (φ0)) (1.7752774906509) (268e-17) :=
    near_add (near_lit (0.920066157173675842)) h6 (by norm_num [abs_of_nonneg, abs_of_nonpos])
  have h14 : near (Real.sin ((0.920066157173675842) - (φ0))) (0.0648093684242299) (101e-14) :=
    near_sin h12 (by norm_num [abs_of_nonneg, abs_of_nonpos]) (by norm_num [abs_of_nonneg, abs_of_nonpos])
  have h15 : near ((2) * ((0.920066157173675842) - (φ0))) (0.129709647392907) (173e-17) :=
    near_mul (near_lit (2)) h12 (by norm_num [abs_of_nonneg, abs_of_nonpos])
  have h16 : near (Real.sin ((2) * ((0.920066157173675842) - (φ0)))) (0.129346234578426) (101e-14) :=
    near_sin h15 (by norm_num [abs_of_nonneg, abs_of_nonpos]) (by norm_num [abs_of_nonneg, abs_of_nonpos])
  have h17 : near ((3) * ((0.920066157173675842) - (φ0))) (0.194564471089361) (249e-17) :=
    near_mul (near_lit (3)) h12 (by norm_num [abs_of_nonneg, abs_of_nonpos])
  have h18 : near (Real.sin ((3) * ((0.920066157173675842) - (φ0)))) (0.193339241975782) (101e-14) :=
    near_sin h17 (by norm_num [abs_of_nonneg, abs_of_nonpos]) (by norm_num [abs_of_nonneg, abs_of_nonpos])
  have h19 : near (Real.cos (0.920066157173675842)) (0.605767520563167) (101e-14) :=
    near_cos (near_lit (0.920066157173675842)) (by norm_num [abs_of_nonneg, abs_of_nonpos]) (by norm_num [abs_of_nonneg, abs_of_nonpos])
  have h20 : near (Real.cos (φ0)) (0.656059028990503) (101e-14) :=
    near_cos h6 (by norm_num [abs_of_nonneg, abs_of_nonpos]) (by norm_num [abs_of_nonneg, abs_of_nonpos])
  have h21 : near (Real.sin (0.920066157173675842)) (0.795641697644791) (101e-14) :=
    near_sin (near_lit (0.920066157173675842)) (by norm_num [abs_of_nonneg, abs_of_nonpos]) (by norm_num [abs_of_nonneg, abs_of_nonpos])
  have h22 : near (Real.sin (φ0)) (0.754709580222845) (101e-14) :=
    near_sin h6 (by norm_num [abs_of_nonneg, abs_of_nonpos]) (by norm_num [abs_of_nonneg, abs_of_nonpos])
  have h23 : near ((Real.cos (0.920066157173675842)) * (Real.cos (φ0))) (0.397419251334656) (128e-14) :=
    near_mul h19 h20 (by norm_num [abs_of_nonneg, abs_of_nonpos])
  have h24 : near ((Real.sin (0.920066157173675842)) * (Real.sin (φ0))) (0.600478411637292) (157e-14) :=
    near_mul h21 h22 (by norm_num [abs_of_nonneg, abs_of_nonpos])
  have h25 : near (((Real.cos (0.920066157173675842)) * (Real.cos (φ0))) - ((Real.sin (0.920066157173675842)) * (Real.sin (φ0)))) (-0.203059160302636) (285e-14) :=
    near_sub h23 h24 (by norm_num [abs_of_nonneg, abs_of_nonpos])
  have h26 : near (Real.cos ((0.920066157173675842) + (φ0))) (-0.203059160302636) (285e-14) := by
    rw [Real.cos_add]
    exact h25
  have h27 : near ((Real.cos ((0.920066157173675842) + (φ0))) * (Real.cos ((0.920066157173675842) + (φ0)))) (0.0412330225828116) (116e-14) :=
    near_mul h26 h26 (by norm_num [abs_of_nonneg, abs_of_nonpos])
  have h28 : near ((2) * ((Real.cos ((0.920066157173675842) + (φ0))) * (Real.cos ((0.920066157173675842) + (φ0))))) (0.0824660451656232) (232e-14) :=
    near_mul (near_lit (2)) h27 (by norm_num [abs_of_nonneg, abs_of_nonpos])
  have h29 : near (((2) * ((Real.cos ((0.920066157173675842) + (φ0))) * (Real.cos ((0.920066157173675842) + (φ0))))) - (1)) (-0.917533954834377) (233e-14) :=
    near_sub h28 (near_lit (1)) (by norm_num [abs_of_nonneg, abs_of_nonpos])
  have h30 : near (Real.cos (2 * ((0.920066157173675842) + (φ0)))) (-0.917533954834377) (233e-14) := by
    rw [Real.cos_two_mul, pow_two]
    exact h29
  have h31 : near ((Real.cos ((0.920066157173675842) + (φ0))) * (Real.cos ((0.920066157173675842) + (φ0)))) (0.0412330225828116) (116e-14) :=
    near_mul h26 h26 (by norm_num [abs_of_nonneg, abs_of_nonpos])
  have h32 : near (((Real.cos ((0.920066157173675842) + (φ0))) * (Real.cos ((0.920066157173675842) + (φ0)))) * (Real.cos ((0.920066157173675842) + (φ0)))) (-0.00837274294240535) (354e-15) :=
    near_mul h31 h26 (by norm_num [abs_of_nonneg, abs_of_nonpos])
  have h33 : near ((4) * (((Real.cos ((0.920066157173675842) + (φ0))) * (Real.cos ((0.920066157173675842) + (φ0)))) * (Real.cos ((0.920066157173675842) + (φ0))))) (-0.0334909717696214) (142e-14) :=
    near_mul (near_lit (4)) h32 (by norm_num [abs_of_nonneg, abs_of_nonpos])
  have h34 : near ((3) * (Real.cos ((0.920066157173675842) + (φ0)))) (-0.609177480907908) (855e-14) :=
    near_mul (near_lit (3)) h26 (by norm_num [abs_of_nonneg, abs_of_nonpos])
  have h35 : near (((4) * (((Real.cos ((0.920066157173675842) + (φ0))) * (Real.cos ((0.920066157173675842) + (φ0)))) * (Real.cos ((0.920066157173675842) + (φ0))))) - ((3) * (Real.cos ((0.920066157173675842) + (φ0))))) (0.575686509138287) (998e-14) :=
    near_sub h33 h34 (by norm_num [abs_of_nonneg, abs_of_nonpos])
  have h36 : Real.cos (3 * ((0.920066157173675842) + (φ0))) =
      4 * (Real.cos ((0.920066157173675842) + (φ0)) * Real.cos ((0.920066157173675842) + (φ0)) * Real.cos ((0.920066157173675842) + (φ0))) - 3 * Real.cos ((0.920066157173675842) + (φ0)) := by
    rw [Real.cos_three_mul]; ring
  have h37 : near (Real.cos (3 * ((0.920066157173675842) + (φ0)))) (0.575686509138287) (998e-14) := by
    rw [h36]
    exact h35
  have h38 : near ((1) + (n)) (1.00167322032899) (249e-17) :=
    near_add (near_lit (1)) h9 (by norm_num [abs_of_nonneg, abs_of_nonpos])
  have h39 : near ((5 / 4) * (n2)) (349958283667136e-20) (557e-23) :=
    near_mul (near_lit (5 / 4)) h10 (by norm_num [abs_of_nonneg, abs_of_nonpos])
  have h40 : near (((1) + (n)) + ((5 / 4) * (n2))) (1.00167671991183) (582e-17) :=
    near_add h38 h39 (by norm_num [abs_of_nonneg, abs_of_nonpos])
  have h41 : near ((5 / 4) * (n3)) (585557314529431e-23) (137e-25) :=
    near_mul (near_lit (5 / 4)) h11 (by norm_num [abs_of_nonneg, abs_of_nonpos])
  have h42 : near ((((1) + (n)) + ((5 / 4) * (n2))) + ((5 / 4) * (n3))) (1.0016767257674) (897e-17) :=
    near_add h40 h41 (by norm_num [abs_of_nonneg, abs_of_nonpos])
  have h43 : near Ma (0.0649635674504856) (138e-17) :=
    near_mul h42 h12 (by norm_num [abs_of_nonneg, abs_of_nonpos])
  have h44 : near ((3) * (n)) (0.00501966098696254) (534e-20) :=
    near_mul (near_lit (3)) h9 (by norm_num [abs_of_nonneg, abs_of_nonpos])
  have h45 : near ((3) * (n)) (0.00501966098696254) (534e-20) :=
    near_mul (near_lit (3)) h9 (by norm_num [abs_of_nonneg, abs_of_nonpos])
  have h46 : near (((3) * (n)) * (n)) (839899880801126e-20) (141e-22) :=
    near_mul h45 h9 (by norm_num [abs_of_nonneg, abs_of_nonpos])
  have h47 : near (((3) * (n)) + (((3) * (n)) * (n))) (0.00502805998577055) (662e-20) :=
    near_add h44 h46 (by norm_num [abs_of_nonneg, abs_of_nonpos])
  have h48 : near ((21 / 8) * (n3)) (122967036051181e-22) (672e-25) :=
    near_mul (near_lit (21 / 8)) h11 (by norm_num [abs_of_nonneg, abs_of_nonpos])
  have h49 : near ((((3) * (n)) + (((3) * (n)) * (n))) + ((21 / 8) * (n3))) (0.00502807228247416) (116e-19) :=
    near_add h47 h48 (by norm_num [abs_of_nonneg, abs_of_nonpos])
  have h50 : near (((((3) * (n)) + (((3) * (n)) * (n))) + ((21 / 8) * (n3))) * (Real.sin ((0.920066157173675842) - (φ0)))) (0.000325866189018526) (508e-17) :=
    near_mul h49 h14 (by norm_num [abs_of_nonneg, abs_of_nonpos])
  have h51 : near Mb (-66170114713122e-18) (197e-17) :=
    near_mul h50 h26 (by norm_num [abs_of_nonneg, abs_of_nonpos])
  have h52 : near ((15 / 8) * (n2)) (524937425500704e-20) (835e-23) :=
    near_mul (near_lit (15 / 8)) h10 (by norm_num [abs_of_nonneg, abs_of_nonpos])
  have h53 : near ((15 / 8) * (n3)) (878335971794147e-23) (18e-24) :=
    near_mul (near_lit (15 / 8)) h11 (by norm_num [abs_of_nonneg, abs_of_nonpos])
  have h54 : near (((15 / 8) * (n2)) + ((15 / 8) * (n3))) (525815761472498e-20) (984e-23) :=
    near_add h52 h53 (by norm_num [abs_of_nonneg, abs_of_nonpos])
  have h55 : near ((((15 / 8) * (n2)) + ((15 / 8) * (n3))) * (Real.sin ((2) * ((0.920066157173675842) - (φ0))))) (680122888284554e-21) (532e-20) :=
    near_mul h54 h16 (by norm_num [abs_of_nonneg, abs_of_nonpos])
  have h56 : near Mc (-624035843461106e-21) (647e-20) :=
    near_mul h55 h30 (by norm_num [abs_of_nonneg, abs_of_nonpos])
  have h57 : near ((35 / 24) * (n3)) (683150200284336e-23) (177e-25) :=
    near_mul (near_lit (35 / 24)) h11 (by norm_num [abs_of_nonneg, abs_of_nonpos])
  have h58 : near (((35 / 24) * (n3)) * (Real.sin ((3) * ((0.920066157173675842) - (φ0))))) (132079741878577e-23) (691e-23) :=
    near_mul h57 h18 (by norm_num [abs_of_nonneg, abs_of_nonpos])
  have h59 : near Md (76036525529964e-23) (172e-22) :=
    near_mul h58 h37 (by norm_num [abs_of_nonneg, abs_of_nonpos])
  have h60 : near ((Ma) - (Mb)) (0.0650297375651987) (338e-17) :=
    near_sub h43 h51 (by norm_num [abs_of_nonneg, abs_of_nonpos])
  have h61 : near (((Ma) - (Mb)) + (Mc)) (0.0650291135293552) (343e-17) :=
    near_add h60 h56 (by norm_num [abs_of_nonneg, abs_of_nonpos])
  have h62 : near ((((Ma) - (Mb)) + (Mc)) - (Md)) (0.0650291127689899) (348e-17) :=
    near_sub h61 h59 (by norm_num [abs_of_nonneg, abs_of_nonpos])
  have h63 : near ((b) * (F0)) (6353722.48948831) (118e-11) :=
    near_mul h2 h3 (by norm_num [abs_of_nonneg, abs_of_nonpos])
  have h64 : near (((b) * (F0)) * ((((Ma) - (Mb)) + (Mc)) - (Md))) (413176.936271803) (227e-10) :=
    near_mul h63 h62 (by norm_num [abs_of_nonneg, abs_of_nonpos])
  exact h64

/-- Interval evaluation of the meridional arc at the x2 bracket point. -/
theorem marc_at_x2 : near (marc (0.920066177173675842)) (413177.063728189) (223e-10) := by
  delta marc
  lift_lets
  extract_lets a b φ0 F0 n n2 n3 Ma Mb Mc Md
  have h1 : near a (6377563.396) 0 := near_of_eq rfl
  have h2 : near b (6356256.909) 0 := near_of_eq rfl
  have h3 : near F0 (0.9996012717) 0 := near_of_eq rfl
  have h4 : near nationalGrid.trueOriginLat (49) 0 := near_of_eq rfl
  have h5 : near ((nationalGrid.trueOriginLat) * (Real.pi)) (153.9380400259) (132e-15) :=
    near_mul h4 near_pi (by norm_num [abs_of_nonneg, abs_of_nonpos])
  have h6 : near φ0 (0.855211333477222222222) (741e-18) :=
    near_div h5 (near_lit (180)) (by norm_num) (by norm_num [abs_of_nonneg, abs_of_nonpos])
  have h7 : near ((a) - (b)) (21306.487) (0) :=
    near_sub h1 h2 (by norm_num [abs_of_nonneg, abs_of_nonpos])
  have h8 : near ((a) + (b)) (12733820.305) (0) :=
    near_add h1 h2 (by norm_num [abs_of_nonneg, abs_of_nonpos])
  have h9 : near n (0.001673220328987515) (112e-21) :=
    near_div h7 h8 (by norm_num) (by norm_num [abs_of_nonneg, abs_of_nonpos])
  have h10 : near n2 (279966626933709e-20) (245e-23) :=
    near_mul h9 h9 (by norm_num [abs_of_nonneg, abs_of_nonpos])
  have h11 : near n3 (468445851623545e-23) (893e-26) :=
    near_mul h10 h9 (by norm_num [abs_of_nonneg, abs_of_nonpos])
  have h12 : near ((0.920066177173675842) - (φ0)) (0.0648548436964536) (761e-18) :=
    near_sub (near_lit (0.920066177173675842)) h6 (by norm_num [abs_of_nonneg, abs_of_nonpos])
  have h13 : near ((0.920066177173675842) + (φ0)) (1.7752775106509) (268e-17) :=
    near_add (near_lit (0.920066177173675842)) h6 (by norm_num [abs_of_nonneg, abs_of_nonpos])
  have h14 : near (Real.sin ((0.920066177173675842) - (φ0))) (0.0648093883821832) (101e-14) :=
    near_sin h12 (by norm_num [abs_of_nonneg, abs_of_nonpos]) (by norm_num [abs_of_nonneg, abs_of_nonpos])
  have h15 : near ((2) * ((0.920066177173675842) - (φ0))) (0.129709687392907) (173e-17) :=
    near_mul (near_lit (2)) h12 (by norm_num [abs_of_nonneg, abs_of_nonpos])
  have h16 : near (Real.sin ((2) * ((0.920066177173675842) - (φ0)))) (0.129346274242406) (101e-14) :=
    near_sin h15 (by norm_num [abs_of_nonneg, abs_of_nonpos]) (by norm_num [abs_of_nonneg, abs_of_nonpos])
  have h17 : near ((3) * ((0.920066177173675842) - (φ0))) (0.194564531089361) (249e-17) :=
    near_mul (near_lit (3)) h12 (by norm_num [abs_of_nonneg, abs_of_nonpos])
  have h18 : near (Real.sin ((3) * ((0.920066177173675842) - (φ0)))) (0.1933393008437) (101e-14) :=
    near_sin h17 (by norm_num [abs_of_nonneg, abs_of_nonpos]) (by norm_num [abs_of_nonneg, abs_of_nonpos])
  have h19 : near (Real.cos (0.920066177173675842)) (0.605767504650333) (101e-14) :=
    near_cos (near_lit (0.920066177173675842)) (by norm_num [abs_of_nonneg, abs_of_nonpos]) (by norm_num [abs_of_nonneg, abs_of_nonpos])
  have h20 : near (Real.cos (φ0)) (0.656059028990503) (101e-14) :=
    near_cos h6 (by norm_num [abs_of_nonneg, abs_of_nonpos]) (by norm_num [abs_of_nonneg, abs_of_nonpos])
  have h21 : near (Real.sin (0.920066177173675842)) (0.795641709760142) (101e-14) :=
    near_sin (near_lit (0.920066177173675842)) (by norm_num [abs_of_nonneg, abs_of_nonpos]) (by norm_num [abs_of_nonneg, abs_of_nonpos])
  have h22 : near (Real.sin (φ0)) (0.754709580222845) (101e-14) :=
    near_sin h6 (by norm_num [abs_of_nonneg, abs_of_nonpos]) (by norm_num [abs_of_nonneg, abs_of_nonpos])
  have h23 : near ((Real.cos (0.920066177173675842)) * (Real.cos (φ0))) (0.397419240894897) (128e-14) :=
    near_mul h19 h20 (by norm_num [abs_of_nonneg, abs_of_nonpos])
  have h24 : near ((Real.sin (0.920066177173675842)) * (Real.sin (φ0))) (0.600478420780863) (157e-14) :=
    near_mul h21 h22 (by norm_num [abs_of_nonneg, abs_of_nonpos])
  have h25 : near (((Real.cos (0.920066177173675842)) * (Real.cos (φ0))) - ((Real.sin (0.920066177173675842)) * (Real.sin (φ0)))) (-0.203059179885966) (285e-14) :=
    near_sub h23 h24 (by norm_num [abs_of_nonneg, abs_of_nonpos])
  have h26 : near (Real.cos ((0.920066177173675842) + (φ0))) (-0.203059179885966) (285e-14) := by
    rw [Real.cos_add]
    exact h25
  have h27 : near ((Real.cos ((0.920066177173675842) + (φ0))) * (Real.cos ((0.920066177173675842) + (φ0)))) (0.0412330305359611) (116e-14) :=
    near_mul h26 h26 (by norm_num [abs_of_nonneg, abs_of_nonpos])
  have h28 : near ((2) * ((Real.cos ((0.920066177173675842) + (φ0))) * (Real.cos ((0.920066177173675842) + (φ0))))) (0.0824660610719222) (232e-14) :=
    near_mul (near_lit (2)) h27 (by norm_num [abs_of_nonneg, abs_of_nonpos])
  have h29 : near (((2) * ((Real.cos ((0.920066177173675842) + (φ0))) * (Real.cos ((0.920066177173675842) + (φ0))))) - (1)) (-0.917533938928078) (233e-14) :=
    near_sub h28 (near_lit (1)) (by norm_num [abs_of_nonneg, abs_of_nonpos])
  have h30 : near (Real.cos (2 * ((0.920066177173675842) + (φ0)))) (-0.917533938928078) (233e-14) := by
    rw [Real.cos_two_mul, pow_two]
    exact h29
  have h31 : near ((Real.cos ((0.920066177173675842) + (φ0))) * (Real.cos ((0.920066177173675842) + (φ0)))) (0.0412330305359611) (116e-14) :=
    near_mul h26 h26 (by norm_num [abs_of_nonneg, abs_of_nonpos])
  have h32 : near (((Real.cos ((0.920066177173675842) + (φ0))) * (Real.cos ((0.920066177173675842) + (φ0)))) * (Real.cos ((0.920066177173675842) + (φ0)))) (-0.00837274536484525) (354e-15) :=
    near_mul h31 h26 (by norm_num [abs_of_nonneg, abs_of_nonpos])
  have h33 : near ((4) * (((Real.cos ((0.920066177173675842) + (φ0))) * (Real.cos ((0.920066177173675842) + (φ0)))) * (Real.cos ((0.920066177173675842) + (φ0))))) (-0.033490981459381) (142e-14) :=
    near_mul (near_lit (4)) h32 (by norm_num [abs_of_nonneg, abs_of_nonpos])
  have h34 : near ((3) * (Real.cos ((0.920066177173675842) + (φ0)))) (-0.609177539657898) (855e-14) :=
    near_mul (near_lit (3)) h26 (by norm_num [abs_of_nonneg, abs_of_nonpos])
  have h35 : near (((4) * (((Real.cos ((0.920066177173675842) + (φ0))) * (Real.cos ((0.920066177173675842) + (φ0)))) * (Real.cos ((0.920066177173675842) + (φ0))))) - ((3) * (Real.cos ((0.920066177173675842) + (φ0))))) (0.575686558198517) (997e-14) :=
    near_sub h33 h34 (by norm_num [abs_of_nonneg, abs_of_nonpos])
  have h36 : Real.cos (3 * ((0.920066177173675842) + (φ0))) =
      4 * (Real.cos ((0.920066177173675842) + (φ0)) * Real.cos ((0.920066177173675842) + (φ0)) * Real.cos ((0.920066177173675842) + (φ0))) - 3 * Real.cos ((0.920066177173675842) + (φ0)) := by
    rw [Real.cos_three_mul]; ring
  have h37 : near (Real.cos (3 * ((0.920066177173675842) + (φ0)))) (0.575686558198517) (997e-14) := by
    rw [h36]
    exact h35
  have h38 : near ((1) + (n)) (1.00167322032899) (249e-17) :=
    near_add (near_lit (1)) h9 (by norm_num [abs_of_nonneg, abs_of_nonpos])
  have h39 : near ((5 / 4) * (n2)) (349958283667136e-20) (557e-23) :=
    near_mul (near_lit (5 / 4)) h10 (by norm_num [abs_of_nonneg, abs_of_nonpos])
  have h40 : near (((1) + (n)) + ((5 / 4) * (n2))) (1.00167671991183) (582e-17) :=
    near_add h38 h39 (by norm_num [abs_of_nonneg, abs_of_nonpos])
  have h41 : near ((5 / 4) * (n3)) (585557314529431e-23) (137e-25) :=
    near_mul (near_lit (5 / 4)) h11 (by norm_num [abs_of_nonneg, abs_of_nonpos])
  have h42 : near ((((1) + (n)) + ((5 / 4) * (n2))) + ((5 / 4) * (n3))) (1.0016767257674) (897e-17) :=
    near_add h40 h41 (by norm_num [abs_of_nonneg, abs_of_nonpos])
  have h43 : near Ma (0.0649635874840201) (139e-17) :=
    near_mul h42 h12 (by norm_num [abs_of_nonneg, abs_of_nonpos])
  have h44 : near ((3) * (n)) (0.00501966098696254) (534e-20) :=
    near_mul (near_lit (3)) h9 (by norm_num [abs_of_nonneg, abs_of_nonpos])
  have h45 : near ((3) * (n)) (0.00501966098696254) (534e-20) :=
    near_mul (near_lit (3)) h9 (by norm_num [abs_of_nonneg, abs_of_nonpos])
  have h46 : near (((3) * (n)) * (n)) (839899880801126e-20) (141e-22) :=
    near_mul h45 h9 (by norm_num [abs_of_nonneg, abs_of_nonpos])
  have h47 : near (((3) * (n)) + (((3) * (n)) * (n))) (0.00502805998577055) (662e-20) :=
    near_add h44 h46 (by norm_num [abs_of_nonneg, abs_of_nonpos])
  have h48 : near ((21 / 8) * (n3)) (122967036051181e-22) (672e-25) :=
    near_mul (near_lit (21 / 8)) h11 (by norm_num [abs_of_nonneg, abs_of_nonpos])
  have h49 : near ((((3) * (n)) + (((3) * (n)) * (n))) + ((21 / 8) * (n3))) (0.00502807228247416) (116e-19) :=
    near_add h47 h48 (by norm_num [abs_of_nonneg, abs_of_nonpos])
  have h50 : near (((((3) * (n)) + (((3) * (n)) * (n))) + ((21 / 8) * (n3))) * (Real.sin ((0.920066177173675842) - (φ0)))) (0.000325866289368558) (508e-17) :=
    near_mul h49 h14 (by norm_num [abs_of_nonneg, abs_of_nonpos])
  have h51 : near Mb (-661701414716623e-19) (197e-17) :=
    near_mul h50 h26 (by norm_num [abs_of_nonneg, abs_of_nonpos])
  have h52 : near ((15 / 8) * (n2)) (524937425500704e-20) (835e-23) :=
    near_mul (near_lit (15 / 8)) h10 (by norm_num [abs_of_nonneg, abs_of_nonpos])
  have h53 : near ((15 / 8) * (n3)) (878335971794147e-23) (18e-24) :=
    near_mul (near_lit (15 / 8)) h11 (by norm_num [abs_of_nonneg, abs_of_nonpos])
  have h54 : near (((15 / 8) * (n2)) + ((15 / 8) * (n3))) (525815761472498e-20) (984e-23) :=
    near_add h52 h53 (by norm_num [abs_of_nonneg, abs_of_nonpos])
  have h55 : near ((((15 / 8) * (n2)) + ((15 / 8) * (n3))) * (Real.sin ((2) * ((0.920066177173675842) - (φ0))))) (680123096844013e-21) (532e-20) :=
    near_mul h54 h16 (by norm_num [abs_of_nonneg, abs_of_nonpos])
  have h56 : near Mc (-62403602400325e-20) (647e-20) :=
    near_mul h55 h30 (by norm_num [abs_of_nonneg, abs_of_nonpos])
  have h57 : near ((35 / 24) * (n3)) (683150200284336e-23) (177e-25) :=
    near_mul (near_lit (35 / 24)) h11 (by norm_num [abs_of_nonneg, abs_of_nonpos])
  have h58 : near (((35 / 24) * (n3)) * (Real.sin ((3) * ((0.920066177173675842) - (φ0))))) (132079782094207e-23) (691e-23) :=
    near_mul h57 h18 (by norm_num [abs_of_nonneg, abs_of_nonpos])
  have h59 : near Md (760365551614241e-24) (172e-22) :=
    near_mul h58 h37 (by norm_num [abs_of_nonneg, abs_of_nonpos])
  have h60 : near ((Ma) - (Mb)) (0.0650297576254918) (34e-16) :=
    near_sub h43 h51 (by norm_num [abs_of_nonneg, abs_of_nonpos])
  have h61 : near (((Ma) - (Mb)) + (Mc)) (0.0650291335894678) (341e-17) :=
    near_add h60 h56 (by norm_num [abs_of_nonneg, abs_of_nonpos])
  have h62 : near ((((Ma) - (Mb)) + (Mc)) - (Md)) (0.0650291328291022) (346e-17) :=
    near_sub h61 h59 (by norm_num [abs_of_nonneg, abs_of_nonpos])
  have h63 : near ((b) * (F0)) (6353722.48948831) (118e-11) :=
    near_mul h2 h3 (by norm_num [abs_of_nonneg, abs_of_nonpos])
  have h64 : near (((b) * (F0)) * ((((Ma) - (Mb)) + (Mc)) - (Md))) (413177.063728189) (223e-10) :=
    near_mul h63 h62 (by norm_num [abs_of_nonneg, abs_of_nonpos])
  exact h64

/-- The meridional arc grows at least linearly (slope 6.3e6) in the latitude:
mean-value bound specialised to a concrete slope constant. -/
theorem marc_gap {x y : ℝ} (h : x ≤ y) : 6300000 * (y - x) ≤ marc y - marc x := by
  have hk := marc_increment x y
  have haf : nationalGrid.ellipsoid.a * nationalGrid.scaleFactor =
      6377563.396 * 0.9996012717 := rfl
  rw [haf, abs_of_nonneg (by linarith : (0 : ℝ) ≤ y - x), abs_le] at hk
  have h1 := hk.1
  nlinarith [h1, h]

/-- Bracketing the loop-exit latitude of `OsGridRef.toLatLon` for
northing 313177: the do-while loop stops at a `φ` within `1e-8` of the
true meridional-arc root. -/
theorem c1_phi1_bracket :
    near (osLoop 313177 (osStop 313177)).1 0.920066167173675842 (1e-8) := by
  have ht := loop_reaches_tolerance 313177 (by norm_num) (by norm_num)
  have hstop : 1 ≤ osStop 313177 ∧
      |(313177 : ℝ) - -nationalGrid.falseOriginN -
        (osLoop 313177 (osStop 313177)).2| < 0.00001 := by
    rw [osStop, dif_pos ht]
    exact Nat.find_spec ht
  have hsnd := osLoop_snd 313177 (osStop 313177)
  have hN0 : (313177 : ℝ) - -nationalGrid.falseOriginN = 413177 := by
    norm_num [nationalGrid.falseOriginN]
  rw [hN0, hsnd] at hstop
  have habs := abs_lt.1 hstop.2
  set φ1 := (osLoop 313177 (osStop 313177)).1 with hφ1
  have hub1 : marc 0.920066157173675842 ≤ 413176.94 := by
    have := near_ub marc_at_x1
    linarith
  have hlb2 : (413177.06 : ℝ) ≤ marc 0.920066177173675842 := by
    have := near_lb marc_at_x2
    linarith
  have h1 : (0.920066157173675842 : ℝ) ≤ φ1 := by
    by_contra hcon
    push_neg at hcon
    have hg := marc_gap (le_of_lt hcon)
    have hnn : (0 : ℝ) ≤ 6300000 * (0.920066157173675842 - φ1) := by linarith
    linarith
  have h2 : φ1 ≤ (0.920066177173675842 : ℝ) := by
    by_contra hcon
    push_neg at hcon
    have hg := marc_gap (le_of_lt hcon)
    have hnn : (0 : ℝ) ≤ 6300000 * (φ1 - 0.920066177173675842) := by linarith
    linarith
  exact near_of_mem h1 h2 (by norm_num) (by norm_num)

/-- The Redfearn series block of `OsGridRef.toLatLon` (terms VII–XIIA),
factored out of that definition (to which it is definitionally equal) for the
fixed-point analysis: loop-exit latitude and raw easting to the OSGB36
latitude/longitude in radians. -/
noncomputable def osProject (φ1 E : ℝ) : ℝ × ℝ :=
  let a := nationalGrid.ellipsoid.a
  let b := nationalGrid.ellipsoid.b
  let lam0 := toRadians nationalGrid.trueOriginLon
  let E0 := -nationalGrid.falseOriginE
  let F0 := nationalGrid.scaleFactor
  let e2 := 1 - b * b / (a * a)
  let cosφ := Real.cos φ1
  let sinφ := Real.sin φ1
  let ν := a * F0 / Real.sqrt (1 - e2 * sinφ * sinφ)
  let ρ := a * F0 * (1 - e2) / (1 - e2 * sinφ * sinφ) ^ (1.5 : ℝ)
  let η2 := ν / ρ - 1
  let tanφ := Real.tan φ1
  let tan2φ := tanφ * tanφ
  let tan4φ := tan2φ * tan2φ
  let tan6φ := tan4φ * tan2φ
  let secφ := 1 / cosφ
  let ν3 := ν * ν * ν
  let ν5 := ν3 * ν * ν
  let ν7 := ν5 * ν * ν
  let vii := tanφ / (2 * ρ * ν)
  let viii := tanφ / (24 * ρ * ν3) * (5 + 3 * tan2φ + η2 - 9 * tan2φ * η2)
  let ix := tanφ / (720 * ρ * ν5) * (61 + 90 * tan2φ + 45 * tan4φ)
  let xx := secφ / ν
  let xi := secφ / (6 * ν3) * (ν / ρ + 2 * tan2φ)
  let xii := secφ / (120 * ν5) * (5 + 28 * tan2φ + 24 * tan4φ)
  let xiia := secφ / (5040 * ν7) * (61 + 662 * tan2φ + 1320 * tan4φ + 720 * tan6φ)
  let dE := E - E0
  let dE2 := dE * dE
  let dE3 := dE2 * dE
  let dE4 := dE2 * dE2
  let dE5 := dE3 * dE2
  let dE6 := dE4 * dE2
  let dE7 := dE5 * dE2
  let φ2 := φ1 - vii * dE2 + viii * dE4 - ix * dE6
  let lam := lam0 + xx * dE - xi * dE3 + xii * dE5 - xiia * dE7
  (φ2, lam)

/-- Interval evaluation of the Redfearn series block at the bracketed
loop-exit latitude, easting 651409. -/
theorem c1_project {φ1 : ℝ} (hφ : near φ1 0.920066167173675842 (1e-8)) :
    near (osProject φ1 651409).1 (0.919047942895409) (103e-10) ∧
      near (osProject φ1 651409).2 (0.0299831517472314) (116e-11) := by
  delta osProject
  lift_lets
  extract_lets a b lam0 E0 F0 e2 cosφ sinφ ν ρ η2 tanφ tan2φ tan4φ tan6φ secφ ν3 ν5 ν7 vii viii ix xx xi xii xiia dE dE2 dE3 dE4 dE5 dE6 dE7 φ2 lam
  have h1 : near a (6377563.396) 0 := near_of_eq rfl
  have h2 : near b (6356256.909) 0 := near_of_eq rfl
  have h3 : near F0 (0.9996012717) 0 := near_of_eq rfl
  have h4 : near nationalGrid.trueOriginLon (-2) 0 := near_of_eq rfl
  have h5 : near ((nationalGrid.trueOriginLon) * (Real.pi)) (-6.28318530717959) (353e-17) :=
    near_mul h4 near_pi (by norm_num [abs_of_nonneg, abs_of_nonpos])
  have h6 : near lam0 (-0.0349065850398866111111) (199e-19) :=
    near_div h5 (near_lit (180)) (by norm_num) (by norm_num [abs_of_nonneg, abs_of_nonpos])
  have h7 : near E0 (400000) 0 :=
    near_of_eq (show -nationalGrid.falseOriginE = (400000 : ℝ) by norm_num [nationalGrid.falseOriginE])
  have h8 : near ((b) * (b)) (40402001893210.2) (0.0343) :=
    near_mul h2 h2 (by norm_num [abs_of_nonneg, abs_of_nonpos])
  have h9 : near ((a) * (a)) (40673314869999.1) (0.0472) :=
    near_mul h1 h1 (by norm_num [abs_of_nonneg, abs_of_nonpos])
  have h10 : near (((b) * (b)) / ((a) * (a))) (0.99332945992584877) (202e-17) :=
    near_div h8 h9 (by norm_num) (by norm_num [abs_of_nonneg, abs_of_nonpos])
  have h11 : near e2 (0.00667054007415123) (202e-17) :=
    near_sub (near_lit (1)) h10 (by norm_num [abs_of_nonneg, abs_of_nonpos])
  have h12 : near cosφ (0.60576751260675) (101e-10) :=
    near_cos hφ (by norm_num [abs_of_nonneg, abs_of_nonpos]) (by norm_num [abs_of_nonneg, abs_of_nonpos])
  have h13 : near sinφ (0.795641703702467) (101e-10) :=
    near_sin hφ (by norm_num [abs_of_nonneg, abs_of_nonpos]) (by norm_num [abs_of_nonneg, abs_of_nonpos])
  have h14 : near ((e2) * (sinφ)) (0.00530735986921327) (674e-13) :=
    near_mul h11 h13 (by norm_num [abs_of_nonneg, abs_of_nonpos])
  have h15 : near (((e2) * (sinφ)) * (sinφ)) (0.00422275684850295) (108e-12) :=
    near_mul h14 h13 (by norm_num [abs_of_nonneg, abs_of_nonpos])
  have h16 : near ((1) - (((e2) * (sinφ)) * (sinφ))) (0.995777243151497) (109e-12) :=
    near_sub (near_lit (1)) h15 (by norm_num [abs_of_nonneg, abs_of_nonpos])
  have h17 : near (Real.sqrt ((1) - (((e2) * (sinφ)) * (sinφ)))) (0.997886387897689) (601e-13) :=
    near_sqrt h16 (by norm_num) (by norm_num) (by norm_num) (by norm_num)
  have h18 : near ((a) * (F0)) (6375020.48098897) (694e-12) :=
    near_mul h1 h3 (by norm_num [abs_of_nonneg, abs_of_nonpos])
  have h19 : near ν (6388523.34123891) (0.000389) :=
    near_div h18 h17 (by norm_num) (by norm_num [abs_of_nonneg, abs_of_nonpos])
  have h20 : near ((a) * (F0)) (6375020.48098897) (694e-12) :=
    near_mul h1 h3 (by norm_num [abs_of_nonneg, abs_of_nonpos])
  have h21 : near ((1) - (e2)) (0.993329459925849) (225e-17) :=
    near_sub (near_lit (1)) h11 (by norm_num [abs_of_nonneg, abs_of_nonpos])
  have h22 : near (((a) * (F0)) * ((1) - (e2))) (6332495.651397) (154e-10) :=
    near_mul h20 h21 (by norm_num [abs_of_nonneg, abs_of_nonpos])
  have h23 : near (((1) - (((e2) * (sinφ)) * (sinφ))) * (Real.sqrt ((1) - (((e2) * (sinφ)) * (sinφ))))) (0.993672556319166) (169e-12) :=
    near_mul h16 h17 (by norm_num [abs_of_nonneg, abs_of_nonpos])
  have h24 : near (((1) - (((e2) * (sinφ)) * (sinφ))) ^ (1.5 : ℝ)) (0.993672556319166) (169e-12) := by
    rw [rpow_three_halves (lt_of_lt_of_le (show (0 : ℝ) < (0.995777243151497) - (109e-12) by norm_num) (near_lb h16))]
    exact h23
  have h25 : near ρ (6372819.30664795) (0.0011) :=
    near_div h22 h24 (by norm_num) (by norm_num [abs_of_nonneg, abs_of_nonpos])
  have h26 : near ((ν) / (ρ)) (1.002464220909979) (237e-12) :=
    near_div h19 h25 (by norm_num) (by norm_num [abs_of_nonneg, abs_of_nonpos])
  have h27 : near η2 (0.002464220909979) (237e-12) :=
    near_sub h26 (near_lit (1)) (by norm_num [abs_of_nonneg, abs_of_nonpos])
  have h28 : near tanφ (1.31344399814154) (39e-9) :=
    near_tan h13 h12 (by norm_num) (by norm_num [abs_of_nonneg, abs_of_nonpos])
  have h29 : near tan2φ (1.72513513625403) (103e-9) :=
    near_mul h28 h28 (by norm_num [abs_of_nonneg, abs_of_nonpos])
  have h30 : near tan4φ (2.97609123833821) (356e-9) :=
    near_mul h29 h29 (by norm_num [abs_of_nonneg, abs_of_nonpos])
  have h31 : near tan6φ (5.13415956395501) (921e-9) :=
    near_mul h30 h29 (by norm_num [abs_of_nonneg, abs_of_nonpos])
  have h32 : near secφ (1.65079833300532) (278e-10) :=
    near_div (near_lit (1)) h12 (by norm_num) (by norm_num [abs_of_nonneg, abs_of_nonpos])
  have h33 : near ((ν) * (ν)) (40813230481554.4) (4980) :=
    near_mul h19 h19 (by norm_num [abs_of_nonneg, abs_of_nonpos])
  have h34 : near ν3 (260736275562774000000) (47700000000) :=
    near_mul h33 h19 (by norm_num [abs_of_nonneg, abs_of_nonpos])
  have h35 : near ((ν3) * (ν)) (1665719782340480000000000000) (407000000000000000) :=
    near_mul h34 h19 (by norm_num [abs_of_nonneg, abs_of_nonpos])
  have h36 : near ν5 (10641489709445600000000000000000000) (3250000000000000000000000) :=
    near_mul h35 h19 (by norm_num [abs_of_nonneg, abs_of_nonpos])
  have h37 : near ((ν5) * (ν)) (67983405394346900000000000000000000000000) (25000000000000000000000000000000) :=
    near_mul h36 h19 (by norm_num [abs_of_nonneg, abs_of_nonpos])
  have h38 : near ν7 (434313572178692000000000000000000000000000000000) (187000000000000000000000000000000000000) :=
    near_mul h37 h19 (by norm_num [abs_of_nonneg, abs_of_nonpos])
  have h39 : near ((2) * (ρ)) (12745638.6132959) (0.0022) :=
    near_mul (near_lit (2)) h25 (by norm_num [abs_of_nonneg, abs_of_nonpos])
  have h40 : near (((2) * (ρ)) * (ν)) (81425809780036.8) (19100) :=
    near_mul h39 h19 (by norm_num [abs_of_nonneg, abs_of_nonpos])
  have h41 : near vii (1613056107995327e-29) (488e-24) :=
    near_div h28 h40 (by norm_num) (by norm_num [abs_of_nonneg, abs_of_nonpos])
  have h42 : near ((24) * (ρ)) (152947663.359551) (0.0265) :=
    near_mul (near_lit (24)) h25 (by norm_num [abs_of_nonneg, abs_of_nonpos])
  have h43 : near (((24) * (ρ)) * (ν3)) (39879004100398300000000000000) (14300000000000000000) :=
    near_mul h42 h34 (by norm_num [abs_of_nonneg, abs_of_nonpos])
  have h44 : near ((tanφ) / (((24) * (ρ)) * (ν3))) (3293572715193311e-44) (1e-36) :=
    near_div h28 h43 (by norm_num) (by norm_num [abs_of_nonneg, abs_of_nonpos])
  have h45 : near ((3) * (tan2φ)) (5.17540540876209) (309e-9) :=
    near_mul (near_lit (3)) h29 (by norm_num [abs_of_nonneg, abs_of_nonpos])
  have h46 : near ((5) + ((3) * (tan2φ))) (10.1754054087621) (31e-8) :=
    near_add (near_lit (5)) h45 (by norm_num [abs_of_nonneg, abs_of_nonpos])
  have h47 : near (((5) + ((3) * (tan2φ))) + (η2)) (10.1778696296721) (311e-9) :=
    near_add h46 h27 (by norm_num [abs_of_nonneg, abs_of_nonpos])
  have h48 : near ((9) * (tan2φ)) (15.5262162262863) (928e-9) :=
    near_mul (near_lit (9)) h29 (by norm_num [abs_of_nonneg, abs_of_nonpos])
  have h49 : near (((9) * (tan2φ)) * (η2)) (0.0382600266776699) (597e-11) :=
    near_mul h48 h27 (by norm_num [abs_of_nonneg, abs_of_nonpos])
  have h50 : near ((((5) + ((3) * (tan2φ))) + (η2)) - (((9) * (tan2φ)) * (η2))) (10.1396096029944) (317e-9) :=
    near_sub h47 h49 (by norm_num [abs_of_nonneg, abs_of_nonpos])
  have h51 : near viii (333955415311344e-42) (206e-37) :=
    near_mul h44 h50 (by norm_num [abs_of_nonneg, abs_of_nonpos])
  have h52 : near ((720) * (ρ)) (4588429900.78652) (0.793) :=
    near_mul (near_lit (720)) h25 (by norm_num [abs_of_nonneg, abs_of_nonpos])
  have h53 : near (((720) * (ρ)) * (ν5)) (48827729571732200000000000000000000000000000) (23400000000000000000000000000000000) :=
    near_mul h52 h36 (by norm_num [abs_of_nonneg, abs_of_nonpos])
  have h54 : near ((tanφ) / (((720) * (ρ)) * (ν5))) (2689955092447983e-59) (82e-53) :=
    near_div h28 h53 (by norm_num) (by norm_num [abs_of_nonneg, abs_of_nonpos])
  have h55 : near ((90) * (tan2φ)) (155.262162262863) (928e-8) :=
    near_mul (near_lit (90)) h29 (by norm_num [abs_of_nonneg, abs_of_nonpos])
  have h56 : near ((61) + ((90) * (tan2φ))) (216.262162262863) (928e-8) :=
    near_add (near_lit (61)) h55 (by norm_num [abs_of_nonneg, abs_of_nonpos])
  have h57 : near ((45) * (tan4φ)) (133.924105725219) (161e-7) :=
    near_mul (near_lit (45)) h30 (by norm_num [abs_of_nonneg, abs_of_nonpos])
  have h58 : near (((61) + ((90) * (tan2φ))) + ((45) * (tan4φ))) (350.186267988082) (254e-7) :=
    near_add h56 h57 (by norm_num [abs_of_nonneg, abs_of_nonpos])
  have h59 : near ix (941985334879895e-56) (971e-51) :=
    near_mul h54 h58 (by norm_num [abs_of_nonneg, abs_of_nonpos])
  have h60 : near xx (2584006107247289e-22) (442e-17) :=
    near_div h32 h19 (by norm_num) (by norm_num [abs_of_nonneg, abs_of_nonpos])
  have h61 : near ((6) * (ν3)) (1564417653376640000000) (287000000000) :=
    near_mul (near_lit (6)) h34 (by norm_num [abs_of_nonneg, abs_of_nonpos])
  have h62 : near ((secφ) / ((6) * (ν3))) (1055215868628327e-36) (182e-31) :=
    near_div h32 h61 (by norm_num) (by norm_num [abs_of_nonneg, abs_of_nonpos])
  have h63 : near ((2) * (tan2φ)) (3.45027027250806) (206e-9) :=
    near_mul (near_lit (2)) h29 (by norm_num [abs_of_nonneg, abs_of_nonpos])
  have h64 : near (((ν) / (ρ)) + ((2) * (tan2φ))) (4.45273449341804) (207e-9) :=
    near_add h26 h63 (by norm_num [abs_of_nonneg, abs_of_nonpos])
  have h65 : near xi (469859609624343e-35) (3e-28) :=
    near_mul h62 h64 (by norm_num [abs_of_nonneg, abs_of_nonpos])
  have h66 : near ((120) * (ν5)) (1276978765133470000000000000000000000) (391000000000000000000000000) :=
    near_mul (near_lit (120)) h36 (by norm_num [abs_of_nonneg, abs_of_nonpos])
  have h67 : near ((secφ) / ((120) * (ν5))) (1292737497348108e-51) (224e-46) :=
    near_div h32 h66 (by norm_num) (by norm_num [abs_of_nonneg, abs_of_nonpos])
  have h68 : near ((28) * (tan2φ)) (48.3037838151128) (289e-8) :=
    near_mul (near_lit (28)) h29 (by norm_num [abs_of_nonneg, abs_of_nonpos])
  have h69 : near ((5) + ((28) * (tan2φ))) (53.3037838151128) (289e-8) :=
    near_add (near_lit (5)) h68 (by norm_num [abs_of_nonneg, abs_of_nonpos])
  have h70 : near ((24) * (tan4φ)) (71.426189720117) (855e-8) :=
    near_mul (near_lit (24)) h30 (by norm_num [abs_of_nonneg, abs_of_nonpos])
  have h71 : near (((5) + ((28) * (tan2φ))) + ((24) * (tan4φ))) (124.72997353523) (115e-7) :=
    near_add h69 h70 (by norm_num [abs_of_nonneg, abs_of_nonpos])
  have h72 : near xii (161243113832229e-48) (177e-43) :=
    near_mul h67 h71 (by norm_num [abs_of_nonneg, abs_of_nonpos])
  have h73 : near ((5040) * (ν7)) (2188940403780610000000000000000000000000000000000000) (943000000000000000000000000000000000000000) :=
    near_mul (near_lit (5040)) h38 (by norm_num [abs_of_nonneg, abs_of_nonpos])
  have h74 : near ((secφ) / ((5040) * (ν7))) (7541540784546521e-67) (132e-61) :=
    near_div h32 h73 (by norm_num) (by norm_num [abs_of_nonneg, abs_of_nonpos])
  have h75 : near ((662) * (tan2φ)) (1142.03946020017) (682e-7) :=
    near_mul (near_lit (662)) h29 (by norm_num [abs_of_nonneg, abs_of_nonpos])
  have h76 : near ((61) + ((662) * (tan2φ))) (1203.03946020017) (682e-7) :=
    near_add (near_lit (61)) h75 (by norm_num [abs_of_nonneg, abs_of_nonpos])
  have h77 : near ((1320) * (tan4φ)) (3928.44043460644) (0.00047) :=
    near_mul (near_lit (1320)) h30 (by norm_num [abs_of_nonneg, abs_of_nonpos])
  have h78 : near (((61) + ((662) * (tan2φ))) + ((1320) * (tan4φ))) (5131.47989480661) (0.000539) :=
    near_add h76 h77 (by norm_num [abs_of_nonneg, abs_of_nonpos])
  have h79 : near ((720) * (tan6φ)) (3696.59488604761) (0.000664) :=
    near_mul (near_lit (720)) h31 (by norm_num [abs_of_nonneg, abs_of_nonpos])
  have h80 : near ((((61) + ((662) * (tan2φ))) + ((1320) * (tan4φ))) + ((720) * (tan6φ))) (8828.07478085422) (0.00121) :=
    near_add h78 h79 (by norm_num [abs_of_nonneg, abs_of_nonpos])
  have h81 : near xiia (665772860088387e-62) (103e-56) :=
    near_mul h74 h80 (by norm_num [abs_of_nonneg, abs_of_nonpos])
  have h82 : near dE (251409) (0) :=
    near_sub (near_lit (651409)) h7 (by norm_num [abs_of_nonneg, abs_of_nonpos])
  have h83 : near dE2 (63206485281) (0) :=
    near_mul h82 h82 (by norm_num [abs_of_nonneg, abs_of_nonpos])
  have h84 : near dE3 (15890679258010900) (29) :=
    near_mul h83 h82 (by norm_num [abs_of_nonneg, abs_of_nonpos])
  have h85 : near dE4 (3995059781577270000000) (352000) :=
    near_mul h83 h83 (by norm_num [abs_of_nonneg, abs_of_nonpos])
  have h86 : near dE5 (1004393984626560000000000000) (3890000000000) :=
    near_mul h84 h83 (by norm_num [abs_of_nonneg, abs_of_nonpos])
  have h87 : near dE6 (252513687280979000000000000000000) (232000000000000000) :=
    near_mul h85 h83 (by norm_num [abs_of_nonneg, abs_of_nonpos])
  have h88 : near dE7 (63484213605623600000000000000000000000) (251000000000000000000000) :=
    near_mul h86 h83 (by norm_num [abs_of_nonneg, abs_of_nonpos])
  have h89 : near ((vii) * (dE2)) (0.00101955607147434) (309e-13) :=
    near_mul h41 h83 (by norm_num [abs_of_nonneg, abs_of_nonpos])
  have h90 : near ((φ1) - ((vii) * (dE2))) (0.919046611102202) (101e-10) :=
    near_sub hφ h89 (by norm_num [abs_of_nonneg, abs_of_nonpos])
  have h91 : near ((viii) * (dE4)) (133417184855028e-20) (823e-16) :=
    near_mul h51 h85 (by norm_num [abs_of_nonneg, abs_of_nonpos])
  have h92 : near (((φ1) - ((vii) * (dE2))) + ((viii) * (dE4))) (0.919047945274051) (102e-10) :=
    near_add h90 h91 (by norm_num [abs_of_nonneg, abs_of_nonpos])
  have h93 : near ((ix) * (dE6)) (23786419027513e-22) (246e-18) :=
    near_mul h59 h87 (by norm_num [abs_of_nonneg, abs_of_nonpos])
  have h94 : near φ2 (0.919047942895409) (103e-10) :=
    near_sub h92 h93 (by norm_num [abs_of_nonneg, abs_of_nonpos])
  have h95 : near ((xx) * (dE)) (0.0649642391416934) (112e-11) :=
    near_mul h60 h82 (by norm_num [abs_of_nonneg, abs_of_nonpos])
  have h96 : near ((lam0) + ((xx) * (dE))) (0.0300576541018068) (113e-11) :=
    near_add h6 h95 (by norm_num [abs_of_nonneg, abs_of_nonpos])
  have h97 : near ((xi) * (dE3)) (746638835283465e-19) (477e-14) :=
    near_mul h65 h84 (by norm_num [abs_of_nonneg, abs_of_nonpos])
  have h98 : near (((lam0) + ((xx) * (dE))) - ((xi) * (dE3))) (0.0299829902182785) (114e-11) :=
    near_sub h96 h97 (by norm_num [abs_of_nonneg, abs_of_nonpos])
  have h99 : near ((xii) * (dE5)) (161951613595546e-21) (178e-16) :=
    near_mul h72 h86 (by norm_num [abs_of_nonneg, abs_of_nonpos])
  have h100 : near ((((lam0) + ((xx) * (dE))) - ((xi) * (dE3))) + ((xii) * (dE5))) (0.0299831521698921) (115e-11) :=
    near_add h98 h99 (by norm_num [abs_of_nonneg, abs_of_nonpos])
  have h101 : near ((xiia) * (dE7)) (422660664626781e-24) (654e-19) :=
    near_mul h81 h88 (by norm_num [abs_of_nonneg, abs_of_nonpos])
  have h102 : near lam (0.0299831517472314) (116e-11) :=
    near_sub h100 h101 (by norm_num [abs_of_nonneg, abs_of_nonpos])
  exact ⟨h94, h102⟩


/-- Interval evaluation of `toCartesian` on the OSGB36 point produced by the
projection stage. -/
theorem c1_cart {φ2v lamv : ℝ} (h2 : near φ2v (0.919047942895409) (103e-10))
    (hl : near lamv (0.0299831517472314) (116e-11)) :
    near ((LatLonD.mkD (toDegrees φ2v) (toDegrees lamv) 0 DatumId.OSGB36).toCartesian).x
      (3874924.07882389) (0.0714) ∧
    near ((LatLonD.mkD (toDegrees φ2v) (toDegrees lamv) 0 DatumId.OSGB36).toCartesian).y
      (116217.264781046) (0.00654) ∧
    near ((LatLonD.mkD (toDegrees φ2v) (toDegrees lamv) 0 DatumId.OSGB36).toCartesian).z
      (5047148.43497225) (0.0664) := by
  have k1 : near ((φ2v) * (180)) (165.428629721174) (186e-8) :=
    near_mul h2 (near_lit (180)) (by norm_num [abs_of_nonneg, abs_of_nonpos])
  have k2 : near (((φ2v) * (180)) / (Real.pi)) (52.65756829808735) (598e-9) :=
    near_div k1 near_pi (by norm_num) (by norm_num [abs_of_nonneg, abs_of_nonpos])
  have k3 : near (toDegrees (φ2v)) (52.65756829808735) (598e-9) := k2
  have k4 : near ((lamv) * (180)) (5.39696731450165) (209e-9) :=
    near_mul hl (near_lit (180)) (by norm_num [abs_of_nonneg, abs_of_nonpos])
  have k5 : near (((lamv) * (180)) / (Real.pi)) (1.717908051616659) (672e-10) :=
    near_div k4 near_pi (by norm_num) (by norm_num [abs_of_nonneg, abs_of_nonpos])
  have k6 : near (toDegrees (lamv)) (1.717908051616659) (672e-10) := k5
  have hw2 : Dms.wrap90 (toDegrees (φ2v)) = toDegrees (φ2v) :=
    wrap90_id (le_trans (show (-90 : ℝ) ≤ (52.65756829808735) - (598e-9) by norm_num)
      (near_lb k3))
      (le_trans (near_ub k3) (show (52.65756829808735) + (598e-9) ≤ (90 : ℝ) by norm_num))
  have hwl : Dms.wrap180 (toDegrees (lamv)) = toDegrees (lamv) :=
    wrap180_id (le_trans (show (-180 : ℝ) ≤ (1.717908051616659) - (672e-10) by norm_num)
      (near_lb k6))
      (le_trans (near_ub k6) (show (1.717908051616659) + (672e-10) ≤ (180 : ℝ) by norm_num))
  delta LatLonD.toCartesian
  lift_lets
  extract_lets ellipsoid φ lam h a f sinφ cosφ sinl cosl eSq ν
  have hφeq : φ = φ2v := by
    show toRadians (LatLonD.mkD (toDegrees φ2v) (toDegrees lamv) 0 DatumId.OSGB36)._lat = φ2v
    rw [show (LatLonD.mkD (toDegrees φ2v) (toDegrees lamv) 0 DatumId.OSGB36)._lat =
        Dms.wrap90 (toDegrees φ2v) from rfl]
    rw [hw2, toRadians_toDegrees]
  have hlameq : lam = lamv := by
    show toRadians (LatLonD.mkD (toDegrees φ2v) (toDegrees lamv) 0 DatumId.OSGB36)._lon = lamv
    rw [show (LatLonD.mkD (toDegrees φ2v) (toDegrees lamv) 0 DatumId.OSGB36)._lon =
        Dms.wrap180 (toDegrees lamv) from rfl]
    rw [hwl, toRadians_toDegrees]
  have hφn : near φ (0.919047942895409) (103e-10) := by rw [hφeq]; exact h2
  have hlamn : near lam (0.0299831517472314) (116e-11) := by rw [hlameq]; exact hl
  have hhn : near h 0 0 := near_of_eq rfl
  have k7 : near a (6377563.396) 0 := near_of_eq rfl
  have k8 : near f (1 / 299.3249646) 0 := near_of_eq rfl
  have k9 : near sinφ (0.795024484167786) (104e-10) :=
    near_sin hφn (by norm_num [abs_of_nonneg, abs_of_nonpos]) (by norm_num [abs_of_nonneg, abs_of_nonpos])
  have k10 : near cosφ (0.606577340142272) (104e-10) :=
    near_cos hφn (by norm_num [abs_of_nonneg, abs_of_nonpos]) (by norm_num [abs_of_nonneg, abs_of_nonpos])
  have k11 : near sinl (0.0299786595266157) (117e-11) :=
    near_sin hlamn (by norm_num [abs_of_nonneg, abs_of_nonpos]) (by norm_num [abs_of_nonneg, abs_of_nonpos])
  have k12 : near cosl (0.999550538978889) (117e-11) :=
    near_cos hlamn (by norm_num [abs_of_nonneg, abs_of_nonpos]) (by norm_num [abs_of_nonneg, abs_of_nonpos])
  have k13 : near ((2) * (f)) (0.00668170128299415) (491e-20) :=
    near_mul (near_lit (2)) k8 (by norm_num [abs_of_nonneg, abs_of_nonpos])
  have k14 : near ((f) * (f)) (111612830087914e-19) (34e-21) :=
    near_mul k8 k8 (by norm_num [abs_of_nonneg, abs_of_nonpos])
  have k15 : near eSq (0.00667053999998536) (635e-20) :=
    near_sub k13 k14 (by norm_num [abs_of_nonneg, abs_of_nonpos])
  have k16 : near ((eSq) * (sinφ)) (0.00530324262260894) (694e-13) :=
    near_mul k15 k9 (by norm_num [abs_of_nonneg, abs_of_nonpos])
  have k17 : near (((eSq) * (sinφ)) * (sinφ)) (0.00421620773045629) (111e-12) :=
    near_mul k16 k9 (by norm_num [abs_of_nonneg, abs_of_nonpos])
  have k18 : near ((1) - (((eSq) * (sinφ)) * (sinφ))) (0.995783792269544) (112e-12) :=
    near_sub (near_lit (1)) k17 (by norm_num [abs_of_nonneg, abs_of_nonpos])
  have k19 : near (Real.sqrt ((1) - (((eSq) * (sinφ)) * (sinφ)))) (0.997889669387124) (618e-13) :=
    near_sqrt k18 (by norm_num) (by norm_num) (by norm_num) (by norm_num)
  have k20 : near ν (6391050.62578403) (0.0004) :=
    near_div k7 k19 (by norm_num) (by norm_num [abs_of_nonneg, abs_of_nonpos])
  have k21 : near ((ν) + (h)) (6391050.62578403) (0.0004) :=
    near_add k20 hhn (by norm_num [abs_of_nonneg, abs_of_nonpos])
  have k22 : near (((ν) + (h)) * (cosφ)) (3876666.48930268) (0.0668) :=
    near_mul k21 k10 (by norm_num [abs_of_nonneg, abs_of_nonpos])
  have k23 : near ((((ν) + (h)) * (cosφ)) * (cosl)) (3874924.07882389) (0.0714) :=
    near_mul k22 k12 (by norm_num [abs_of_nonneg, abs_of_nonpos])
  have k24 : near (((ν) + (h)) * (cosφ)) (3876666.48930268) (0.0668) :=
    near_mul k21 k10 (by norm_num [abs_of_nonneg, abs_of_nonpos])
  have k25 : near ((((ν) + (h)) * (cosφ)) * (sinl)) (116217.264781046) (0.00654) :=
    near_mul k24 k11 (by norm_num [abs_of_nonneg, abs_of_nonpos])
  have k26 : near ((1) - (eSq)) (0.993329460000015) (367e-18) :=
    near_sub (near_lit (1)) k15 (by norm_num [abs_of_nonneg, abs_of_nonpos])
  have k27 : near ((ν) * ((1) - (eSq))) (6348418.86694281) (0.000398) :=
    near_mul k20 k26 (by norm_num [abs_of_nonneg, abs_of_nonpos])
  have k28 : near (((ν) * ((1) - (eSq))) + (h)) (6348418.86694281) (0.000398) :=
    near_add k27 hhn (by norm_num [abs_of_nonneg, abs_of_nonpos])
  have k29 : near ((((ν) * ((1) - (eSq))) + (h)) * (sinφ)) (5047148.43497225) (0.0664) :=
    near_mul k28 k9 (by norm_num [abs_of_nonneg, abs_of_nonpos])
  exact ⟨k23, k25, k29⟩

/-- Interval evaluation of the inverse-OSGB36 Helmert transform. -/
theorem c1_transform {x y z : ℝ} (hx : near x (3874924.07882389) (0.0714))
    (hy : near y (116217.264781046) (0.00654)) (hz : near z (5047148.43497225) (0.0664)) :
    near (((CartesianD.mk x y z (some DatumId.OSGB36)).applyTransform
      (((Datum.transform DatumId.OSGB36).map Neg.neg))).x) (3875296.70139273) (0.0716) ∧
    near (((CartesianD.mk x y z (some DatumId.OSGB36)).applyTransform
      (((Datum.transform DatumId.OSGB36).map Neg.neg))).y) (116101.871102326) (0.00656) ∧
    near (((CartesianD.mk x y z (some DatumId.OSGB36)).applyTransform
      (((Datum.transform DatumId.OSGB36).map Neg.neg))).z) (5047582.52637535) (0.0665) := by
  delta CartesianD.applyTransform
  lift_lets
  extract_lets x1 y1 z1 tx ty tz s rx ry rz
  have hx1 : near x1 (3874924.07882389) (0.0714) := hx
  have hy1 : near y1 (116217.264781046) (0.00654) := hy
  have hz1 : near z1 (5047148.43497225) (0.0664) := hz
  have k1 : near tx (-(-446.448)) 0 := near_of_eq rfl
  have k2 : near ty (-(125.157)) 0 := near_of_eq rfl
  have k3 : near tz (-(-542.06)) 0 := near_of_eq rfl
  have k4 : near (((Datum.transform DatumId.OSGB36).map Neg.neg).getD 3 0) (-(20.4894)) 0 := near_of_eq rfl
  have k5 : near (((Datum.transform DatumId.OSGB36).map Neg.neg).getD 4 0) (-(-0.1502)) 0 := near_of_eq rfl
  have k6 : near (((Datum.transform DatumId.OSGB36).map Neg.neg).getD 5 0) (-(-0.247)) 0 := near_of_eq rfl
  have k7 : near (((Datum.transform DatumId.OSGB36).map Neg.neg).getD 6 0) (-(-0.8421)) 0 := near_of_eq rfl
  have k8 : near ((((Datum.transform DatumId.OSGB36).map Neg.neg).getD 3 0) / (1e6)) (-204894e-10) (0) :=
    near_div k4 (near_lit (1e6)) (by norm_num) (by norm_num [abs_of_nonneg, abs_of_nonpos])
  have k9 : near s (0.9999795106) (0) :=
    near_add k8 (near_lit (1)) (by norm_num [abs_of_nonneg, abs_of_nonpos])
  have k10 : near ((((Datum.transform DatumId.OSGB36).map Neg.neg).getD 4 0) / (3600)) (4172222222222222e-20) (225e-23) :=
    near_div k5 (near_lit (3600)) (by norm_num) (by norm_num [abs_of_nonneg, abs_of_nonpos])
  have k11 : near (((((Datum.transform DatumId.OSGB36).map Neg.neg).getD 4 0) / (3600)) * (Real.pi)) (0.000131074226824774) (152e-21) :=
    near_mul k10 near_pi (by norm_num [abs_of_nonneg, abs_of_nonpos])
  have k12 : near rx (7281901490265222e-22) (876e-24) :=
    near_div k11 (near_lit (180)) (by norm_num) (by norm_num [abs_of_nonneg, abs_of_nonpos])
  have k13 : near ((((Datum.transform DatumId.OSGB36).map Neg.neg).getD 5 0) / (3600)) (6861111111111111e-20) (113e-23) :=
    near_div k6 (near_lit (3600)) (by norm_num) (by norm_num [abs_of_nonneg, abs_of_nonpos])
  have k14 : near (((((Datum.transform DatumId.OSGB36).map Neg.neg).getD 5 0) / (3600)) * (Real.pi)) (0.0002155481626213) (305e-21) :=
    near_mul k13 near_pi (by norm_num [abs_of_nonneg, abs_of_nonpos])
  have k15 : near ry (1197489792340556e-21) (217e-23) :=
    near_div k14 (near_lit (180)) (by norm_num) (by norm_num [abs_of_nonneg, abs_of_nonpos])
  have k16 : near ((((Datum.transform DatumId.OSGB36).map Neg.neg).getD 6 0) / (3600)) (0.0002339166666666667) (337e-22) :=
    near_div k7 (near_lit (3600)) (by norm_num) (by norm_num [abs_of_nonneg, abs_of_nonpos])
  have k17 : near (((((Datum.transform DatumId.OSGB36).map Neg.neg).getD 6 0) / (3600)) * (Real.pi)) (0.000734870881552213) (533e-21) :=
    near_mul k16 near_pi (by norm_num [abs_of_nonneg, abs_of_nonpos])
  have k18 : near rz (4082616008623406e-21) (344e-23) :=
    near_div k17 (near_lit (180)) (by norm_num) (by norm_num [abs_of_nonneg, abs_of_nonpos])
  have k19 : near ((x1) * (s)) (3874844.68395447) (0.0714) :=
    near_mul hx k9 (by norm_num [abs_of_nonneg, abs_of_nonpos])
  have k20 : near ((tx) + ((x1) * (s))) (3875291.13195447) (0.0714) :=
    near_add k1 k19 (by norm_num [abs_of_nonneg, abs_of_nonpos])
  have k21 : near ((y1) * (rz)) (0.474470465673524) (268e-10) :=
    near_mul hy k18 (by norm_num [abs_of_nonneg, abs_of_nonpos])
  have k22 : near (((tx) + ((x1) * (s))) - ((y1) * (rz))) (3875290.657484) (0.0715) :=
    near_sub k20 k21 (by norm_num [abs_of_nonneg, abs_of_nonpos])
  have k23 : near ((z1) * (ry)) (6.04390873130688) (796e-10) :=
    near_mul hz k15 (by norm_num [abs_of_nonneg, abs_of_nonpos])
  have k24 : near ((((tx) + ((x1) * (s))) - ((y1) * (rz))) + ((z1) * (ry))) (3875296.70139273) (0.0716) :=
    near_add k22 k23 (by norm_num [abs_of_nonneg, abs_of_nonpos])
  have k25 : near ((x1) * (rz)) (15.8198270764067) (292e-9) :=
    near_mul hx k18 (by norm_num [abs_of_nonneg, abs_of_nonpos])
  have k26 : near ((ty) + ((x1) * (rz))) (-109.337172923593) (293e-9) :=
    near_add k2 k25 (by norm_num [abs_of_nonneg, abs_of_nonpos])
  have k27 : near ((y1) * (s)) (116214.883559021) (0.00654) :=
    near_mul hy k9 (by norm_num [abs_of_nonneg, abs_of_nonpos])
  have k28 : near (((ty) + ((x1) * (rz))) + ((y1) * (s))) (116105.546386097) (0.00655) :=
    near_add k26 k27 (by norm_num [abs_of_nonneg, abs_of_nonpos])
  have k29 : near ((z1) * (rx)) (3.67528377102142) (484e-10) :=
    near_mul hz k12 (by norm_num [abs_of_nonneg, abs_of_nonpos])
  have k30 : near ((((ty) + ((x1) * (rz))) + ((y1) * (s))) - ((z1) * (rx))) (116101.871102326) (0.00656) :=
    near_sub k28 k29 (by norm_num [abs_of_nonneg, abs_of_nonpos])
  have k31 : near ((x1) * (ry)) (4.64018203048624) (856e-10) :=
    near_mul hx k15 (by norm_num [abs_of_nonneg, abs_of_nonpos])
  have k32 : near ((tz) - ((x1) * (ry))) (537.419817969514) (857e-10) :=
    near_sub k3 k31 (by norm_num [abs_of_nonneg, abs_of_nonpos])
  have k33 : near ((y1) * (rx)) (0.0846282673603647) (477e-11) :=
    near_mul hy k12 (by norm_num [abs_of_nonneg, abs_of_nonpos])
  have k34 : near (((tz) - ((x1) * (ry))) + ((y1) * (rx))) (537.504446236874) (905e-10) :=
    near_add k32 k33 (by norm_num [abs_of_nonneg, abs_of_nonpos])
  have k35 : near ((z1) * (s)) (5047045.02192911) (0.0664) :=
    near_mul hz k9 (by norm_num [abs_of_nonneg, abs_of_nonpos])
  have k36 : near ((((tz) - ((x1) * (ry))) + ((y1) * (rx))) + ((z1) * (s))) (5047582.52637535) (0.0665) :=
    near_add k34 k35 (by norm_num [abs_of_nonneg, abs_of_nonpos])
  exact ⟨k24, k30, k36⟩

/-- Interval evaluation of the Bowring inverse transform on WGS84 plus the
final wrap normalisation. -/
theorem c1_bowring {x y z : ℝ} (hx : near x (3875296.70139273) (0.0716))
    (hy : near y (116101.871102326) (0.00656)) (hz : near z (5047582.52637535) (0.0665)) :
    near (((CartesianD.mk x y z (some DatumId.WGS84)).toLatLon')._lat)
      (52.65797659438112) (119e-8) ∧
    near (((CartesianD.mk x y z (some DatumId.WGS84)).toLatLon')._lon)
      (1.716038418346907) (159e-9) := by
  delta CartesianD.toLatLon' Cartesian.toLatLon LatLonE.mk' LatLonD.mkD
  lift_lets
  extract_lets datum a b f e2 ε2 p R tanβ sinβ cosβ φ lam sinφ cosφ ν h e
  have hx1 : near ((CartesianD.mk x y z (some DatumId.WGS84)).x) (3875296.70139273) (0.0716) := hx
  have hy1 : near ((CartesianD.mk x y z (some DatumId.WGS84)).y) (116101.871102326) (0.00656) := hy
  have hz1 : near ((CartesianD.mk x y z (some DatumId.WGS84)).z) (5047582.52637535) (0.0665) := hz
  have k1 : near a (6378137) 0 := near_of_eq rfl
  have k2 : near b (6356752.314245) 0 := near_of_eq rfl
  have k3 : near f (1 / 298.257223563) 0 := near_of_eq rfl
  have k4 : near ((2) * (f)) (0.00670562132949496) (144e-20) :=
    near_mul (near_lit (2)) k3 (by norm_num [abs_of_nonneg, abs_of_nonpos])
  have k5 : near ((f) * (f)) (112413393536444e-19) (436e-22) :=
    near_mul k3 k3 (by norm_num [abs_of_nonneg, abs_of_nonpos])
  have k6 : near e2 (0.00669437999014132) (589e-20) :=
    near_sub k4 k5 (by norm_num [abs_of_nonneg, abs_of_nonpos])
  have k7 : near ((1) - (e2)) (0.993305620009859) (326e-18) :=
    near_sub (near_lit (1)) k6 (by norm_num [abs_of_nonneg, abs_of_nonpos])
  have k8 : near ε2 (0.006739496742276436) (84e-19) :=
    near_div k6 k7 (by norm_num) (by norm_num [abs_of_nonneg, abs_of_nonpos])
  have k9 : near (((CartesianD.mk x y z (some DatumId.WGS84)).x) * ((CartesianD.mk x y z (some DatumId.WGS84)).x)) (15017924523825.4) (555000) :=
    near_mul hx1 hx1 (by norm_num [abs_of_nonneg, abs_of_nonpos])
  have k10 : near (((CartesianD.mk x y z (some DatumId.WGS84)).y) * ((CartesianD.mk x y z (some DatumId.WGS84)).y)) (13479644473.4611) (1530) :=
    near_mul hy1 hy1 (by norm_num [abs_of_nonneg, abs_of_nonpos])
  have k11 : near ((((CartesianD.mk x y z (some DatumId.WGS84)).x) * ((CartesianD.mk x y z (some DatumId.WGS84)).x)) + (((CartesianD.mk x y z (some DatumId.WGS84)).y) * ((CartesianD.mk x y z (some DatumId.WGS84)).y))) (15031404168298.9) (557000) :=
    near_add k9 k10 (by norm_num [abs_of_nonneg, abs_of_nonpos])
  have k12 : near p (3877035.48710853) (0.0791) :=
    near_sqrt k11 (by norm_num) (by norm_num) (by norm_num) (by norm_num)
  have k13 : near ((p) * (p)) (15031404168298.9) (614000) :=
    near_mul k12 k12 (by norm_num [abs_of_nonneg, abs_of_nonpos])
  have k14 : near (((CartesianD.mk x y z (some DatumId.WGS84)).z) * ((CartesianD.mk x y z (some DatumId.WGS84)).z)) (25478089360569.8) (672000) :=
    near_mul hz1 hz1 (by norm_num [abs_of_nonneg, abs_of_nonpos])
  have k15 : near (((p) * (p)) + (((CartesianD.mk x y z (some DatumId.WGS84)).z) * ((CartesianD.mk x y z (some DatumId.WGS84)).z))) (40509493528868.7) (1290000) :=
    near_add k13 k14 (by norm_num [abs_of_nonneg, abs_of_nonpos])
  have k16 : near R (6364706.86904501) (0.112) :=
    near_sqrt k15 (by norm_num) (by norm_num) (by norm_num) (by norm_num)
  have k17 : near ((b) * ((CartesianD.mk x y z (some DatumId.WGS84)).z)) (32086231905879.1) (423000) :=
    near_mul k2 hz1 (by norm_num [abs_of_nonneg, abs_of_nonpos])
  have k18 : near ((a) * (p)) (24728263490639.9) (505000) :=
    near_mul k1 k12 (by norm_num [abs_of_nonneg, abs_of_nonpos])
  have k19 : near (((b) * ((CartesianD.mk x y z (some DatumId.WGS84)).z)) / ((a) * (p))) (1.297552976901282) (441e-10) :=
    near_div k17 k18 (by norm_num) (by norm_num [abs_of_nonneg, abs_of_nonpos])
  have k20 : near ((ε2) * (b)) (42841.3115133124) (806e-13) :=
    near_mul k8 k2 (by norm_num [abs_of_nonneg, abs_of_nonpos])
  have k21 : near (((ε2) * (b)) / (R)) (0.00673107377838133) (12e-11) :=
    near_div k20 k16 (by norm_num) (by norm_num [abs_of_nonneg, abs_of_nonpos])
  have k22 : near ((1) + (((ε2) * (b)) / (R))) (1.00673107377838) (121e-12) :=
    near_add (near_lit (1)) k21 (by norm_num [abs_of_nonneg, abs_of_nonpos])
  have k23 : near tanβ (1.30628690172016) (446e-10) :=
    near_mul k19 k22 (by norm_num [abs_of_nonneg, abs_of_nonpos])
  have k24 : near ((tanβ) * (tanβ)) (1.70638546960565) (117e-9) :=
    near_mul k23 k23 (by norm_num [abs_of_nonneg, abs_of_nonpos])
  have k25 : near ((1) + ((tanβ) * (tanβ))) (2.70638546960565) (117e-9) :=
    near_add (near_lit (1)) k24 (by norm_num [abs_of_nonneg, abs_of_nonpos])
  have k26 : near (Real.sqrt ((1) + ((tanβ) * (tanβ)))) (1.64510956158113) (392e-10) :=
    near_sqrt k25 (by norm_num) (by norm_num) (by norm_num) (by norm_num)
  have k27 : near sinβ (0.7940424955433823) (465e-10) :=
    near_div k23 k26 (by norm_num) (by norm_num [abs_of_nonneg, abs_of_nonpos])
  have k28 : near cosβ (0.6078622502436195) (57e-9) :=
    near_div k27 k23 (by norm_num) (by norm_num [abs_of_nonneg, abs_of_nonpos])
  have k29 : near ((ε2) * (b)) (42841.3115133124) (806e-13) :=
    near_mul k8 k2 (by norm_num [abs_of_nonneg, abs_of_nonpos])
  have k30 : near (((ε2) * (b)) * (sinβ)) (34017.821906382) (0.002) :=
    near_mul k29 k27 (by norm_num [abs_of_nonneg, abs_of_nonpos])
  have k31 : near ((((ε2) * (b)) * (sinβ)) * (sinβ)) (27011.5961994939) (0.00317) :=
    near_mul k30 k27 (by norm_num [abs_of_nonneg, abs_of_nonpos])
  have k32 : near (((((ε2) * (b)) * (sinβ)) * (sinβ)) * (sinβ)) (21448.3552548563) (0.00378) :=
    near_mul k31 k27 (by norm_num [abs_of_nonneg, abs_of_nonpos])
  have k33 : near (((CartesianD.mk x y z (some DatumId.WGS84)).z) + (((((ε2) * (b)) * (sinβ)) * (sinβ)) * (sinβ))) (5069030.88163021) (0.0703) :=
    near_add hz1 k32 (by norm_num [abs_of_nonneg, abs_of_nonpos])
  have k34 : near ((e2) * (a)) (42697.67270718) (493e-13) :=
    near_mul k6 k1 (by norm_num [abs_of_nonneg, abs_of_nonpos])
  have k35 : near (((e2) * (a)) * (cosβ)) (25954.303411952) (0.00244) :=
    near_mul k34 k28 (by norm_num [abs_of_nonneg, abs_of_nonpos])
  have k36 : near ((((e2) * (a)) * (cosβ)) * (cosβ)) (15776.6412754948) (0.00297) :=
    near_mul k35 k28 (by norm_num [abs_of_nonneg, abs_of_nonpos])
  have k37 : near (((((e2) * (a)) * (cosβ)) * (cosβ)) * (cosβ)) (9590.02466700864) (0.00271) :=
    near_mul k36 k28 (by norm_num [abs_of_nonneg, abs_of_nonpos])
  have k38 : near ((p) - (((((e2) * (a)) * (cosβ)) * (cosβ)) * (cosβ))) (3867445.46244152) (0.0819) :=
    near_sub k12 k37 (by norm_num [abs_of_nonneg, abs_of_nonpos])
  have k39 : near ((((CartesianD.mk x y z (some DatumId.WGS84)).z) + (((((ε2) * (b)) * (sinβ)) * (sinβ)) * (sinβ))) / ((p) - (((((e2) * (a)) * (cosβ)) * (cosβ)) * (cosβ)))) (1.310692272420599) (464e-10) :=
    near_div k33 k38 (by norm_num) (by norm_num [abs_of_nonneg, abs_of_nonpos])
  have k40 : near (Real.sin (0.9190550485227608)) (0.795028794260254) (101e-14) :=
    near_sin (near_lit (0.9190550485227608)) (by norm_num [abs_of_nonneg, abs_of_nonpos]) (by norm_num [abs_of_nonneg, abs_of_nonpos])
  have k41 : near (Real.cos (0.9190550485227608)) (0.606571690979238) (101e-14) :=
    near_cos (near_lit (0.9190550485227608)) (by norm_num [abs_of_nonneg, abs_of_nonpos]) (by norm_num [abs_of_nonneg, abs_of_nonpos])
  have k42 : near (Real.tan (0.9190550485227608)) (1.31069221673826) (389e-14) :=
    near_tan k40 k41 (by norm_num) (by norm_num [abs_of_nonneg, abs_of_nonpos])
  have k43 : near (Real.sin (0.9190550894973562)) (0.795028819114283) (101e-14) :=
    near_sin (near_lit (0.9190550894973562)) (by norm_num [abs_of_nonneg, abs_of_nonpos]) (by norm_num [abs_of_nonneg, abs_of_nonpos])
  have k44 : near (Real.cos (0.9190550894973562)) (0.606571658403255) (101e-14) :=
    near_cos (near_lit (0.9190550894973562)) (by norm_num [abs_of_nonneg, abs_of_nonpos]) (by norm_num [abs_of_nonneg, abs_of_nonpos])
  have k45 : near (Real.tan (0.9190550894973562)) (1.3106923281037) (389e-14) :=
    near_tan k43 k44 (by norm_num) (by norm_num [abs_of_nonneg, abs_of_nonpos])
  have k46eq : φ = Real.arctan ((((CartesianD.mk x y z (some DatumId.WGS84)).z) + (((((ε2) * (b)) * (sinβ)) * (sinβ)) * (sinβ))) / ((p) - (((((e2) * (a)) * (cosβ)) * (cosβ)) * (cosβ)))) := by
    show jsAtan2 (((CartesianD.mk x y z (some DatumId.WGS84)).z) + (((((ε2) * (b)) * (sinβ)) * (sinβ)) * (sinβ))) ((p) - (((((e2) * (a)) * (cosβ)) * (cosβ)) * (cosβ))) = Real.arctan ((((CartesianD.mk x y z (some DatumId.WGS84)).z) + (((((ε2) * (b)) * (sinβ)) * (sinβ)) * (sinβ))) / ((p) - (((((e2) * (a)) * (cosβ)) * (cosβ)) * (cosβ))))
    rw [jsAtan2, if_pos (lt_of_lt_of_le (show (0 : ℝ) < (3867445.46244152) - (0.0819) by norm_num)
      (near_lb k38))]
  have k46mem := arctan_bracket (by norm_num) (by norm_num) (by norm_num) (by norm_num)
    (le_trans (near_ub k42) (le_trans (show (1.31069221673826) + (389e-14) ≤
      (1.310692272420599) - (464e-10) by norm_num) (near_lb k39)))
    (le_trans (near_ub k39) (le_trans (show (1.310692272420599) + (464e-10) ≤
      (1.3106923281037) - (389e-14) by norm_num) (near_lb k45)))
  have k46 : near φ (0.9190550690100589) (205e-10) := by
    rw [k46eq]
    exact near_of_mem k46mem.1 k46mem.2 (by norm_num) (by norm_num)
  have k47 : near (((CartesianD.mk x y z (some DatumId.WGS84)).y) / ((CartesianD.mk x y z (some DatumId.WGS84)).x)) (0.02995947924725364) (227e-11) :=
    near_div hy1 hx1 (by norm_num) (by norm_num [abs_of_nonneg, abs_of_nonpos])
  have k48 : near (Real.sin (0.02995051776831216)) (0.0299460401994404) (101e-14) :=
    near_sin (near_lit (0.02995051776831216)) (by norm_num [abs_of_nonneg, abs_of_nonpos]) (by norm_num [abs_of_nonneg, abs_of_nonpos])
  have k49 : near (Real.cos (0.02995051776831216)) (0.999551516769583) (101e-14) :=
    near_cos (near_lit (0.02995051776831216)) (by norm_num [abs_of_nonneg, abs_of_nonpos]) (by norm_num [abs_of_nonneg, abs_of_nonpos])
  have k50 : near (Real.tan (0.02995051776831216)) (0.0299594765222527) (106e-14) :=
    near_tan k48 k49 (by norm_num) (by norm_num [abs_of_nonneg, abs_of_nonpos])
  have k51 : near (Real.sin (0.02995052321342659)) (0.0299460456421128) (101e-14) :=
    near_sin (near_lit (0.02995052321342659)) (by norm_num [abs_of_nonneg, abs_of_nonpos]) (by norm_num [abs_of_nonneg, abs_of_nonpos])
  have k52 : near (Real.cos (0.02995052321342659)) (0.999551516606523) (101e-14) :=
    near_cos (near_lit (0.02995052321342659)) (by norm_num [abs_of_nonneg, abs_of_nonpos]) (by norm_num [abs_of_nonneg, abs_of_nonpos])
  have k53 : near (Real.tan (0.02995052321342659)) (0.0299594819722545) (106e-14) :=
    near_tan k51 k52 (by norm_num) (by norm_num [abs_of_nonneg, abs_of_nonpos])
  have k54eq : lam = Real.arctan (((CartesianD.mk x y z (some DatumId.WGS84)).y) / ((CartesianD.mk x y z (some DatumId.WGS84)).x)) := by
    show jsAtan2 ((CartesianD.mk x y z (some DatumId.WGS84)).y) ((CartesianD.mk x y z (some DatumId.WGS84)).x) = Real.arctan (((CartesianD.mk x y z (some DatumId.WGS84)).y) / ((CartesianD.mk x y z (some DatumId.WGS84)).x))
    rw [jsAtan2, if_pos (lt_of_lt_of_le (show (0 : ℝ) < (3875296.70139273) - (0.0716) by norm_num)
      (near_lb hx1))]
  have k54mem := arctan_bracket (by norm_num) (by norm_num) (by norm_num) (by norm_num)
    (le_trans (near_ub k50) (le_trans (show (0.0299594765222527) + (106e-14) ≤
      (0.02995947924725364) - (227e-11) by norm_num) (near_lb k47)))
    (le_trans (near_ub k47) (le_trans (show (0.02995947924725364) + (227e-11) ≤
      (0.0299594819722545) - (106e-14) by norm_num) (near_lb k53)))
  have k54 : near lam (0.02995052049086938) (273e-11) := by
    rw [k54eq]
    exact near_of_mem k54mem.1 k54mem.2 (by norm_num) (by norm_num)
  have k55 : near ((φ) * (180)) (165.429912421811) (37e-7) :=
    near_mul k46 (near_lit (180)) (by norm_num [abs_of_nonneg, abs_of_nonpos])
  have k56 : near (((φ) * (180)) / (Real.pi)) (52.65797659438112) (119e-8) :=
    near_div k55 near_pi (by norm_num) (by norm_num [abs_of_nonneg, abs_of_nonpos])
  have k57 : near (toDegrees (φ)) (52.65797659438112) (119e-8) := k56
  have k58 : near ((lam) * (180)) (5.39109368835649) (492e-9) :=
    near_mul k54 (near_lit (180)) (by norm_num [abs_of_nonneg, abs_of_nonpos])
  have k59 : near (((lam) * (180)) / (Real.pi)) (1.716038418346907) (159e-9) :=
    near_div k58 near_pi (by norm_num) (by norm_num [abs_of_nonneg, abs_of_nonpos])
  have k60 : near (toDegrees (lam)) (1.716038418346907) (159e-9) := k59
  have hwp : Dms.wrap90 (toDegrees (φ)) = toDegrees (φ) :=
    wrap90_id (le_trans (show (-90 : ℝ) ≤ (52.65797659438112) - (119e-8) by norm_num)
      (near_lb k57))
      (le_trans (near_ub k57) (show (52.65797659438112) + (119e-8) ≤ (90 : ℝ) by norm_num))
  have hwla : Dms.wrap180 (toDegrees (lam)) = toDegrees (lam) :=
    wrap180_id (le_trans (show (-180 : ℝ) ≤ (1.716038418346907) - (159e-9) by norm_num)
      (near_lb k60))
      (le_trans (near_ub k60) (show (1.716038418346907) + (159e-9) ≤ (180 : ℝ) by norm_num))
  have helat : e._lat = Dms.wrap90 (toDegrees (φ)) := rfl
  have helon : e._lon = Dms.wrap180 (toDegrees (lam)) := rfl
  refine ⟨?_, ?_⟩
  · show near (Dms.wrap90 (e._lat)) (52.65797659438112) (119e-8)
    rw [helat, hwp, hwp]
    exact k57
  · show near (Dms.wrap180 (e._lon)) (1.716038418346907) (159e-9)
    rw [helon, hwla, hwla]
    exact k60


/-- Transfer of a `near` fact through the latitude wrap of the
datum-aware constructor, for in-range values. -/
theorem mkD_lat_near (lon ht : ℝ) (d : DatumId) {u m r : ℝ} (hu : near u m r)
    (h1 : -90 ≤ m - r) (h2 : m + r ≤ 90) : near ((LatLonD.mkD u lon ht d)._lat) m r := by
  show near (Dms.wrap90 u) m r
  rw [wrap90_id (le_trans h1 (near_lb hu)) (le_trans (near_ub hu) h2)]
  exact hu

/-- Transfer of a `near` fact through the longitude wrap of the
datum-aware constructor, for in-range values. -/
theorem mkD_lon_near (lat ht : ℝ) (d : DatumId) {u m r : ℝ} (hu : near u m r)
    (h1 : -180 ≤ m - r) (h2 : m + r ≤ 180) : near ((LatLonD.mkD lat u ht d)._lon) m r := by
  show near (Dms.wrap180 u) m r
  rw [wrap180_id (le_trans h1 (near_lb hu)) (le_trans (near_ub hu) h2)]
  exact hu

/-- From the projection-stage coordinates to the final WGS84 point of
toLatLon: datum conversion, Bowring, and the constructor wraps. -/
theorem c1_downstream {φ2v lamv : ℝ}
    (h2 : near φ2v (0.919047942895409) (103e-10))
    (hl : near lamv (0.0299831517472314) (116e-11)) :
    |(LatLonD.mkD
        ((LatLonD.mkD (toDegrees φ2v) (toDegrees lamv) 0
          DatumId.OSGB36).convertDatum DatumId.WGS84)._lat
        ((LatLonD.mkD (toDegrees φ2v) (toDegrees lamv) 0
          DatumId.OSGB36).convertDatum DatumId.WGS84)._lon
        ((LatLonD.mkD (toDegrees φ2v) (toDegrees lamv) 0
          DatumId.OSGB36).convertDatum DatumId.WGS84)._height
        ((LatLonD.mkD (toDegrees φ2v) (toDegrees lamv) 0
          DatumId.OSGB36).convertDatum DatumId.WGS84).datum)._lat - 52.65798| < 1e-4 ∧
    |(LatLonD.mkD
        ((LatLonD.mkD (toDegrees φ2v) (toDegrees lamv) 0
          DatumId.OSGB36).convertDatum DatumId.WGS84)._lat
        ((LatLonD.mkD (toDegrees φ2v) (toDegrees lamv) 0
          DatumId.OSGB36).convertDatum DatumId.WGS84)._lon
        ((LatLonD.mkD (toDegrees φ2v) (toDegrees lamv) 0
          DatumId.OSGB36).convertDatum DatumId.WGS84)._height
        ((LatLonD.mkD (toDegrees φ2v) (toDegrees lamv) 0
          DatumId.OSGB36).convertDatum DatumId.WGS84).datum)._lon - 1.71605| < 1e-4 := by
  have hc := c1_cart h2 hl
  have ht := c1_transform hc.1 hc.2.1 hc.2.2
  have hcd : (LatLonD.mkD (toDegrees φ2v) (toDegrees lamv) 0 DatumId.OSGB36).convertDatum
      DatumId.WGS84 =
      (((LatLonD.mkD (toDegrees φ2v) (toDegrees lamv) 0
          DatumId.OSGB36).toCartesian).convertDatumCore
        DatumId.OSGB36 DatumId.WGS84).toLatLon' := rfl
  have hcore : ((LatLonD.mkD (toDegrees φ2v) (toDegrees lamv) 0
        DatumId.OSGB36).toCartesian).convertDatumCore DatumId.OSGB36 DatumId.WGS84 =
      { ((LatLonD.mkD (toDegrees φ2v) (toDegrees lamv) 0
          DatumId.OSGB36).toCartesian).applyTransform
          ((Datum.transform DatumId.OSGB36).map Neg.neg) with datum := some DatumId.WGS84 } := by
    rw [CartesianD.convertDatumCore.eq_def, if_pos rfl]
  have hb := c1_bowring ht.1 ht.2.1 ht.2.2
  rw [hcd, hcore]
  constructor
  · exact near_lt (mkD_lat_near _ _ _ hb.1 (by norm_num) (by norm_num))
      (by norm_num [abs_of_nonneg, abs_of_nonpos])
  · exact near_lt (mkD_lon_near _ _ _ hb.2 (by norm_num) (by norm_num))
      (by norm_num [abs_of_nonneg, abs_of_nonpos])

/-- C1: parsing the grid reference 'TG 51409 13177' yields easting 651409 and
northing 313177, and toLatLon on that reference with the (default) WGS84
datum returns a point whose latitude is within 1e-4 degrees of 52.65798 and
whose longitude is within 1e-4 degrees of 1.71605. -/
theorem osgrid_fixed_point :
    OsGridRef.parse "TG 51409 13177" = Except.ok (⟨651409, 313177⟩ : OsGridRef) ∧
    |(OsGridRef.toLatLon ⟨651409, 313177⟩ DatumId.WGS84)._lat - 52.65798| < 1e-4 ∧
    |(OsGridRef.toLatLon ⟨651409, 313177⟩ DatumId.WGS84)._lon - 1.71605| < 1e-4 := by
  have heq : OsGridRef.toLatLon ⟨651409, 313177⟩ DatumId.WGS84 =
      (let pr := osProject (osLoop ((313177 : ℚ) : ℝ) (osStop ((313177 : ℚ) : ℝ))).1
        ((651409 : ℚ) : ℝ)
       let point := LatLonD.mkD (toDegrees pr.1) (toDegrees pr.2) 0 DatumId.OSGB36
       let point2 := point.convertDatum DatumId.WGS84
       LatLonD.mkD point2._lat point2._lon point2._height point2.datum) := rfl
  have hq1 : ((313177 : ℚ) : ℝ) = 313177 := by norm_num
  have hq2 : ((651409 : ℚ) : ℝ) = 651409 := by norm_num
  rw [hq1, hq2] at heq
  have hpr := c1_project c1_phi1_bracket
  have hmain := c1_downstream hpr.1 hpr.2
  refine ⟨by decide, ?_, ?_⟩
  · rw [heq]; exact hmain.1
  · rw [heq]; exact hmain.2

end Geodesy
